import Mathlib

/-!
# SCI kernel graphics calls (engines/sci/engine/kgraphics.cpp)

A shallow embedding of the kernel entry points of `kgraphics.cpp` that deal with
rectangles, the palette engine, pictures, cels, the cursor, ports and list
controls, together with the properties that the design document states about
them. Further parts of the program follow in namespaces of their own: the
error handling and the subtitle controls of the options dialog
(`gui/options.cpp`), the palette and the clock of the libretro backend
(`backends/platform/libretro/libretro_os.cpp`), the pause counter of the
Ultima 8 kernel (`engines/ultima/ultima8/kernel/kernel.h`) and the render mode
tables (`common/rendermode.cpp`). The definitions of all parts come first, their
properties after.

Conventions of the embedding:

* a kernel argument vector `reg_t *argv` with its count `argc` is a `List reg_t`
  (`argc` is its length); reading `argv[i]` outside the vector has no defined
  result and makes the embedded call return `none`;
* calls into collaborators (palette engine, throttler, host) are appended, in
  program order, to the call log `EngineState.calls`;
* what the collaborators answer during one kernel call is given by a `Host`
  record.
-/

namespace Sci

/-! ## VM values -/

/-- Modelled from the spec: the VM's tagged value `reg_t` (its declaration,
`vm_types.h`, is not part of the sources at hand): a segment and a 16-bit
offset; a small integer is a value with segment 0. -/
structure reg_t where
  segment : Nat
  offset : Nat
deriving DecidableEq, Repr

/-- Builds a `reg_t` from a segment and an offset: `make_reg(segment, offset)`. -/
def make_reg (segment offset : Nat) : reg_t := ⟨segment, offset⟩

/-- The null value `NULL_REG`. -/
def NULL_REG : reg_t := make_reg 0 0

/-- The offset read as an unsigned 16-bit integer: `reg_t::toUint16()`. -/
def reg_t.toUint16 (r : reg_t) : Nat := r.offset % 65536

/-- The offset read as a signed 16-bit integer: `reg_t::toSint16()`. -/
def reg_t.toSint16 (r : reg_t) : Int :=
  if r.offset % 65536 < 32768 then (r.offset % 65536 : Nat) else ((r.offset % 65536 : Nat) : Int) - 65536

/-- Null test `reg_t::isNull()`: neither a segment nor an offset. -/
def reg_t.isNull (r : reg_t) : Bool := r.offset == 0 && r.segment == 0

/-- Conversion of an integer to `int16` (two's complement wrap-around). -/
def toInt16 (v : Int) : Int := (v + 32768) % 65536 - 32768

/-- The read `argv[i]`; `none` when `i` lies outside the argument vector. -/
def argvAt (argv : List reg_t) (i : Int) : Option reg_t :=
  if 0 ≤ i then argv[i.toNat]? else none

/-! ## Rectangles -/

/-- The rectangle `Common::Rect`, with the field order of its constructor
`Rect(x1, y1, x2, y2)`: `left = x1`, `top = y1`, `right = x2`, `bottom = y2`. -/
structure Rect where
  top : Int
  left : Int
  bottom : Int
  right : Int
deriving DecidableEq, Repr

/-- The constructor call `Common::Rect(x1, y1, x2, y2)`. -/
def Rect.ofCorners (x1 y1 x2 y2 : Int) : Rect := ⟨y1, x1, y2, x2⟩

/-- The validity condition of a rectangle: `left <= right && top <= bottom`. -/
def Rect.isValidRect (r : Rect) : Bool := decide (r.left ≤ r.right) && decide (r.top ≤ r.bottom)

/-- The area `(right - left) * (bottom - top)` spanned by a rectangle. -/
def Rect.area (r : Rect) : Int := (r.right - r.left) * (r.bottom - r.top)

/-- The function `getGraphRect`: reads (y, x, y1, x1) from `argv[0..3]` and swaps
each coordinate pair that is out of order. -/
def getGraphRect (argv : List reg_t) : Option Rect := do
  let x := (← argvAt argv 1).toSint16
  let y := (← argvAt argv 0).toSint16
  let x1 := (← argvAt argv 3).toSint16
  let y1 := (← argvAt argv 2).toSint16
  let (x, x1) := if x > x1 then (x1, x) else (x, x1)
  let (y, y1) := if y > y1 then (y1, y) else (y, y1)
  pure (Rect.ofCorners x y x1 y1)

/-- The function `kControlCreateRect`: the top-left corner stays, a bottom-right
coordinate that lies before it is pulled onto it. -/
def kControlCreateRect (x y x1 y1 : Int) : Rect :=
  let x1 := if x > x1 then x else x1
  let y1 := if y > y1 then y else y1
  Rect.ofCorners x y x1 y1

/-! ## Engine state, collaborators and the call log -/

/-- The game identifiers that `kgraphics.cpp` tells apart in the palette calls;
every other game is `GID_OTHER`. -/
inductive SciGameId
  | GID_SQ4
  | GID_PQ1
  | GID_PQ3
  | GID_OTHER
deriving DecidableEq, Repr

/-- A call into a collaborator of the kernel layer, with the arguments passed. -/
inductive Call
  | kernelSetFromResource (resourceId : Nat) (force : Bool)
  | kernelSetFlag (fromColor toColor flags : Nat)
  | kernelUnsetFlag (fromColor toColor flags : Nat)
  | kernelSetIntensity (fromColor toColor intensity : Nat) (setPalette : Bool)
  | kernelAnimate (fromColor toColor : Nat) (speed : Int)
  | kernelAnimateSet
  | speedThrottler (neededSleep : Nat)
  | wait (ticks : Nat)
  | kWaitHook
  | sleep (msecs : Nat)
  | updateScreen
deriving DecidableEq, Repr

/-- Modelled from the spec: the part of `EngineState` that the palette calls and
`kWait` touch (its declaration, `state.h`, is not part of the sources at hand):
the accumulator, the set-intensity counter (a counter of calls, a natural
number), the throttle trigger, and the log of collaborator calls made so far,
oldest first. -/
structure EngineState where
  r_acc : reg_t
  _paletteSetIntensityCounter : Nat
  _throttleTrigger : Bool
  calls : List Call
deriving DecidableEq, Repr

/-- What the collaborators answer during one kernel call. -/
structure Host where
  /-- The result of `getTotalColorCount()`. -/
  totalColorCount : Nat
  /-- The result of `getGameId()`. -/
  gameId : SciGameId
  /-- The result of `isCD()`. -/
  isCD : Bool
  /-- The result of `currentRoomNumber()`. -/
  currentRoomNumber : Nat
  /-- The result of `kWaitHook()`. -/
  kWaitHook : Bool
  /-- The result of `s->wait(ticks)`, an unsigned 16-bit number of ticks. -/
  waitDelta : Nat
  /-- The value in which `speedThrottler` leaves the throttle trigger. -/
  throttleTriggerAfter : Bool
  /-- The result of the `i`-th `kernelAnimate` call of this kernel call. -/
  kernelAnimate : Nat → Bool

/-- Appends one collaborator call to the log. -/
def EngineState.log (s : EngineState) (c : Call) : EngineState :=
  { s with calls := s.calls ++ [c] }

/-- Modelled from the spec: `EngineState::speedThrottler` (`state.cpp` is not part
of the sources at hand), the cooperative yield: the call is logged, it leaves
the throttle trigger in a state of its own choosing and does not touch the
set-intensity counter. -/
def EngineState.speedThrottler (h : Host) (s : EngineState) (neededSleep : Nat) : EngineState :=
  { s with _throttleTrigger := h.throttleTriggerAfter,
           calls := s.calls ++ [Call.speedThrottler neededSleep] }

/-- Modelled from the spec: the template `CLIP` of `common/util.h` (not part of
the sources at hand), the clamp of `v` into `[amin, amax]`. -/
def CLIP (v amin amax : Nat) : Nat :=
  if v < amin then amin else if v > amax then amax else v

/-! ## Kernel calls -/

/-- The kernel call `kWait`. -/
def kWait (h : Host) (s : EngineState) (argv : List reg_t) : Option (reg_t × EngineState) := do
  let ticks := (← argvAt argv 0).toUint16
  let s := s.log (Call.wait ticks)
  let delta := h.waitDelta % 65536
  let s := s.log Call.kWaitHook
  if h.kWaitHook then
    pure (NULL_REG, s)
  else
    let s := { s with _paletteSetIntensityCounter := 0 }
    pure (make_reg 0 delta, s)

/-- The kernel call `kPaletteSetFromResource`. -/
def kPaletteSetFromResource (h : Host) (s : EngineState) (argv : List reg_t) :
    Option (reg_t × EngineState) := do
  let resourceId := (← argvAt argv 0).toUint16
  let force ← if argv.length = 2 then (argvAt argv 1).map (fun r => decide (r.toUint16 = 2))
              else pure false
  if h.totalColorCount < 64 then
    pure (s.r_acc, s)
  else
    let s := s.log (Call.kernelSetFromResource resourceId force)
    pure (s.r_acc, s)

/-- The kernel call `kPaletteSetFlag`. -/
def kPaletteSetFlag (s : EngineState) (argv : List reg_t) : Option (reg_t × EngineState) := do
  let fromColor := CLIP (← argvAt argv 0).toUint16 1 255
  let toColor := CLIP (← argvAt argv 1).toUint16 1 255
  let flags := (← argvAt argv 2).toUint16
  let s := s.log (Call.kernelSetFlag fromColor toColor flags)
  pure (s.r_acc, s)

/-- The kernel call `kPaletteUnsetFlag`. -/
def kPaletteUnsetFlag (s : EngineState) (argv : List reg_t) : Option (reg_t × EngineState) := do
  let fromColor := CLIP (← argvAt argv 0).toUint16 1 255
  let toColor := CLIP (← argvAt argv 1).toUint16 1 255
  let flags := (← argvAt argv 2).toUint16
  let s := s.log (Call.kernelUnsetFlag fromColor toColor flags)
  pure (s.r_acc, s)

/-- The flag `setPalette` of `kPaletteSetIntensity` (apply immediately):
`(argc < 4) ? true : (argv[3].isNull()) ? true : false`. -/
def setPaletteArg (argv : List reg_t) : Option Bool :=
  if argv.length < 4 then pure true
  else (argvAt argv 3).map (fun r => if r.isNull then true else false)

/-- The kernel call `kPaletteSetIntensity`. -/
def kPaletteSetIntensity (h : Host) (s : EngineState) (argv : List reg_t) :
    Option (reg_t × EngineState) := do
  let fromColor := CLIP (← argvAt argv 0).toUint16 1 255
  let toColor := CLIP (← argvAt argv 1).toUint16 1 255
  let intensity := (← argvAt argv 2).toUint16
  let setPalette ← setPaletteArg argv
  if h.totalColorCount < 256 then
    pure (s.r_acc, s)
  else
    let s :=
      if setPalette then
        let s := if s._paletteSetIntensityCounter > 0 then s.speedThrottler h 30 else s
        let s := { s with _paletteSetIntensityCounter := s._paletteSetIntensityCounter + 1 }
        { s with _throttleTrigger := true }
      else s
    let s := s.log (Call.kernelSetIntensity fromColor toColor intensity setPalette)
    pure (s.r_acc, s)

/-- The loop of `kPaletteAnimate`,
`for (argNr = 0; argNr < argc; argNr += 3)` with an `int16` index `argNr`;
`done` counts the `kernelAnimate` calls made so far. Every iteration consumes one
unit of `fuel`. -/
def kPaletteAnimateLoop (h : Host) (argv : List reg_t) :
    Nat → Int → Nat → Bool → EngineState → Option (Bool × EngineState)
  | 0, _, _, _, _ => none
  | fuel + 1, argNr, done, paletteChanged, s =>
    if argNr < (argv.length : Int) then do
      let fromColor := (← argvAt argv argNr).toUint16
      let toColor := (← argvAt argv (argNr + 1)).toUint16
      let speed := (← argvAt argv (argNr + 2)).toSint16
      let s := s.log (Call.kernelAnimate fromColor toColor speed)
      let paletteChanged := if h.kernelAnimate done then true else paletteChanged
      kPaletteAnimateLoop h argv fuel (toInt16 (argNr + 3)) (done + 1) paletteChanged s
    else
      pure (paletteChanged, s)

/-- The kernel call `kPaletteAnimate`. The loop index starts at 0 and, being an
`int16` that grows by 3, takes fewer than 32768 values before it leaves the
vector or wraps to a negative index, so 32768 units of fuel serve every run. -/
def kPaletteAnimate (h : Host) (s : EngineState) (argv : List reg_t) :
    Option (reg_t × EngineState) := do
  let (paletteChanged, s) ←
    if h.totalColorCount = 256 then do
      let (paletteChanged, s) ← kPaletteAnimateLoop h argv 32768 0 0 false s
      let s := if paletteChanged then s.log Call.kernelAnimateSet else s
      pure (paletteChanged, s)
    else
      pure (false, s)
  let s := if h.gameId = SciGameId.GID_SQ4 ∧ h.isCD = false then s.log (Call.sleep 10) else s
  let s ←
    if (h.gameId = SciGameId.GID_PQ1 ∧ h.currentRoomNumber = 1) ∨
       (h.gameId = SciGameId.GID_PQ3 ∧ h.currentRoomNumber = 2) then do
      let fromColor := (← argvAt argv 0).toUint16
      if fromColor ≥ 208 ∧ paletteChanged then pure (s.log Call.updateScreen) else pure s
    else
      pure s
  pure (s.r_acc, s)

/-! ## Sequences of kernel calls -/

/-- The kernel entry points embedded above. -/
inductive KernelCall
  | kWait
  | kPaletteSetFromResource
  | kPaletteSetFlag
  | kPaletteUnsetFlag
  | kPaletteSetIntensity
  | kPaletteAnimate
deriving DecidableEq, Repr

/-- One dispatched kernel call: the entry point, what the collaborators answer
while it runs, and its argument vector. -/
structure Invocation where
  fn : KernelCall
  host : Host
  argv : List reg_t

/-- Runs one kernel call on the engine state. -/
def Invocation.exec (c : Invocation) (s : EngineState) : Option (reg_t × EngineState) :=
  match c.fn with
  | KernelCall.kWait => kWait c.host s c.argv
  | KernelCall.kPaletteSetFromResource => kPaletteSetFromResource c.host s c.argv
  | KernelCall.kPaletteSetFlag => kPaletteSetFlag s c.argv
  | KernelCall.kPaletteUnsetFlag => kPaletteUnsetFlag s c.argv
  | KernelCall.kPaletteSetIntensity => kPaletteSetIntensity c.host s c.argv
  | KernelCall.kPaletteAnimate => kPaletteAnimate c.host s c.argv

/-- Runs kernel calls one after the other on the same engine state; the value a
call returns goes back to the bytecode VM. -/
def runCalls : List Invocation → EngineState → Option EngineState
  | [], s => some s
  | c :: cs, s => do
    let (_, s) ← c.exec s
    runCalls cs s

/-- An immediate `kPaletteSetIntensity` call: `argc < 4` or `argv[3]` null. -/
def Invocation.isImmediateSetIntensity (c : Invocation) : Bool :=
  decide (c.fn = KernelCall.kPaletteSetIntensity) &&
    (decide (c.argv.length < 4) || (c.argv.getD 3 NULL_REG).isNull)

/-- A `kWait` call during which `kWaitHook` answers false. -/
def Invocation.isPlainWait (c : Invocation) : Bool :=
  decide (c.fn = KernelCall.kWait) && !c.host.kWaitHook

/-- Holds of a call sequence in which every immediate `kPaletteSetIntensity` call
is directly preceded by a `kWait` call whose hook answers false; `prevWait` tells
whether the call before the sequence was such a `kWait`. -/
def eachSetIntensityAfterWait : Bool → List Invocation → Bool
  | _, [] => true
  | prevWait, c :: cs =>
    (!c.isImmediateSetIntensity || prevWait) && eachSetIntensityAfterWait c.isPlainWait cs

/-- Whether a logged call is a `speedThrottler` call. -/
def Call.isSpeedThrottler : Call → Bool
  | Call.speedThrottler _ => true
  | _ => false

/-- Whether a logged call goes to the palette engine. -/
def Call.isPaletteEngine : Call → Bool
  | Call.kernelSetFromResource _ _ => true
  | Call.kernelSetFlag _ _ _ => true
  | Call.kernelUnsetFlag _ _ _ => true
  | Call.kernelSetIntensity _ _ _ _ => true
  | Call.kernelAnimate _ _ _ => true
  | Call.kernelAnimateSet => true
  | _ => false

/-- The colour range (fromColor, toColor) that a palette-engine call targets, if
it is a range operation. -/
def Call.range : Call → Option (Nat × Nat)
  | Call.kernelSetFlag f t _ => some (f, t)
  | Call.kernelUnsetFlag f t _ => some (f, t)
  | Call.kernelSetIntensity f t _ _ => some (f, t)
  | Call.kernelAnimate f t _ => some (f, t)
  | _ => none

/-- The `kernelSetIntensity` call that `kPaletteSetIntensity` is expected to make
for an argument vector: clamped range, intensity, apply-immediately flag. -/
def expectedSetIntensity (argv : List reg_t) (setPalette : Bool) : Call :=
  Call.kernelSetIntensity (CLIP (argv.getD 0 NULL_REG).toUint16 1 255)
    (CLIP (argv.getD 1 NULL_REG).toUint16 1 255) (argv.getD 2 NULL_REG).toUint16 setPalette

/-- The `kernelAnimate` call that `kPaletteAnimate` is expected to make for the
`i`-th triple of an argument vector. -/
def expectedAnimate (argv : List reg_t) (i : Nat) : Call :=
  Call.kernelAnimate (argv.getD (3 * i) NULL_REG).toUint16
    (argv.getD (3 * i + 1) NULL_REG).toUint16 (argv.getD (3 * i + 2) NULL_REG).toSint16

/-- The host calls that the per-title workarounds at the end of `kPaletteAnimate`
add: a 10 ms sleep in SQ4 floppy, a screen update for the police lights of the
PQ1 and PQ3 title screens. -/
def animateWorkarounds (h : Host) (argv : List reg_t) (paletteChanged : Bool) : List Call :=
  (if h.gameId = SciGameId.GID_SQ4 ∧ h.isCD = false then [Call.sleep 10] else []) ++
  (if ((h.gameId = SciGameId.GID_PQ1 ∧ h.currentRoomNumber = 1) ∨
        (h.gameId = SciGameId.GID_PQ3 ∧ h.currentRoomNumber = 2)) ∧
       (argv.getD 0 NULL_REG).toUint16 ≥ 208 ∧ paletteChanged = true
   then [Call.updateScreen] else [])

/-! ## Sample hosts and states -/

/-- A host with the given colour count, for a game without workarounds; its
palette engine reports `changed` on every `kernelAnimate`. -/
def sampleHost (colors : Nat) (changed : Bool) : Host :=
  { totalColorCount := colors, gameId := SciGameId.GID_OTHER, isCD := false,
    currentRoomNumber := 0, kWaitHook := false, waitDelta := 6,
    throttleTriggerAfter := false, kernelAnimate := fun _ => changed }

/-- An engine state with an empty call log and the given set-intensity counter. -/
def sampleState (counter : Nat) : EngineState :=
  { r_acc := make_reg 0 7, _paletteSetIntensityCounter := counter,
    _throttleTrigger := false, calls := [] }

/-- A small-integer argument vector. -/
def intArgs (vs : List Nat) : List reg_t := vs.map (make_reg 0)

/-! ## Drawing, cursor and port calls -/

/-- The view types that `kgraphics.cpp` tells apart (`getViewType()`); every
view type other than EGA is `kViewOther`. -/
inductive ViewType
  | kViewEga
  | kViewOther
deriving DecidableEq, Repr

/-- The platforms that `kgraphics.cpp` tells apart (`getPlatform()`); every
platform other than the Macintosh is `kPlatformOther`. -/
inductive Platform
  | kPlatformMacintosh
  | kPlatformOther
deriving DecidableEq, Repr

/-- Modelled from the spec: the interpreter versions `SciVersion` (the
enumeration is declared in `sci.h`, not part of the sources at hand), oldest
first. -/
inductive SciVersion
  | SCI_VERSION_NONE
  | SCI_VERSION_0_EARLY
  | SCI_VERSION_0_LATE
  | SCI_VERSION_01
  | SCI_VERSION_1_EGA_ONLY
  | SCI_VERSION_1_EARLY
  | SCI_VERSION_1_MIDDLE
  | SCI_VERSION_1_LATE
  | SCI_VERSION_1_1
  | SCI_VERSION_2
  | SCI_VERSION_2_1_EARLY
  | SCI_VERSION_2_1_MIDDLE
  | SCI_VERSION_2_1_LATE
  | SCI_VERSION_3
deriving DecidableEq, Repr

/-- The numeric value of a version, by which versions are compared. -/
def SciVersion.rank : SciVersion → Nat
  | SCI_VERSION_NONE => 0
  | SCI_VERSION_0_EARLY => 1
  | SCI_VERSION_0_LATE => 2
  | SCI_VERSION_01 => 3
  | SCI_VERSION_1_EGA_ONLY => 4
  | SCI_VERSION_1_EARLY => 5
  | SCI_VERSION_1_MIDDLE => 6
  | SCI_VERSION_1_LATE => 7
  | SCI_VERSION_1_1 => 8
  | SCI_VERSION_2 => 9
  | SCI_VERSION_2_1_EARLY => 10
  | SCI_VERSION_2_1_MIDDLE => 11
  | SCI_VERSION_2_1_LATE => 12
  | SCI_VERSION_3 => 13

/-- The facts about the running game that the drawing and cursor calls ask the
engine for. -/
structure Engine where
  /-- The result of `getSciVersion()`. -/
  sciVersion : SciVersion
  /-- The result of `getPlatform()`. -/
  platform : Platform
  /-- The result of `getResMan()->getViewType()`. -/
  viewType : ViewType
  /-- The result of `_features->usesOldGfxFunctions()`. -/
  usesOldGfxFunctions : Bool
deriving DecidableEq, Repr

/-- A call into the drawing, cursor, animate, port or palette-vary
collaborators, with the arguments passed. -/
inductive GfxCall
  | kernelDrawCel (viewId loopNo celNo : Int) (x y : Nat) (priority : Int)
      (paletteNo scaleX scaleY : Nat) (hiresMode : Bool) (upscaledHiresHandle : reg_t)
  | kernelDrawPicture (pictureId : Nat) (animationNr : Int)
      (animationBlackoutFlag mirroredFlag addToFlag : Bool) (EGApaletteNo : Int)
  | kernelHide
  | kernelClearZoomZone
  | kernelResetMoveZone
  | kernelShow
  | kernelSetPos (x y : Int)
  | kernelSetMoveZone (zone : Rect)
  | kernelSetMacCursor (viewNum loopNum celNum : Nat)
  | kernelSetView (viewNum loopNum celNum : Nat) (hotspot : Option (Int × Int))
  | kernelSetZoomZone (multiplier : Nat) (zone : Rect)
      (viewNum loopNum celNum picNum transparent : Nat)
  | warning
  | kernelAddToPicList (listReference : reg_t) (argc : Nat) (argv : List reg_t)
  | kernelAddToPicView (viewId : Nat) (loopNo celNo leftPos topPos priority control : Int)
  | kernelSetActive (portId : Nat)
  | kernelSetPicWindow (picRect : Rect) (picTop picLeft : Int) (initPriorityBandsFlag : Bool)
  | kernelPalVaryInit (paletteId ticks stepStop direction : Nat)
deriving DecidableEq, Repr

/-- The ways in which a kernel call ends without returning: the fatal `error(...)`
of the engine, or a read outside the argument vector. -/
inductive Fault
  | error (text : String)
  | argvOutOfRange
deriving DecidableEq, Repr

/-- The read `argv[i]` in a call that may also end in a fatal error. -/
def argvGet (argv : List reg_t) (i : Int) : Except Fault reg_t :=
  match argvAt argv i with
  | some r => Except.ok r
  | none => Except.error Fault.argvOutOfRange

/-- The two's complement encoding of a C `int` (32 bits). -/
def toUint32 (v : Int) : Nat := (v % 4294967296).toNat

/-- Modelled from the spec: the constant `SIGNAL_REG` of `vm_types.h` (not part of
the sources at hand), a result value distinct from `NULL_REG`: offset 0xffff, no
segment. -/
def SIGNAL_REG : reg_t := make_reg 0 65535

/-- The function `adjustGraphColor`: in EGA games only the low nibble of a colour
counts (`color & 0x0F`, computed on the bit pattern of the promoted `int`). -/
def adjustGraphColor (g : Engine) (color : Int) : Int :=
  if g.viewType = ViewType.kViewEga then
    toInt16 ((toUint32 color &&& 0x0F : Nat) : Int)
  else
    color

/-- The kernel call `kDrawCel`. -/
def kDrawCel (s : EngineState) (argv : List reg_t) : Option (reg_t × List GfxCall) := do
  let argc := argv.length
  let viewId := (← argvAt argv 0).toSint16
  let loopNo := (← argvAt argv 1).toSint16
  let celNo := (← argvAt argv 2).toSint16
  let x := (← argvAt argv 3).toUint16
  let y := (← argvAt argv 4).toUint16
  let priority ← if argc > 5 then (argvAt argv 5).map reg_t.toSint16 else pure (-1)
  let paletteNo ← if argc > 6 then (argvAt argv 6).map reg_t.toUint16 else pure 0
  let (hiresMode, upscaledHiresHandle, scaleX, scaleY, paletteNo) ←
    if argc > 7 then
      if paletteNo > 0 then do
        let scaleX := (← argvAt argv 6).toUint16
        let scaleY := (← argvAt argv 7).toUint16
        pure (false, NULL_REG, scaleX, scaleY, 0)
      else do
        let handle ← argvAt argv 7
        pure (true, handle, 128, 128, paletteNo)
    else
      pure (false, NULL_REG, 128, 128, paletteNo)
  pure (s.r_acc, [GfxCall.kernelDrawCel viewId loopNo celNo x y priority paletteNo scaleX scaleY
    hiresMode upscaledHiresHandle])

/-- The flag `K_DRAWPIC_FLAGS_MIRRORED`, `1 << 14`. -/
def K_DRAWPIC_FLAGS_MIRRORED : Nat := 2 ^ 14

/-- The flag `K_DRAWPIC_FLAGS_ANIMATIONBLACKOUT`, `1 << 15`. -/
def K_DRAWPIC_FLAGS_ANIMATIONBLACKOUT : Nat := 2 ^ 15

/-- The kernel call `kDrawPic`. -/
def kDrawPic (g : Engine) (s : EngineState) (argv : List reg_t) :
    Option (reg_t × List GfxCall) := do
  let argc := argv.length
  let pictureId := (← argvAt argv 0).toUint16
  let (animationNr, animationBlackoutFlag, mirroredFlag) ←
    if argc ≥ 2 then do
      let flags := (← argvAt argv 1).toUint16
      let animationBlackoutFlag := decide (flags &&& K_DRAWPIC_FLAGS_ANIMATIONBLACKOUT ≠ 0)
      let animationNr := toInt16 ((flags &&& 0xFF : Nat) : Int)
      let mirroredFlag :=
        if g.platform ≠ Platform.kPlatformMacintosh then
          decide (flags &&& K_DRAWPIC_FLAGS_MIRRORED ≠ 0)
        else false
      pure (animationNr, animationBlackoutFlag, mirroredFlag)
    else
      pure ((-1 : Int), false, false)
  let addToFlag ←
    if argc ≥ 3 then do
      let addToFlag := !(← argvAt argv 2).isNull
      pure (if !g.usesOldGfxFunctions then !addToFlag else addToFlag)
    else
      pure false
  let EGApaletteNo ←
    if argc ≥ 4 then (argvAt argv 3).map (fun r => toInt16 (r.toUint16 : Int)) else pure (0 : Int)
  pure (s.r_acc, [GfxCall.kernelDrawPicture pictureId animationNr animationBlackoutFlag
    mirroredFlag addToFlag EGApaletteNo])

/-- The kernel call `kSetCursorSci11`. -/
def kSetCursorSci11 (g : Engine) (s : EngineState) (argv : List reg_t) :
    Except Fault (reg_t × List GfxCall) := do
  let argc := argv.length
  let calls ←
    if argc = 1 then do
      let v := (← argvGet argv 0).toSint16
      if v = 0 then pure [GfxCall.kernelHide]
      else if v = -1 then pure [GfxCall.kernelClearZoomZone]
      else if v = -2 then pure [GfxCall.kernelResetMoveZone]
      else pure [GfxCall.kernelShow]
    else if argc = 2 then do
      let y := (← argvGet argv 1).toSint16
      let x := (← argvGet argv 0).toSint16
      pure [GfxCall.kernelSetPos x y]
    else if argc = 4 then do
      let (top, left, bottom, right) ←
        if g.sciVersion.rank ≥ SciVersion.SCI_VERSION_2.rank then do
          let top := (← argvGet argv 1).toSint16
          let left := (← argvGet argv 0).toSint16
          let bottom := (← argvGet argv 3).toSint16
          let right := (← argvGet argv 2).toSint16
          pure (top, left, bottom, right)
        else do
          let top := (← argvGet argv 0).toSint16
          let left := (← argvGet argv 1).toSint16
          let bottom := (← argvGet argv 2).toSint16
          let right := (← argvGet argv 3).toSint16
          pure (top, left, bottom, right)
      let bottom := toInt16 (bottom + 1)
      let right := toInt16 (right + 1)
      if right ≥ left ∧ bottom ≥ top then
        pure [GfxCall.kernelSetMoveZone (Rect.ofCorners left top right bottom)]
      else
        pure [GfxCall.warning]
    else if argc = 9 ∨ argc = 5 ∨ argc = 3 then do
      let hotspot ←
        if argc = 9 ∨ argc = 5 then do
          let hx := (← argvGet argv 3).toSint16
          let hy := (← argvGet argv 4).toSint16
          pure (some (hx, hy))
        else
          pure none
      let viewNum := (← argvGet argv 0).toUint16
      let loopNum := (← argvGet argv 1).toUint16
      let celNum := (← argvGet argv 2).toUint16
      if g.platform = Platform.kPlatformMacintosh then
        pure [GfxCall.kernelSetMacCursor viewNum loopNum celNum]
      else
        pure [GfxCall.kernelSetView viewNum loopNum celNum hotspot]
    else if argc = 10 then do
      let multiplier := (← argvGet argv 0).toUint16
      let zone := Rect.ofCorners (toInt16 (← argvGet argv 1).toUint16)
        (toInt16 (← argvGet argv 2).toUint16) (toInt16 (← argvGet argv 3).toUint16)
        (toInt16 (← argvGet argv 4).toUint16)
      let viewNum := (← argvGet argv 5).toUint16
      let loopNum := (← argvGet argv 6).toUint16
      let celNum := (← argvGet argv 7).toUint16
      let picNum := (← argvGet argv 8).toUint16
      let transparent := (← argvGet argv 9).toUint16
      pure [GfxCall.kernelSetZoomZone multiplier zone viewNum loopNum celNum picNum transparent]
    else
      throw (Fault.error "kSetCursor: Unhandled case: %d arguments given")
  pure (s.r_acc, calls)

/-- The kernel call `kAddToPic`. -/
def kAddToPic (s : EngineState) (argv : List reg_t) : Except Fault (reg_t × List GfxCall) := do
  let argc := argv.length
  let calls ←
    if argc = 1 then do
      let a0 ← argvGet argv 0
      if a0.isNull then pure []
      else pure [GfxCall.kernelAddToPicList a0 argc argv]
    else if argc = 7 then do
      let viewId := (← argvGet argv 0).toUint16
      let loopNo := (← argvGet argv 1).toSint16
      let celNo := (← argvGet argv 2).toSint16
      let leftPos := (← argvGet argv 3).toSint16
      let topPos := (← argvGet argv 4).toSint16
      let priority := (← argvGet argv 5).toSint16
      let control := (← argvGet argv 6).toSint16
      pure [GfxCall.kernelAddToPicView viewId loopNo celNo leftPos topPos priority control]
    else
      throw (Fault.error "kAddToPic with unsupported parameter count %d")
  pure (s.r_acc, calls)

/-- The kernel call `kSetPort`. -/
def kSetPort (s : EngineState) (argv : List reg_t) : Except Fault (reg_t × List GfxCall) := do
  let argc := argv.length
  let calls ←
    if argc = 1 then do
      let portId := ((← argvGet argv 0).toSint16 % 65536).toNat
      pure [GfxCall.kernelSetActive portId]
    else if argc = 7 ∨ argc = 6 then do
      let initPriorityBandsFlag := decide (argc = 7)
      let top := (← argvGet argv 0).toSint16
      let left := (← argvGet argv 1).toSint16
      let bottom := (← argvGet argv 2).toSint16
      let right := (← argvGet argv 3).toSint16
      let picTop := (← argvGet argv 4).toSint16
      let picLeft := (← argvGet argv 5).toSint16
      pure [GfxCall.kernelSetPicWindow ⟨top, left, bottom, right⟩ picTop picLeft
        initPriorityBandsFlag]
    else
      throw (Fault.error "SetPort was called with %d parameters")
  pure (s.r_acc, calls)

/-- The kernel call `kPalVaryInit`; `initOk` is what the palette engine's
`kernelPalVaryInit` answers. -/
def kPalVaryInit (initOk : Bool) (argv : List reg_t) : Option (reg_t × List GfxCall) := do
  let argc := argv.length
  let paletteId := (← argvAt argv 0).toUint16
  let ticks := (← argvAt argv 1).toUint16
  let stepStop ← if argc ≥ 3 then (argvAt argv 2).map reg_t.toUint16 else pure 64
  let direction ← if argc ≥ 4 then (argvAt argv 3).map reg_t.toUint16 else pure 1
  let calls := [GfxCall.kernelPalVaryInit paletteId ticks stepStop direction]
  if initOk then pure (SIGNAL_REG, calls) else pure (NULL_REG, calls)

/-- An EGA game run by a late SCI0 interpreter on a PC. -/
def egaEngine : Engine :=
  ⟨SciVersion.SCI_VERSION_0_LATE, Platform.kPlatformOther, ViewType.kViewEga, true⟩

/-- A VGA game run by an SCI1.1 interpreter on a PC. -/
def vgaEngine : Engine :=
  ⟨SciVersion.SCI_VERSION_1_1, Platform.kPlatformOther, ViewType.kViewOther, false⟩

/-- A VGA game run by an SCI1.1 interpreter on a Macintosh. -/
def macEngine : Engine :=
  ⟨SciVersion.SCI_VERSION_1_1, Platform.kPlatformMacintosh, ViewType.kViewOther, false⟩

/-- A game run by an SCI2 interpreter on a PC. -/
def sci2Engine : Engine :=
  ⟨SciVersion.SCI_VERSION_2, Platform.kPlatformOther, ViewType.kViewOther, false⟩

/-! ## List controls -/

/-- The 16-bit offset of a value: `reg_t::getOffset()`. -/
def reg_t.getOffset (r : reg_t) : Nat := r.offset % 65536

/-- Modelled from the spec: `reg_t::incOffset` (its declaration, `vm_types.h`, is
not part of the sources at hand): the 16-bit offset moves by a signed amount and
wraps around, the segment stays. -/
def reg_t.incOffset (r : reg_t) (offset : Int) : reg_t :=
  ⟨r.segment, (((r.offset % 65536 : Nat) + offset) % 65536).toNat⟩

/-- The selectors of a list control that `_k_GenericDrawControl` reads. -/
structure ListControl where
  nsLeft : Int
  nsTop : Int
  nsRight : Int
  nsBottom : Int
  /-- The selector `text`, the reference of the string table. -/
  text : reg_t
  /-- The selector `x`, the number of characters per entry (`maxChars`). -/
  x : Int
  /-- The selector `cursor`, the offset of the selected entry. -/
  cursor : Nat
  /-- The selector `topString` (or `brTop`, `lsTop`), the offset of the first
  visible entry. -/
  topString : Nat
deriving DecidableEq, Repr

/-- The list call that `_k_GenericDrawControl` forwards to the controls engine:
rectangle, entry stride, number of entries, the references of the entries, the
top and cursor positions and the alias flag. -/
structure DrawList where
  rect : Rect
  maxChars : Int
  listCount : Int
  listStrings : List reg_t
  upperPos : Int
  cursorPos : Int
  isAlias : Bool
deriving DecidableEq, Repr

/-- The counting loop of `_k_GenericDrawControl`,
`while (strlen(listSeeker) > 0) { listCount++; listSeeker.incOffset(maxChars); }`
with an `int16` counter; `strlen` is `SegManager::strlen`. Every iteration
consumes one unit of `fuel`. -/
def countListEntries (strlen : reg_t → Nat) (maxChars : Int) :
    Nat → Int → reg_t → Option Int
  | 0, _, _ => none
  | fuel + 1, listCount, listSeeker =>
    if strlen listSeeker > 0 then
      countListEntries strlen maxChars fuel (toInt16 (listCount + 1))
        (listSeeker.incOffset maxChars)
    else
      some listCount

/-- The position loop of `_k_GenericDrawControl`,
`for (i = 0; i < listCount; i++)`, with `remaining = listCount - i` iterations to
go: it collects the entries and records the index of the entry at the top offset
and at the cursor offset. -/
def findListPositions (maxChars : Int) (upperOffset cursorOffset : Nat) :
    Nat → Int → reg_t → List reg_t → Int → Int → List reg_t × Int × Int
  | 0, _, _, listStrings, upperPos, cursorPos => (listStrings, upperPos, cursorPos)
  | remaining + 1, i, listSeeker, listStrings, upperPos, cursorPos =>
    findListPositions maxChars upperOffset cursorOffset remaining (i + 1)
      (listSeeker.incOffset maxChars) (listStrings ++ [listSeeker])
      (if listSeeker.getOffset = upperOffset then i else upperPos)
      (if listSeeker.getOffset = cursorOffset then i else cursorPos)

/-- The cases `SCI_CONTROLS_TYPE_LIST` and `SCI_CONTROLS_TYPE_LIST_ALIAS` of
`_k_GenericDrawControl`. The offsets of the entries are 16-bit values, so a
counting loop that ends does so within 65536 iterations; a negative entry count
cannot be allocated. -/
def _k_GenericDrawControl (strlen : reg_t → Nat) (c : ListControl) (isAlias : Bool) :
    Option DrawList := do
  let rect := kControlCreateRect c.nsLeft c.nsTop c.nsRight c.nsBottom
  let maxChars := c.x
  let cursorOffset := c.cursor
  let upperOffset := c.topString
  let listCount ← countListEntries strlen maxChars 65537 0 c.text
  let (listStrings, upperPos, cursorPos) ←
    if listCount ≠ 0 then
      if listCount < 0 then none
      else pure (findListPositions maxChars upperOffset cursorOffset listCount.toNat 0 c.text
        [] 0 0)
    else
      pure ([], 0, 0)
  pure ⟨rect, maxChars, listCount, listStrings, upperPos, cursorPos, isAlias⟩

/-- The reference of the `i`-th entry of a string table with stride `maxChars`:
the table reference advanced `i` times. -/
def listEntry (text : reg_t) (maxChars : Int) : Nat → reg_t
  | 0 => text
  | i + 1 => (listEntry text maxChars i).incOffset maxChars

/-- A string memory for examples: the strings of the segment are non-empty
exactly at the given offsets. -/
def strlenAt (offsets : List Nat) (r : reg_t) : Nat :=
  if r.getOffset ∈ offsets then 3 else 0

/-! ## Loop selection by direction -/

/-- The function `kDirLoopWorker`: the values that it writes to the selector
`loop` of the object, in order. `signal` is the selector `signal` of the object,
`loopCount` is what `kernelViewGetLoopCount(viewId)` answers, and
`kSignalDoesntTurn` is the signal bit of that name (declared in `animate.h`,
which is not part of the sources at hand, so the mask is left open). -/
def kDirLoopWorker (g : Engine) (kSignalDoesntTurn : Nat) (signal angle : Nat)
    (loopCount : Int) : List Int :=
  if signal &&& kSignalDoesntTurn ≠ 0 then []
  else
    let useLoop : Int :=
      if g.sciVersion.rank > SciVersion.SCI_VERSION_0_EARLY.rank then
        if angle > 315 ∨ angle < 45 then 3
        else if angle > 135 ∧ angle < 225 then 2
        else -1
      else
        if angle > 330 ∨ angle < 30 then 3
        else if angle > 150 ∧ angle < 210 then 2
        else -1
    if useLoop = -1 then
      [if angle ≥ 180 then 1 else 0]
    else
      if loopCount < 4 then [] else [useLoop]

/-- A game run by the early SCI0 interpreter. -/
def sci0EarlyEngine : Engine :=
  ⟨SciVersion.SCI_VERSION_0_EARLY, Platform.kPlatformOther, ViewType.kViewEga, true⟩

end Sci

/-! # The options dialog (gui/options.cpp) -/

namespace GUI

/-- A value stored under a configuration key: a string (`ConfMan.set`) or a
boolean (`ConfMan.setBool`). -/
inductive ConfValue
  | str (s : String)
  | bool (b : Bool)
deriving DecidableEq, Repr

/-- The keys of one configuration domain with their values. -/
abbrev ConfigDomain := String → Option ConfValue

/-- The call `ConfMan.set(key, value, _domain)`. -/
def ConfigDomain.set (conf : ConfigDomain) (key : String) (value : String) : ConfigDomain :=
  fun k => if k = key then some (ConfValue.str value) else conf k

/-- The call `ConfMan.setBool(key, value, _domain)`. -/
def ConfigDomain.setBool (conf : ConfigDomain) (key : String) (value : Bool) : ConfigDomain :=
  fun k => if k = key then some (ConfValue.bool value) else conf k

/-- The failure bits of `OSystem::TransactionError` that `OptionsDialog::apply`
tests; `kTransactionSuccess` is 0. The enumeration is declared in
`common/system.h`, which is not part of the sources at hand, so the masks are
left open. -/
structure TransactionError where
  kTransactionModeSwitchFailed : Nat
  kTransactionStretchModeSwitchFailed : Nat
  kTransactionAspectRatioFailed : Nat
  kTransactionFullscreenFailed : Nat
  kTransactionFilteringFailed : Nat
  kTransactionShaderChangeFailed : Nat
deriving DecidableEq, Repr

/-- An entry of a table of graphics or stretch modes, `OSystem::GraphicsMode`. -/
structure GraphicsMode where
  name : String
  id : Int
deriving DecidableEq, Repr

/-- What the backend answers when asked for the settings it is using. -/
structure OSystem where
  /-- The table `getSupportedGraphicsModes()`, without its terminating entry. -/
  supportedGraphicsModes : List GraphicsMode
  /-- The result of `getGraphicsMode()`. -/
  graphicsMode : Int
  /-- The table `getSupportedStretchModes()`, without its terminating entry. -/
  supportedStretchModes : List GraphicsMode
  /-- The result of `getStretchMode()`. -/
  stretchMode : Int
  /-- The result of `getFeatureState(kFeatureAspectRatioCorrection)`. -/
  aspectRatioCorrection : Bool
  /-- The result of `getFeatureState(kFeatureFullscreenMode)`. -/
  fullscreenMode : Bool
  /-- The result of `getFeatureState(kFeatureFilteringMode)`. -/
  filteringMode : Bool
deriving DecidableEq, Repr

/-- The shader widgets of the dialog: the label of `_shader` and the state of
`_shaderClearButton`. -/
structure ShaderWidgets where
  label : String
  clearButtonEnabled : Bool
deriving DecidableEq, Repr

/-- The search loop `while (gm->name) { if (gm->id == id) { ...; break; } gm++; }`
over a table of modes: the first entry with the given id, if there is one. -/
def findMode (modes : List GraphicsMode) (id : Int) : Option GraphicsMode :=
  modes.find? (fun gm => decide (gm.id = id))

/-- The state of the error handling of `OptionsDialog::apply`: the configuration
domain, the shader widgets and the message built so far. -/
structure ApplyState where
  conf : ConfigDomain
  widgets : ShaderWidgets
  message : String

/-- The block `if (gfxError & OSystem::kTransactionModeSwitchFailed)`: the key
`gfx_mode` is set to the name of the mode that the backend reports. -/
def revertGraphicsMode (e : TransactionError) (tr : String → String) (sys : OSystem)
    (gfxError : Nat) (st : ApplyState) : ApplyState :=
  if gfxError &&& e.kTransactionModeSwitchFailed ≠ 0 then
    { st with conf := (match findMode sys.supportedGraphicsModes sys.graphicsMode with
                | some gm => st.conf.set "gfx_mode" gm.name
                | none => st.conf),
              message := st.message ++ "\n" ++ tr "the video mode could not be changed" }
  else st

/-- The block `if (gfxError & OSystem::kTransactionStretchModeSwitchFailed)`. -/
def revertStretchMode (e : TransactionError) (tr : String → String) (sys : OSystem)
    (gfxError : Nat) (st : ApplyState) : ApplyState :=
  if gfxError &&& e.kTransactionStretchModeSwitchFailed ≠ 0 then
    { st with conf := (match findMode sys.supportedStretchModes sys.stretchMode with
                | some sm => st.conf.set "stretch_mode" sm.name
                | none => st.conf),
              message := st.message ++ "\n" ++ tr "the stretch mode could not be changed" }
  else st

/-- The block `if (gfxError & OSystem::kTransactionAspectRatioFailed)`. -/
def revertAspectRatio (e : TransactionError) (tr : String → String) (sys : OSystem)
    (gfxError : Nat) (st : ApplyState) : ApplyState :=
  if gfxError &&& e.kTransactionAspectRatioFailed ≠ 0 then
    { st with conf := st.conf.setBool "aspect_ratio" sys.aspectRatioCorrection,
              message := st.message ++ "\n" ++
                tr "the aspect ratio setting could not be changed" }
  else st

/-- The block `if (gfxError & OSystem::kTransactionFullscreenFailed)`. -/
def revertFullscreen (e : TransactionError) (tr : String → String) (sys : OSystem)
    (gfxError : Nat) (st : ApplyState) : ApplyState :=
  if gfxError &&& e.kTransactionFullscreenFailed ≠ 0 then
    { st with conf := st.conf.setBool "fullscreen" sys.fullscreenMode,
              message := st.message ++ "\n" ++
                tr "the fullscreen setting could not be changed" }
  else st

/-- The block `if (gfxError & OSystem::kTransactionFilteringFailed)`. -/
def revertFiltering (e : TransactionError) (tr : String → String) (sys : OSystem)
    (gfxError : Nat) (st : ApplyState) : ApplyState :=
  if gfxError &&& e.kTransactionFilteringFailed ≠ 0 then
    { st with conf := st.conf.setBool "filtering" sys.filteringMode,
              message := st.message ++ "\n" ++
                tr "the filtering setting could not be changed" }
  else st

/-- The shader that the block for `kTransactionShaderChangeFailed` stores: the
shader configured before the change, with the label "None" stored as
"default". -/
def revertedShader (tr : String → String) (previousShader : String) : String :=
  if previousShader = tr "None" then "default" else previousShader

/-- The block `if (gfxError & OSystem::kTransactionShaderChangeFailed)`: the key
`shader` goes back to the shader configured before the change, and the shader
widgets with it. -/
def revertShader (e : TransactionError) (tr : String → String) (gfxError : Nat)
    (previousShader : String) (st : ApplyState) : ApplyState :=
  if gfxError &&& e.kTransactionShaderChangeFailed ≠ 0 then
    let previousShader := revertedShader tr previousShader
    { conf := st.conf.set "shader" previousShader,
      widgets := if previousShader.isEmpty then ⟨tr "None", false⟩ else ⟨previousShader, true⟩,
      message := st.message ++ "\n" ++ tr "the shader could not be changed" }
  else st

/-- The branch `if (gfxError != OSystem::kTransactionSuccess)` of
`OptionsDialog::apply`: each failure bit that is set reverts its configuration
key and adds a line to the message that is then shown. `tr` is the translation
of the user interface, `_()` and `_c()`. -/
def OptionsDialog.applyGfxError (e : TransactionError) (tr : String → String) (sys : OSystem)
    (gfxError : Nat) (previousShader : String) (conf : ConfigDomain) (widgets : ShaderWidgets) :
    ApplyState :=
  let st : ApplyState :=
    ⟨conf, widgets, tr "Failed to apply some of the graphic options changes:"⟩
  let st := revertGraphicsMode e tr sys gfxError st
  let st := revertStretchMode e tr sys gfxError st
  let st := revertAspectRatio e tr sys gfxError st
  let st := revertFullscreen e tr sys gfxError st
  let st := revertFiltering e tr sys gfxError st
  let st := revertShader e tr gfxError previousShader st
  st

/-- The line that a failure adds to the message when `bit` is set in `gfxError`. -/
def failureLine (gfxError bit : Nat) (line : String) : String :=
  if gfxError &&& bit ≠ 0 then "\n" ++ line else ""

/-- The failure bits of `OSystem::TransactionError` by their position in the
enumeration: aspect ratio 1, fullscreen 2, mode switch 4, filtering 32, stretch
mode 64, shader 128. -/
def sampleTransactionError : TransactionError :=
  { kTransactionModeSwitchFailed := 4, kTransactionStretchModeSwitchFailed := 64,
    kTransactionAspectRatioFailed := 1, kTransactionFullscreenFailed := 2,
    kTransactionFilteringFailed := 32, kTransactionShaderChangeFailed := 128 }

/-- A backend that runs mode "normal" (id 0) with stretch mode "fit" (id 1), in a
window, with aspect-ratio correction and without filtering. -/
def sampleOSystem : OSystem :=
  { supportedGraphicsModes := [⟨"normal", 0⟩, ⟨"opengl", 1⟩], graphicsMode := 0,
    supportedStretchModes := [⟨"center", 0⟩, ⟨"fit", 1⟩], stretchMode := 1,
    aspectRatioCorrection := true, fullscreenMode := false, filteringMode := false }

/-- A configuration domain as the dialog leaves it before the transaction: every
key of the graphics tab holds its newly applied value. -/
def sampleConf : ConfigDomain := fun k =>
  if k = "gfx_mode" then some (ConfValue.str "opengl")
  else if k = "stretch_mode" then some (ConfValue.str "center")
  else if k = "aspect_ratio" then some (ConfValue.bool false)
  else if k = "fullscreen" then some (ConfValue.bool true)
  else if k = "filtering" then some (ConfValue.bool true)
  else if k = "shader" then some (ConfValue.str "crt.glslp")
  else none

/-- A backend like `sampleOSystem` that has no stretch modes: its table
`getSupportedStretchModes()` holds only the terminating entry. -/
def noStretchOSystem : OSystem :=
  { supportedGraphicsModes := [⟨"normal", 0⟩, ⟨"opengl", 1⟩], graphicsMode := 0,
    supportedStretchModes := [], stretchMode := 0,
    aspectRatioCorrection := true, fullscreenMode := false, filteringMode := false }

/-! ## Subtitle controls -/

/-- The radio value `kSubtitlesSpeech` of the anonymous enum of `options.cpp`. -/
def kSubtitlesSpeech : Int := 0

/-- The radio value `kSubtitlesSubs`. -/
def kSubtitlesSubs : Int := 1

/-- The radio value `kSubtitlesBoth`. -/
def kSubtitlesBoth : Int := 2

/-- The method `OptionsDialog::getSubtitleMode`. The answers of
`_guioptions.contains(GUIO_NOSUBTITLES)` and `_guioptions.contains(GUIO_NOSPEECH)`
are the arguments `noSubtitles` and `noSpeech`; the `warning` of the last branch
only logs a line. -/
def OptionsDialog.getSubtitleMode (noSubtitles noSpeech : Bool)
    (subtitles speech_mute : Bool) : Int :=
  if noSubtitles then kSubtitlesSpeech
  else if noSpeech then kSubtitlesSubs
  else if !subtitles && !speech_mute then kSubtitlesSpeech
  else if subtitles && !speech_mute then kSubtitlesBoth
  else if subtitles && speech_mute then kSubtitlesSubs
  else kSubtitlesSubs

/-- The `switch (_subToggleGroup->getValue())` of `OptionsDialog::apply`: the
pair (`subtitles`, `speech_mute`) that is stored for a radio value. -/
def OptionsDialog.applySubtitleToggle (value : Int) : Bool × Bool :=
  if value = kSubtitlesSpeech then (false, false)
  else if value = kSubtitlesBoth then (true, false)
  else (true, true)

/-- The `talkspeed` that `OptionsDialog::apply` computes from the value and the
maximum of the subtitle speed slider, in `int` arithmetic (division truncates). -/
def OptionsDialog.applyTalkspeed (sliderValue sliderMaxValue : Int) : Int :=
  Int.tdiv (sliderValue * 255 + Int.tdiv sliderMaxValue 2) sliderMaxValue

/-- The slider value `speed` that `OptionsDialog::build` computes from the
stored `talkspeed` and the maximum of the slider. -/
def OptionsDialog.buildSpeed (talkspeed sliderMaxValue : Int) : Int :=
  Int.tdiv (talkspeed * sliderMaxValue + Int.tdiv 255 2) 255

end GUI

/-! # The libretro backend (backends/platform/libretro/libretro_os.cpp) -/

namespace Libretro

/-- The conversion of a count to `uint` (32 bits). -/
def toUint (v : Nat) : Nat := v % 4294967296

/-- The palette `RetroPalette`: the bytes `_colors[256 * 3]`. -/
structure RetroPalette where
  _colors : List Nat
deriving DecidableEq, Repr

/-- The constructor of `RetroPalette`, `memset(_colors, 0, sizeof(_colors))`. -/
def RetroPalette.new : RetroPalette := ⟨List.replicate (256 * 3) 0⟩

/-- The copy `memcpy(dst + at, src, len)` into a buffer; it has no defined result
when it reads or writes outside the buffers. -/
def memcpyInto (dst : List Nat) (pos : Nat) (src : List Nat) (len : Nat) : Option (List Nat) :=
  if pos + len ≤ dst.length ∧ len ≤ src.length then
    some (dst.take pos ++ src.take len ++ dst.drop (pos + len))
  else
    none

/-- The method `RetroPalette::set`, `memcpy(_colors + start * 3, colors, num * 3)`. -/
def RetroPalette.set (p : RetroPalette) (colors : List Nat) (start num : Nat) :
    Option RetroPalette :=
  (memcpyInto p._colors (toUint (start * 3)) colors (toUint (num * 3))).map RetroPalette.mk

/-- The method `RetroPalette::get`, `memcpy(colors, _colors + start * 3, num * 3)`:
the output buffer after the copy. -/
def RetroPalette.get (p : RetroPalette) (colors : List Nat) (start num : Nat) :
    Option (List Nat) :=
  if toUint (start * 3) + toUint (num * 3) ≤ p._colors.length then
    memcpyInto colors 0 (p._colors.drop (toUint (start * 3))) (toUint (num * 3))
  else
    none

/-- The palettes of the backend `OSystem_RETRO`. -/
structure OSystem_RETRO where
  _gamePalette : RetroPalette
  _mousePalette : RetroPalette
  _mousePaletteEnabled : Bool
deriving DecidableEq, Repr

/-- The method `OSystem_RETRO::setPalette`. -/
def OSystem_RETRO.setPalette (sys : OSystem_RETRO) (colors : List Nat) (start num : Nat) :
    Option OSystem_RETRO :=
  (sys._gamePalette.set colors start num).map fun p => { sys with _gamePalette := p }

/-- The method `OSystem_RETRO::grabPalette`: the output buffer after the call. -/
def OSystem_RETRO.grabPalette (sys : OSystem_RETRO) (colors : List Nat) (start num : Nat) :
    Option (List Nat) :=
  sys._gamePalette.get colors start num

/-! ## Time and date -/

/-- Modelled from the spec: the fields of the struct `TimeDate` (declared in
`common/system.h`, not part of the sources at hand) that `getTimeAndDate`
fills; all of them are `int`. -/
structure TimeDate where
  tm_sec : Int
  tm_min : Int
  tm_hour : Int
  tm_mday : Int
  tm_mon : Int
  tm_year : Int
  tm_wday : Int
deriving DecidableEq, Repr

/-- What can go wrong in the embedded `getTimeAndDate`. -/
inductive TimeFault
  /-- The increment `year++` leaves the range of `int`. -/
  | yearOverflow
  /-- The table `_ytab` is read outside its bounds. -/
  | tableIndex
  /-- A loop has not finished within the rounds it was given. -/
  | outOfFuel
deriving DecidableEq, Repr

/-- The macro `YEAR0`. -/
def YEAR0 : Nat := 1900

/-- The macro `EPOCH_YR`. -/
def EPOCH_YR : Nat := 1970

/-- The macro `SECS_DAY`. -/
def SECS_DAY : Nat := 24 * 60 * 60

/-- The macro `LEAPYEAR(year)`,
`!((year) % 4) && (((year) % 100) || !((year) % 400))`, for a year that is not
negative: 1 or 0. -/
def LEAPYEAR (year : Nat) : Nat :=
  if year % 4 = 0 ∧ (year % 100 ≠ 0 ∨ year % 400 = 0) then 1 else 0

/-- The macro `YEARSIZE(year)`. -/
def YEARSIZE (year : Nat) : Nat := if LEAPYEAR year ≠ 0 then 366 else 365

/-- The table `_ytab[2][12]` of month lengths. -/
def _ytab : List (List Nat) :=
  [[31, 28, 31, 30, 31, 30, 31, 31, 30, 31, 30, 31],
   [31, 29, 31, 30, 31, 30, 31, 31, 30, 31, 30, 31]]

/-- The read `_ytab[leap][mon]`; `none` outside the table. -/
def ytabAt (leap mon : Nat) : Option Nat :=
  match _ytab[leap]? with
  | none => none
  | some row => row[mon]?

/-- The conversion `(unsigned long)curTime` for an `unsigned long` of `w` bits. -/
def toUlong (w : Nat) (v : Int) : Nat := (v % 2 ^ w).toNat

/-- The loop `while (dayno >= YEARSIZE(year)) { dayno -= YEARSIZE(year); year++; }`
with a bound on its rounds; the answer is the pair of `dayno` and `year` after
the loop. The year is an `int`. -/
def yearLoop : Nat → Nat → Nat → Except TimeFault (Nat × Nat)
  | 0, dayno, year =>
    if dayno ≥ YEARSIZE year then Except.error TimeFault.outOfFuel
    else Except.ok (dayno, year)
  | fuel + 1, dayno, year =>
    if dayno ≥ YEARSIZE year then
      if year + 1 > 2147483647 then Except.error TimeFault.yearOverflow
      else yearLoop fuel (dayno - YEARSIZE year) (year + 1)
    else Except.ok (dayno, year)

/-- The loop `while (dayno >= _ytab[LEAPYEAR(year)][t.tm_mon]) { dayno -= ...;
t.tm_mon++; }` with a bound on its rounds; `leap` is the value of
`LEAPYEAR(year)`, the answer is the pair of `dayno` and `tm_mon` after the loop. -/
def monthLoop : Nat → Nat → Nat → Nat → Except TimeFault (Nat × Nat)
  | 0, leap, dayno, mon =>
    match ytabAt leap mon with
    | none => Except.error TimeFault.tableIndex
    | some len =>
      if dayno ≥ len then Except.error TimeFault.outOfFuel
      else Except.ok (dayno, mon)
  | fuel + 1, leap, dayno, mon =>
    match ytabAt leap mon with
    | none => Except.error TimeFault.tableIndex
    | some len =>
      if dayno ≥ len then monthLoop fuel leap (dayno - len) (mon + 1)
      else Except.ok (dayno, mon)

/-- The conversion of `OSystem_RETRO::getTimeAndDate`, from the value `curTime`
that `time(NULL)` answered, on a machine whose `unsigned long` has `w` bits.
Every round of the year loop takes at least 365 days off `dayno`, so it is given
`dayno / 365 + 1` rounds; the month loop is given 12 rounds. -/
def getTimeAndDate (w : Nat) (curTime : Int) : Except TimeFault TimeDate :=
  let dayclock := toUlong w curTime % SECS_DAY
  let dayno := toUlong w curTime / SECS_DAY
  match yearLoop (dayno / 365 + 1) dayno EPOCH_YR with
  | Except.error e => Except.error e
  | Except.ok (dayno1, year) =>
    match monthLoop 12 (LEAPYEAR year) dayno1 0 with
    | Except.error e => Except.error e
    | Except.ok (dayno2, mon) =>
      Except.ok
        { tm_sec := ((dayclock % 60 : Nat) : Int)
          tm_min := (((dayclock % 3600) / 60 : Nat) : Int)
          tm_hour := ((dayclock / 3600 : Nat) : Int)
          tm_wday := ((((dayno + 4) % 2 ^ w) % 7 : Nat) : Int)
          tm_year := (year : Int) - (YEAR0 : Int)
          tm_mon := (mon : Int)
          tm_mday := ((dayno2 + 1 : Nat) : Int) }

/-- The leap years of the proleptic Gregorian calendar: the years divisible by 4
and not by 100, or divisible by 400. -/
def isLeapYear (y : Nat) : Bool := decide ((y % 4 = 0 ∧ y % 100 ≠ 0) ∨ y % 400 = 0)

/-- The number of days of a year of the calendar. -/
def yearLength (y : Nat) : Nat := if isLeapYear y then 366 else 365

/-- The number of days of month `m` (1 to 12) of year `y` of the calendar. -/
def monthLength (y m : Nat) : Nat :=
  if m = 2 then (if isLeapYear y then 29 else 28)
  else if m = 4 ∨ m = 6 ∨ m = 9 ∨ m = 11 then 30
  else 31

/-- The number of days from 1970-01-01 to the first day of year `y`. -/
def daysBeforeYear (y : Nat) : Nat :=
  ((List.range (y - 1970)).map (fun i => yearLength (1970 + i))).sum

/-- The number of days of the first `k` months of year `y`. -/
def daysBeforeMonth (y k : Nat) : Nat :=
  ((List.range k).map (fun i => monthLength y (i + 1))).sum

/-- The day number of the date `y`-`m`-`d` of the calendar, counted from
1970-01-01, which has day number 0. -/
def dayNumber (y m d : Nat) : Nat :=
  daysBeforeYear y + daysBeforeMonth y (m - 1) + (d - 1)

end Libretro

/-! # The Ultima 8 process kernel (engines/ultima/ultima8/kernel/kernel.h) -/

namespace Ultima8

/-- The pause state of the class `Kernel`: the counter `unsigned int _paused`. -/
structure Kernel where
  _paused : Nat
deriving DecidableEq, Repr

/-- The method `Kernel::pause`, `_paused++` on an `unsigned int` (32 bits). -/
def Kernel.pause (k : Kernel) : Kernel := ⟨(k._paused + 1) % 4294967296⟩

/-- The method `Kernel::unpause`. -/
def Kernel.unpause (k : Kernel) : Kernel :=
  if k._paused > 0 then ⟨(k._paused - 1) % 4294967296⟩ else k

/-- The method `Kernel::isPaused`. -/
def Kernel.isPaused (k : Kernel) : Bool := decide (k._paused > 0)

/-- A call of `pause()` or of `unpause()`. -/
inductive PauseCall
  | pause
  | unpause
deriving DecidableEq, Repr

/-- Runs a sequence of `pause()` and `unpause()` calls on a kernel. -/
def Kernel.run : List PauseCall → Kernel → Kernel
  | [], k => k
  | PauseCall.pause :: cs, k => Kernel.run cs k.pause
  | PauseCall.unpause :: cs, k => Kernel.run cs k.unpause

/-- The running count of outstanding pauses, saturated at zero: a pause adds 1,
an unpause subtracts 1 unless the count is already 0. -/
def runningCount : List PauseCall → Nat → Nat
  | [], n => n
  | PauseCall.pause :: cs, n => runningCount cs (n + 1)
  | PauseCall.unpause :: cs, n => runningCount cs (n - 1)

/-- Holds when the running count stays below 2^32 after every call of the
sequence. -/
def countStaysBelow : List PauseCall → Nat → Bool
  | [], n => decide (n < 4294967296)
  | PauseCall.pause :: cs, n => decide (n < 4294967296) && countStaysBelow cs (n + 1)
  | PauseCall.unpause :: cs, n => decide (n < 4294967296) && countStaysBelow cs (n - 1)

end Ultima8

/-! # Render modes (common/rendermode.cpp) -/

namespace Common

/-- Modelled from the spec: the enumeration `RenderMode` (its declaration,
`common/rendermode.h`, is not part of the sources at hand) with the enumerators
that `rendermode.cpp` names; `other` stands for any further value of the
enumeration. -/
inductive RenderMode
  | kRenderDefault
  | kRenderHercG
  | kRenderHercA
  | kRenderCGA
  | kRenderCGAComp
  | kRenderCGA_BW
  | kRenderEGA
  | kRenderVGA
  | kRenderAmiga
  | kRenderFMTowns
  | kRenderPC9821
  | kRenderPC9801
  | kRenderApple2GS
  | kRenderAtariST
  | kRenderMacintosh
  | kRenderMacintoshBW
  | kRenderZX
  | other (n : Nat)
deriving DecidableEq, Repr

open RenderMode

/-- The struct `RenderModeDescription`; a null `const char *` is `none`. -/
structure RenderModeDescription where
  code : Option String
  description : Option String
  id : RenderMode
deriving DecidableEq, Repr

/-- The table `g_renderModes`, with its terminating entry. -/
def g_renderModes : List RenderModeDescription :=
  [ ⟨some "hercGreen", some "Hercules Green", kRenderHercG⟩,
    ⟨some "hercAmber", some "Hercules Amber", kRenderHercA⟩,
    ⟨some "cga", some "CGA", kRenderCGA⟩,
    ⟨some "cgaComp", some "CGA Composite", kRenderCGAComp⟩,
    ⟨some "cgaBW", some "CGA b/w", kRenderCGA_BW⟩,
    ⟨some "ega", some "EGA", kRenderEGA⟩,
    ⟨some "vga", some "VGA", kRenderVGA⟩,
    ⟨some "amiga", some "Amiga", kRenderAmiga⟩,
    ⟨some "fmtowns", some "FM-TOWNS", kRenderFMTowns⟩,
    ⟨some "pc9821", some "PC-9821 (256 Colors)", kRenderPC9821⟩,
    ⟨some "pc9801", some "PC-9801 (16 Colors)", kRenderPC9801⟩,
    ⟨some "2gs", some "Apple IIgs", kRenderApple2GS⟩,
    ⟨some "atari", some "Atari ST", kRenderAtariST⟩,
    ⟨some "macintosh", some "Macintosh", kRenderMacintosh⟩,
    ⟨some "macintoshbw", some "Macintosh b/w", kRenderMacintoshBW⟩,
    ⟨some "zx", some "ZX Spectrum", kRenderZX⟩,
    ⟨none, none, kRenderDefault⟩ ]

/-- Modelled from the spec: the comparison of `String::equalsIgnoreCase`
(`common/str.cpp` is not part of the sources at hand): both strings are walked
in step and the characters are compared after `tolower`. -/
def stricmpEq : List Char → List Char → Bool
  | [], [] => true
  | a :: as, b :: bs => a.toLower == b.toLower && stricmpEq as bs
  | _, _ => false

/-- Modelled from the spec: the method `String::equalsIgnoreCase`. -/
def equalsIgnoreCase (str code : String) : Bool := stricmpEq str.data code.data

/-- A string is a letter-case variant of a code when the two agree after every
upper-case letter is replaced by its lower-case letter. -/
def isCaseVariant (c code : String) : Prop :=
  c.data.map Char.toLower = code.data.map Char.toLower

instance isCaseVariant.decidable (c code : String) : Decidable (isCaseVariant c code) :=
  inferInstanceAs (Decidable (c.data.map Char.toLower = code.data.map Char.toLower))

/-- The loop of `parseRenderMode` over the entries from `l` on; `none` when the
walk leaves the table. -/
def parseRenderModeLoop (str : String) : List RenderModeDescription → Option RenderMode
  | [] => none
  | l :: ls =>
    match l.code with
    | none => some kRenderDefault
    | some code => if equalsIgnoreCase str code then some l.id else parseRenderModeLoop str ls

/-- The function `parseRenderMode`. -/
def parseRenderMode (str : String) : Option RenderMode :=
  if str.length = 0 then some kRenderDefault
  else parseRenderModeLoop str g_renderModes

/-- The loop of `getRenderModeCode` over the entries from `l` on; `none` when
the walk leaves the table, `some none` for the answer `nullptr`. -/
def getRenderModeCodeLoop (id : RenderMode) : List RenderModeDescription → Option (Option String)
  | [] => none
  | l :: ls =>
    match l.code with
    | none => some none
    | some code => if l.id = id then some (some code) else getRenderModeCodeLoop id ls

/-- The function `getRenderModeCode`. -/
def getRenderModeCode (id : RenderMode) : Option (Option String) :=
  getRenderModeCodeLoop id g_renderModes

/-- The loop of `parseRenderMode` on the lower-case form of the string. -/
def parseLowerLoop (k : List Char) : List RenderModeDescription → Option RenderMode
  | [] => none
  | l :: ls =>
    match l.code with
    | none => some kRenderDefault
    | some code =>
      if k = code.data.map Char.toLower then some l.id else parseLowerLoop k ls

/-- Modelled from the spec: the names of the string macros `GUIO_RENDER...` of
`common/gui_options.h` (not part of the sources at hand) that `rendermode.cpp`
uses. -/
inductive GuiOption
  | GUIO_RENDERHERCGREEN
  | GUIO_RENDERHERCAMBER
  | GUIO_RENDERCGA
  | GUIO_RENDEREGA
  | GUIO_RENDERVGA
  | GUIO_RENDERAMIGA
  | GUIO_RENDERFMTOWNS
  | GUIO_RENDERPC9821
  | GUIO_RENDERPC9801
  | GUIO_RENDERAPPLE2GS
  | GUIO_RENDERATARIST
  | GUIO_RENDERMACINTOSH
  | GUIO_RENDERMACINTOSHBW
  | GUIO_RENDERCGACOMP
  | GUIO_RENDERCGABW
deriving DecidableEq, Repr

open GuiOption

/-- The struct `RenderGUIOMapping`. -/
structure RenderGUIOMapping where
  id : RenderMode
  guio : GuiOption
deriving DecidableEq, Repr

/-- The table `s_renderGUIOMapping`. -/
def s_renderGUIOMapping : List RenderGUIOMapping :=
  [ ⟨kRenderHercG, GUIO_RENDERHERCGREEN⟩,
    ⟨kRenderHercA, GUIO_RENDERHERCAMBER⟩,
    ⟨kRenderCGA, GUIO_RENDERCGA⟩,
    ⟨kRenderEGA, GUIO_RENDEREGA⟩,
    ⟨kRenderVGA, GUIO_RENDERVGA⟩,
    ⟨kRenderAmiga, GUIO_RENDERAMIGA⟩,
    ⟨kRenderFMTowns, GUIO_RENDERFMTOWNS⟩,
    ⟨kRenderPC9821, GUIO_RENDERPC9821⟩,
    ⟨kRenderPC9801, GUIO_RENDERPC9801⟩,
    ⟨kRenderApple2GS, GUIO_RENDERAPPLE2GS⟩,
    ⟨kRenderAtariST, GUIO_RENDERATARIST⟩,
    ⟨kRenderMacintosh, GUIO_RENDERMACINTOSH⟩,
    ⟨kRenderMacintoshBW, GUIO_RENDERMACINTOSHBW⟩,
    ⟨kRenderCGAComp, GUIO_RENDERCGACOMP⟩,
    ⟨kRenderCGA_BW, GUIO_RENDERCGABW⟩ ]

/-- The function of `rendermode.cpp` that maps a render mode to its GUI option
string; `text` gives the string literal behind each macro. -/
def renderMode2GUIO (text : GuiOption → String) (id : RenderMode) : String :=
  s_renderGUIOMapping.foldl (fun res m => if id = m.id then res ++ text m.guio else res) ""

/-- The function `allRenderModesGUIOs`. -/
def allRenderModesGUIOs (text : GuiOption → String) : String :=
  s_renderGUIOMapping.foldl (fun res m => res ++ text m.guio) ""

/-- A sample assignment of strings to the GUI option macros: their names. -/
def sampleGuiOptionText : GuiOption → String
  | GUIO_RENDERHERCGREEN => "GUIO_RENDERHERCGREEN"
  | GUIO_RENDERHERCAMBER => "GUIO_RENDERHERCAMBER"
  | GUIO_RENDERCGA => "GUIO_RENDERCGA"
  | GUIO_RENDEREGA => "GUIO_RENDEREGA"
  | GUIO_RENDERVGA => "GUIO_RENDERVGA"
  | GUIO_RENDERAMIGA => "GUIO_RENDERAMIGA"
  | GUIO_RENDERFMTOWNS => "GUIO_RENDERFMTOWNS"
  | GUIO_RENDERPC9821 => "GUIO_RENDERPC9821"
  | GUIO_RENDERPC9801 => "GUIO_RENDERPC9801"
  | GUIO_RENDERAPPLE2GS => "GUIO_RENDERAPPLE2GS"
  | GUIO_RENDERATARIST => "GUIO_RENDERATARIST"
  | GUIO_RENDERMACINTOSH => "GUIO_RENDERMACINTOSH"
  | GUIO_RENDERMACINTOSHBW => "GUIO_RENDERMACINTOSHBW"
  | GUIO_RENDERCGACOMP => "GUIO_RENDERCGACOMP"
  | GUIO_RENDERCGABW => "GUIO_RENDERCGABW"

end Common

namespace Sci

/-! ## Properties of the rectangle builders -/

/-- A value read by `toSint16` lies in the signed 16-bit range. -/
theorem toSint16_range (r : reg_t) : -32768 ≤ r.toSint16 ∧ r.toSint16 ≤ 32767 := by
  unfold reg_t.toSint16
  have h : r.offset % 65536 < 65536 := Nat.mod_lt _ (by norm_num)
  split <;> omega

/-- A value read by `toUint16` lies in the unsigned 16-bit range. -/
theorem toUint16_lt (r : reg_t) : r.toUint16 < 65536 :=
  Nat.mod_lt _ (by norm_num)

/-- The fields of the rectangle that `getGraphRect` returns. -/
theorem getGraphRect_eq (a0 a1 a2 a3 : reg_t) (rest : List reg_t) :
    getGraphRect (a0 :: a1 :: a2 :: a3 :: rest) =
      some ⟨min a0.toSint16 a2.toSint16, min a1.toSint16 a3.toSint16,
            max a0.toSint16 a2.toSint16, max a1.toSint16 a3.toSint16⟩ := by
  simp only [getGraphRect, argvAt, Rect.ofCorners]
  simp only [Option.bind_eq_bind, Option.pure_def, Option.some_bind, le_refl, if_true,
    Int.toNat_zero, Int.toNat_one, List.getElem?_cons_zero, List.getElem?_cons_succ,
    show (0 : Int) ≤ 1 by decide, show (0 : Int) ≤ 2 by decide, show (0 : Int) ≤ 3 by decide,
    show (3 : Int).toNat = 2 + 1 by decide, show (2 : Int).toNat = 1 + 1 by decide,
    show (1 : Int).toNat = 0 + 1 by decide]
  by_cases hx : a1.toSint16 > a3.toSint16 <;> by_cases hy : a0.toSint16 > a2.toSint16 <;>
    simp [hx, hy, min_def, max_def] <;> omega

/-- C1: for every four arguments (y, x, y1, x1) in argv[0..3], read as signed
16-bit values, `getGraphRect` returns the rectangle with left = min(x, x1),
right = max(x, x1), top = min(y, y1), bottom = max(y, y1); so left <= right and
top <= bottom, each corner pair is the original one or the swapped one, and the
area (right-left)*(bottom-top) equals |x1-x|*|y1-y|, hence is at least the area
implied by the unordered span. -/
theorem getGraphRect_normalized (a0 a1 a2 a3 : reg_t) (rest : List reg_t) :
    ∃ r : Rect, getGraphRect (a0 :: a1 :: a2 :: a3 :: rest) = some r ∧
      r.left = min a1.toSint16 a3.toSint16 ∧ r.right = max a1.toSint16 a3.toSint16 ∧
      r.top = min a0.toSint16 a2.toSint16 ∧ r.bottom = max a0.toSint16 a2.toSint16 ∧
      r.left ≤ r.right ∧ r.top ≤ r.bottom ∧ r.isValidRect = true ∧
      ((r.left = a1.toSint16 ∧ r.right = a3.toSint16) ∨
        (r.left = a3.toSint16 ∧ r.right = a1.toSint16)) ∧
      ((r.top = a0.toSint16 ∧ r.bottom = a2.toSint16) ∨
        (r.top = a2.toSint16 ∧ r.bottom = a0.toSint16)) ∧
      (r.right - r.left) * (r.bottom - r.top) =
        |a3.toSint16 - a1.toSint16| * |a2.toSint16 - a0.toSint16| ∧
      r.area ≥ |a3.toSint16 - a1.toSint16| * |a2.toSint16 - a0.toSint16| ∧
      r.area ≥ (a3.toSint16 - a1.toSint16) * (a2.toSint16 - a0.toSint16) := by
  refine ⟨_, getGraphRect_eq a0 a1 a2 a3 rest, rfl, rfl, rfl, rfl, ?_, ?_, ?_, ?_, ?_, ?_, ?_, ?_⟩
  · exact min_le_max
  · exact min_le_max
  · simp [Rect.isValidRect]
  · rcases le_total a1.toSint16 a3.toSint16 with h | h
    · exact Or.inl ⟨min_eq_left h, max_eq_right h⟩
    · exact Or.inr ⟨min_eq_right h, max_eq_left h⟩
  · rcases le_total a0.toSint16 a2.toSint16 with h | h
    · exact Or.inl ⟨min_eq_left h, max_eq_right h⟩
    · exact Or.inr ⟨min_eq_right h, max_eq_left h⟩
  · rw [max_sub_min_eq_abs, max_sub_min_eq_abs]
  · show (max _ _ - min _ _) * (max _ _ - min _ _) ≥ _
    rw [max_sub_min_eq_abs, max_sub_min_eq_abs]
  · show (max _ _ - min _ _) * (max _ _ - min _ _) ≥ _
    rw [max_sub_min_eq_abs, max_sub_min_eq_abs, ← abs_mul]
    exact le_abs_self _

/-- The fields of the rectangle that `kControlCreateRect` returns. -/
theorem kControlCreateRect_eq (x y x1 y1 : Int) :
    kControlCreateRect x y x1 y1 = ⟨y, x, max y y1, max x x1⟩ := by
  simp only [kControlCreateRect, Rect.ofCorners, max_def]
  by_cases hx : x > x1 <;> by_cases hy : y > y1 <;> simp [hx, hy] <;> omega

/-- C2, as stated, fails: for (x, y, x1, y1) = (10, 0, 0, 5) the control rectangle
is (left, top, right, bottom) = (10, 0, 10, 5): the corners are not swapped, the
area is 0 and the span |x1-x|*|y1-y| is 50. -/
theorem kControlCreateRect_not_swapped :
    kControlCreateRect 10 0 0 5 = ⟨0, 10, 5, 10⟩ ∧
    (kControlCreateRect 10 0 0 5).area = 0 ∧
    ¬ ((kControlCreateRect 10 0 0 5).area ≥ |(0 : Int) - 10| * |(5 : Int) - 0|) := by
  refine ⟨by decide, by decide, ?_⟩
  rw [show (kControlCreateRect 10 0 0 5).area = 0 by decide]
  norm_num

/-- C2, amended: for every (x, y, x1, y1) the control rectangle built by
`kControlCreateRect` satisfies left <= right and top <= bottom; its area is
max(x1-x, 0) * max(y1-y, 0), which never exceeds |x1-x|*|y1-y| and reaches it
exactly when the rectangle is not inverted (x <= x1 and y <= y1) or the span is
empty: an inverted edge is collapsed onto the top-left corner, not swapped. -/
theorem kControlCreateRect_valid_area (x y x1 y1 : Int) :
    (kControlCreateRect x y x1 y1).left ≤ (kControlCreateRect x y x1 y1).right ∧
    (kControlCreateRect x y x1 y1).top ≤ (kControlCreateRect x y x1 y1).bottom ∧
    (kControlCreateRect x y x1 y1).area = max (x1 - x) 0 * max (y1 - y) 0 ∧
    (kControlCreateRect x y x1 y1).area ≤ |x1 - x| * |y1 - y| ∧
    ((kControlCreateRect x y x1 y1).area ≥ |x1 - x| * |y1 - y| ↔
      (x ≤ x1 ∧ y ≤ y1) ∨ x = x1 ∨ y = y1) := by
  have harea : (kControlCreateRect x y x1 y1).area = max (x1 - x) 0 * max (y1 - y) 0 := by
    rw [kControlCreateRect_eq]
    show (max x x1 - x) * (max y y1 - y) = _
    congr 1
    · rcases le_total x x1 with h | h
      · rw [max_eq_right h, max_eq_left (by omega)]
      · rw [max_eq_left h, max_eq_right (by omega)]; omega
    · rcases le_total y y1 with h | h
      · rw [max_eq_right h, max_eq_left (by omega)]
      · rw [max_eq_left h, max_eq_right (by omega)]; omega
  have hx0 : (0 : Int) ≤ max (x1 - x) 0 := le_max_right _ _
  have hy0 : (0 : Int) ≤ max (y1 - y) 0 := le_max_right _ _
  have hxa : max (x1 - x) 0 ≤ |x1 - x| := max_le (le_abs_self _) (abs_nonneg _)
  have hya : max (y1 - y) 0 ≤ |y1 - y| := max_le (le_abs_self _) (abs_nonneg _)
  have hle : max (x1 - x) 0 * max (y1 - y) 0 ≤ |x1 - x| * |y1 - y| :=
    mul_le_mul hxa hya hy0 (abs_nonneg _)
  refine ⟨?_, ?_, harea, harea ▸ hle, ?_⟩
  · rw [kControlCreateRect_eq]; exact le_max_left _ _
  · rw [kControlCreateRect_eq]; exact le_max_left _ _
  · rw [harea]
    constructor
    · intro hge
      by_contra hne
      push_neg at hne
      obtain ⟨hinv, hxne, hyne⟩ := hne
      have hxpos : 0 < |x1 - x| := abs_pos.mpr (by omega)
      have hypos : 0 < |y1 - y| := abs_pos.mpr (by omega)
      have hpos : 0 < |x1 - x| * |y1 - y| := mul_pos hxpos hypos
      by_cases hx : x ≤ x1
      · have hy : y1 < y := by
          by_contra hc
          exact absurd (hinv hx) (by omega)
        rw [max_eq_right (show y1 - y ≤ 0 by omega), mul_zero] at hge
        omega
      · rw [max_eq_right (show x1 - x ≤ 0 by omega), zero_mul] at hge
        omega
    · rintro (⟨hx, hy⟩ | h | h)
      · rw [max_eq_left (show (0 : Int) ≤ x1 - x by omega),
          max_eq_left (show (0 : Int) ≤ y1 - y by omega),
          abs_of_nonneg (show (0 : Int) ≤ x1 - x by omega),
          abs_of_nonneg (show (0 : Int) ≤ y1 - y by omega)]
      · subst h; simp
      · subst h; simp

/-- C3: `kControlCreateRect` keeps the original top-left corner and is total: for
every (x, y, x1, y1) the result is exactly left = x, top = y, right = max(x, x1),
bottom = max(y, y1); so left <= right and top <= bottom always hold (the
rectangle is valid), and an upside-down edge gives a zero-width or zero-height
rectangle anchored at (x, y). -/
theorem kControlCreateRect_keeps_top_left (x y x1 y1 : Int) :
    kControlCreateRect x y x1 y1 = ⟨y, x, max y y1, max x x1⟩ ∧
    (kControlCreateRect x y x1 y1).left = x ∧
    (kControlCreateRect x y x1 y1).top = y ∧
    (kControlCreateRect x y x1 y1).right = max x x1 ∧
    (kControlCreateRect x y x1 y1).bottom = max y y1 ∧
    (kControlCreateRect x y x1 y1).left ≤ (kControlCreateRect x y x1 y1).right ∧
    (kControlCreateRect x y x1 y1).top ≤ (kControlCreateRect x y x1 y1).bottom ∧
    (kControlCreateRect x y x1 y1).isValidRect = true ∧
    (x1 < x → (kControlCreateRect x y x1 y1).right - (kControlCreateRect x y x1 y1).left = 0) ∧
    (y1 < y → (kControlCreateRect x y x1 y1).bottom - (kControlCreateRect x y x1 y1).top = 0) := by
  rw [kControlCreateRect_eq]
  refine ⟨rfl, rfl, rfl, rfl, rfl, le_max_left _ _, le_max_left _ _, ?_, ?_, ?_⟩
  · simp [Rect.isValidRect]
  · intro h
    show max x x1 - x = 0
    rw [max_eq_left (le_of_lt h)]; omega
  · intro h
    show max y y1 - y = 0
    rw [max_eq_left (le_of_lt h)]; omega

/-- C3 at the duplicate button of the source comment, whose lower-right corner is
(0, 0): the rectangle built from (x, y, x1, y1) = (12, 7, 0, 0) is the empty
rectangle at (12, 7). -/
theorem kControlCreateRect_keeps_top_left_witness :
    kControlCreateRect 12 7 0 0 = ⟨7, 12, 7, 12⟩ ∧
    (kControlCreateRect 12 7 0 0).right - (kControlCreateRect 12 7 0 0).left = 0 ∧
    (kControlCreateRect 12 7 0 0).bottom - (kControlCreateRect 12 7 0 0).top = 0 :=
  ⟨by decide,
   (kControlCreateRect_keeps_top_left 12 7 0 0).2.2.2.2.2.2.2.2.1 (by decide),
   (kControlCreateRect_keeps_top_left 12 7 0 0).2.2.2.2.2.2.2.2.2 (by decide)⟩

/-! ## Properties of the palette calls -/

/-- Reading an argument at a natural-number index. -/
theorem argvAt_natCast (argv : List reg_t) (i : Nat) : argvAt argv (i : Int) = argv[i]? := by
  simp [argvAt]

theorem argvAt_zero (a0 : reg_t) (rest : List reg_t) : argvAt (a0 :: rest) 0 = some a0 := by
  simp [argvAt]

theorem argvAt_one (a0 a1 : reg_t) (rest : List reg_t) :
    argvAt (a0 :: a1 :: rest) 1 = some a1 := by
  simp [argvAt]

theorem argvAt_two (a0 a1 a2 : reg_t) (rest : List reg_t) :
    argvAt (a0 :: a1 :: a2 :: rest) 2 = some a2 := by
  simp [argvAt]

theorem argvAt_three (a0 a1 a2 a3 : reg_t) (rest : List reg_t) :
    argvAt (a0 :: a1 :: a2 :: a3 :: rest) 3 = some a3 := by
  simp [argvAt]

/-- The clamp `CLIP(v, 1, 255)` as a minimum and maximum. -/
theorem CLIP_one_255 (v : Nat) : CLIP v 1 255 = max 1 (min v 255) := by
  unfold CLIP
  split
  · omega
  · split <;> omega

/-- The flag `setPalette` is always defined: it is true exactly when `argc < 4`
or `argv[3]` is null. -/
theorem setPaletteArg_eq (argv : List reg_t) :
    setPaletteArg argv =
      some (decide (argv.length < 4) || (argv.getD 3 NULL_REG).isNull) := by
  unfold setPaletteArg
  by_cases hlen : argv.length < 4
  · simp [hlen]
  · have h3 : 3 < argv.length := by omega
    simp only [hlen, if_false, decide_False, Bool.false_or]
    rw [show (3 : Int) = ((3 : Nat) : Int) by rfl, argvAt_natCast]
    simp [List.getD, List.getElem?_eq_getElem h3]

/-- The result of `kPaletteSetIntensity` on a vector of at least three
arguments. -/
theorem kPaletteSetIntensity_eq (h : Host) (s : EngineState) (a0 a1 a2 : reg_t)
    (rest : List reg_t) (b : Bool) (hb : setPaletteArg (a0 :: a1 :: a2 :: rest) = some b) :
    kPaletteSetIntensity h s (a0 :: a1 :: a2 :: rest) =
      some (s.r_acc,
        if h.totalColorCount < 256 then s
        else if b = true then
          { r_acc := s.r_acc,
            _paletteSetIntensityCounter := s._paletteSetIntensityCounter + 1,
            _throttleTrigger := true,
            calls := s.calls ++
              (if s._paletteSetIntensityCounter > 0 then [Call.speedThrottler 30] else []) ++
              [Call.kernelSetIntensity (CLIP a0.toUint16 1 255) (CLIP a1.toUint16 1 255)
                a2.toUint16 true] }
        else s.log (Call.kernelSetIntensity (CLIP a0.toUint16 1 255) (CLIP a1.toUint16 1 255)
                a2.toUint16 false)) := by
  unfold kPaletteSetIntensity
  rw [hb]
  simp only [argvAt_zero, argvAt_one, argvAt_two, Option.bind_eq_bind, Option.pure_def,
    Option.some_bind]
  by_cases hc : h.totalColorCount < 256
  · simp [hc]
  · cases b
    · simp [hc, EngineState.log]
    · by_cases hcnt : s._paletteSetIntensityCounter > 0
      · simp [hc, hcnt, EngineState.log, EngineState.speedThrottler]
      · simp [hc, hcnt, EngineState.log]

/-- C4: for every pair of from/to arguments (read as unsigned 16-bit values),
`kPaletteSetFlag`, `kPaletteUnsetFlag` and `kPaletteSetIntensity` forward to the
palette engine fromColor = clamp(argv[0], 1, 255) and toColor =
clamp(argv[1], 1, 255) (the only palette-engine call they make;
`kPaletteSetIntensity` makes it when the colour count is at least 256 and none
below); a value already in [1,255] passes unchanged, 0 becomes 1, every value
above 255 becomes 255, so the forwarded range never contains palette index 0. -/
theorem palette_range_calls_clamped (h : Host) (s : EngineState) (a0 a1 a2 : reg_t)
    (rest : List reg_t) :
    kPaletteSetFlag s (a0 :: a1 :: a2 :: rest) =
      some (s.r_acc, s.log (Call.kernelSetFlag (CLIP a0.toUint16 1 255)
        (CLIP a1.toUint16 1 255) a2.toUint16)) ∧
    kPaletteUnsetFlag s (a0 :: a1 :: a2 :: rest) =
      some (s.r_acc, s.log (Call.kernelUnsetFlag (CLIP a0.toUint16 1 255)
        (CLIP a1.toUint16 1 255) a2.toUint16)) ∧
    (∃ (b : Bool) (s' : EngineState),
      kPaletteSetIntensity h s (a0 :: a1 :: a2 :: rest) = some (s.r_acc, s') ∧
      s'.calls.filter Call.isPaletteEngine = s.calls.filter Call.isPaletteEngine ++
        (if h.totalColorCount < 256 then []
         else [Call.kernelSetIntensity (CLIP a0.toUint16 1 255) (CLIP a1.toUint16 1 255)
                a2.toUint16 b])) ∧
    (∀ v : Nat, 1 ≤ CLIP v 1 255 ∧ CLIP v 1 255 ≤ 255 ∧
      (1 ≤ v ∧ v ≤ 255 → CLIP v 1 255 = v) ∧ (v = 0 → CLIP v 1 255 = 1) ∧
      (255 < v → CLIP v 1 255 = 255)) := by
  refine ⟨?_, ?_, ?_, ?_⟩
  · simp [kPaletteSetFlag, argvAt_zero, argvAt_one, argvAt_two, EngineState.log]
  · simp [kPaletteUnsetFlag, argvAt_zero, argvAt_one, argvAt_two, EngineState.log]
  · obtain ⟨b, hb⟩ : ∃ b, setPaletteArg (a0 :: a1 :: a2 :: rest) = some b :=
      ⟨_, setPaletteArg_eq _⟩
    refine ⟨b, _, kPaletteSetIntensity_eq h s a0 a1 a2 rest b hb, ?_⟩
    by_cases hc : h.totalColorCount < 256
    · simp [hc]
    · simp only [hc, if_false]
      split
      · rename_i hb
        rw [hb]
        by_cases hcnt : s._paletteSetIntensityCounter > 0 <;>
          simp [hcnt, List.filter_append, Call.isPaletteEngine]
      · rename_i hb
        rw [Bool.not_eq_true] at hb
        rw [hb]
        simp [EngineState.log, List.filter_append, Call.isPaletteEngine]
  · intro v
    rw [CLIP_one_255]
    refine ⟨?_, ?_, ?_, ?_, ?_⟩ <;> omega

/-- C4 at from = 10, to = 20 in a 256-colour game: the range is forwarded as
(10, 20); and from = 0, to = 300 is forwarded as (1, 255). -/
theorem palette_range_calls_clamped_witness :
    kPaletteSetFlag (sampleState 0) (intArgs [10, 20, 3]) =
      some (make_reg 0 7, (sampleState 0).log (Call.kernelSetFlag 10 20 3)) ∧
    kPaletteSetFlag (sampleState 0) (intArgs [0, 300, 3]) =
      some (make_reg 0 7, (sampleState 0).log (Call.kernelSetFlag 1 255 3)) ∧
    CLIP 10 1 255 = 10 ∧ CLIP 0 1 255 = 1 ∧ CLIP 300 1 255 = 255 :=
  ⟨(palette_range_calls_clamped (sampleHost 256 false) (sampleState 0)
      (make_reg 0 10) (make_reg 0 20) (make_reg 0 3) []).1,
   (palette_range_calls_clamped (sampleHost 256 false) (sampleState 0)
      (make_reg 0 0) (make_reg 0 300) (make_reg 0 3) []).1,
   ((palette_range_calls_clamped (sampleHost 256 false) (sampleState 0)
      (make_reg 0 10) (make_reg 0 20) (make_reg 0 3) []).2.2.2 10).2.2.1 (by decide),
   ((palette_range_calls_clamped (sampleHost 256 false) (sampleState 0)
      (make_reg 0 10) (make_reg 0 20) (make_reg 0 3) []).2.2.2 0).2.2.2.1 rfl,
   ((palette_range_calls_clamped (sampleHost 256 false) (sampleState 0)
      (make_reg 0 10) (make_reg 0 20) (make_reg 0 3) []).2.2.2 300).2.2.2.2 (by decide)⟩

/-- C5 fails on the code: in a 256-colour game `kPaletteAnimate` called with
(from, to, speed) = (0, 10, 1) forwards fromColor = 0 to `kernelAnimate`, and
called with (5, 300, 1) forwards toColor = 300: the range is passed on as read,
without the clamp to [1,255] that the other range operations apply. -/
theorem kPaletteAnimate_forwards_unclamped :
    kPaletteAnimate (sampleHost 256 false) (sampleState 0) (intArgs [0, 10, 1]) =
      some (make_reg 0 7, (sampleState 0).log (Call.kernelAnimate 0 10 1)) ∧
    kPaletteAnimate (sampleHost 256 false) (sampleState 0) (intArgs [5, 300, 1]) =
      some (make_reg 0 7, (sampleState 0).log (Call.kernelAnimate 5 300 1)) ∧
    (Call.kernelAnimate 0 10 1).range = some (0, 10) ∧
    ¬ (1 ≤ 0 ∧ 0 ≤ 255) ∧ ¬ (1 ≤ 300 ∧ 300 ≤ 255) ∧
    kPaletteSetFlag (sampleState 0) (intArgs [0, 10, 1]) =
      some (make_reg 0 7, (sampleState 0).log (Call.kernelSetFlag 1 10 1)) := by
  decide

/-- The result of `kPaletteSetFromResource` on a non-empty argument vector: the
palette engine is called once when the colour count is at least 64, and not at
all below; force is set by a second and last argument equal to 2. -/
theorem kPaletteSetFromResource_eq (h : Host) (s : EngineState) (a0 : reg_t)
    (rest : List reg_t) :
    kPaletteSetFromResource h s (a0 :: rest) =
      some (s.r_acc,
        if h.totalColorCount < 64 then s
        else s.log (Call.kernelSetFromResource a0.toUint16
          (decide (rest.length = 1) && decide ((rest.getD 0 NULL_REG).toUint16 = 2)))) := by
  unfold kPaletteSetFromResource
  simp only [argvAt_zero, Option.bind_eq_bind, Option.pure_def, Option.some_bind]
  match rest with
  | [] => by_cases hc : h.totalColorCount < 64 <;> simp [hc, EngineState.log]
  | [a1] => by_cases hc : h.totalColorCount < 64 <;> simp [hc, argvAt_one, EngineState.log]
  | a1 :: a2 :: rest => by_cases hc : h.totalColorCount < 64 <;> simp [hc, EngineState.log]

/-- C6, as stated, fails in both directions: with exactly 64 colours and no force
flag the palette engine is called (the claim asks for more than 64 colours), and
with 16 colours the call is a no-op even though the force flag is set. -/
theorem kPaletteSetFromResource_gate_counterexample :
    kPaletteSetFromResource (sampleHost 64 false) (sampleState 0) (intArgs [999]) =
      some (make_reg 0 7, (sampleState 0).log (Call.kernelSetFromResource 999 false)) ∧
    kPaletteSetFromResource (sampleHost 16 false) (sampleState 0) (intArgs [999, 2]) =
      some (make_reg 0 7, sampleState 0) ∧
    kPaletteSetFromResource (sampleHost 256 false) (sampleState 0) (intArgs [999, 2]) =
      some (make_reg 0 7, (sampleState 0).log (Call.kernelSetFromResource 999 true)) := by
  decide

/-- C6, amended: `kPaletteSetFromResource` is a no-op (the palette engine is not
called, the state is unchanged and r_acc is returned) exactly when the total
colour count is less than 64, whether or not the force flag is set; in every
other case it forwards (resourceId, force) to the palette engine exactly once
and returns r_acc, where resourceId = argv[0] and force holds iff argc = 2 and
argv[1] = 2. -/
theorem kPaletteSetFromResource_gate (h : Host) (s : EngineState) (a0 a1 a2 : reg_t)
    (rest : List reg_t) :
    kPaletteSetFromResource h s [a0] =
      some (s.r_acc, if h.totalColorCount < 64 then s
                     else s.log (Call.kernelSetFromResource a0.toUint16 false)) ∧
    kPaletteSetFromResource h s [a0, a1] =
      some (s.r_acc, if h.totalColorCount < 64 then s
                     else s.log (Call.kernelSetFromResource a0.toUint16
                            (decide (a1.toUint16 = 2)))) ∧
    kPaletteSetFromResource h s (a0 :: a1 :: a2 :: rest) =
      some (s.r_acc, if h.totalColorCount < 64 then s
                     else s.log (Call.kernelSetFromResource a0.toUint16 false)) := by
  refine ⟨?_, ?_, ?_⟩
  · rw [kPaletteSetFromResource_eq]; simp
  · rw [kPaletteSetFromResource_eq]; simp
  · rw [kPaletteSetFromResource_eq]; simp

/-- One `kPaletteSetIntensity` invocation with the given host and arguments. -/
theorem exec_setIntensity (h : Host) (argv : List reg_t) (s : EngineState) :
    Invocation.exec ⟨KernelCall.kPaletteSetIntensity, h, argv⟩ s =
      kPaletteSetIntensity h s argv := rfl

/-- An immediate `kPaletteSetIntensity` call in a 256-colour game: the throttler
runs first when the counter is positive, the counter grows by one, the throttle
trigger is set and the change is forwarded. -/
theorem kPaletteSetIntensity_immediate (h : Host) (s : EngineState) (argv : List reg_t)
    (h256 : h.totalColorCount = 256) (hlen : 3 ≤ argv.length)
    (himm : argv.length < 4 ∨ (argv.getD 3 NULL_REG).isNull = true) :
    kPaletteSetIntensity h s argv =
      some (s.r_acc,
        { r_acc := s.r_acc,
          _paletteSetIntensityCounter := s._paletteSetIntensityCounter + 1,
          _throttleTrigger := true,
          calls := s.calls ++
            (if s._paletteSetIntensityCounter > 0 then [Call.speedThrottler 30] else []) ++
            [expectedSetIntensity argv true] }) := by
  have hb : setPaletteArg argv = some true := by
    rw [setPaletteArg_eq]
    rcases himm with h4 | hn
    · simp [h4]
    · rw [hn, Bool.or_true]
  match argv, hlen with
  | a0 :: a1 :: a2 :: rest, _ =>
    rw [kPaletteSetIntensity_eq h s a0 a1 a2 rest true hb]
    simp [h256, expectedSetIntensity]

/-- A run of immediate `kPaletteSetIntensity` calls that starts with a positive
counter throttles before every call. -/
theorem runCalls_setIntensity_throttled (cs : List (Host × List reg_t)) :
    ∀ s : EngineState, 0 < s._paletteSetIntensityCounter →
    (∀ c ∈ cs, c.1.totalColorCount = 256) → (∀ c ∈ cs, 3 ≤ c.2.length) →
    (∀ c ∈ cs, c.2.length < 4 ∨ (c.2.getD 3 NULL_REG).isNull = true) →
    runCalls (cs.map fun c => ⟨KernelCall.kPaletteSetIntensity, c.1, c.2⟩) s =
      some { r_acc := s.r_acc,
             _paletteSetIntensityCounter := s._paletteSetIntensityCounter + cs.length,
             _throttleTrigger := if cs.isEmpty then s._throttleTrigger else true,
             calls := s.calls ++
               cs.flatMap fun c => [Call.speedThrottler 30, expectedSetIntensity c.2 true] } := by
  induction cs with
  | nil => intro s _ _ _ _; simp [runCalls]
  | cons c cs ih =>
    intro s hpos h256 hlen himm
    simp only [List.map_cons, runCalls, exec_setIntensity]
    rw [kPaletteSetIntensity_immediate c.1 s c.2 (h256 c (List.mem_cons_self _ _))
      (hlen c (List.mem_cons_self _ _)) (himm c (List.mem_cons_self _ _))]
    simp only [Option.bind_eq_bind, Option.some_bind]
    rw [ih _ (by show 0 < s._paletteSetIntensityCounter + 1; omega)
      (fun d hd => h256 d (List.mem_cons_of_mem _ hd))
      (fun d hd => hlen d (List.mem_cons_of_mem _ hd))
      (fun d hd => himm d (List.mem_cons_of_mem _ hd))]
    simp [hpos, List.flatMap_cons, Nat.add_assoc, Nat.add_comm 1]

/-- C7: in a 256-colour game, starting with the set-intensity counter at 0, N >= 1
consecutive `kPaletteSetIntensity` calls that apply immediately (argc < 4 or
argv[3] null), with no `kWait` in between, all return, and their log is the
first call's `kernelSetIntensity` followed, for every later call, by
`speedThrottler(30)` and then that call's `kernelSetIntensity`: the throttler is
invoked exactly N-1 times, the counter ends at N and the throttle trigger ends
set. -/
theorem kPaletteSetIntensity_unthrottled_loop (c : Host × List reg_t)
    (rest : List (Host × List reg_t)) (s : EngineState)
    (h0 : s._paletteSetIntensityCounter = 0)
    (h256 : ∀ d ∈ c :: rest, d.1.totalColorCount = 256)
    (hlen : ∀ d ∈ c :: rest, 3 ≤ d.2.length)
    (himm : ∀ d ∈ c :: rest, d.2.length < 4 ∨ (d.2.getD 3 NULL_REG).isNull = true) :
    ∃ s' : EngineState,
      runCalls ((c :: rest).map fun d => ⟨KernelCall.kPaletteSetIntensity, d.1, d.2⟩) s =
        some s' ∧
      s'.calls = s.calls ++ expectedSetIntensity c.2 true ::
        rest.flatMap (fun d => [Call.speedThrottler 30, expectedSetIntensity d.2 true]) ∧
      ((s'.calls.drop s.calls.length).filter Call.isSpeedThrottler).length =
        (c :: rest).length - 1 ∧
      (∀ d ∈ s'.calls.drop s.calls.length, d.isSpeedThrottler = true → d = Call.speedThrottler 30) ∧
      s'._paletteSetIntensityCounter = (c :: rest).length ∧
      s'._throttleTrigger = true ∧ s'.r_acc = s.r_acc := by
  have hfirst := kPaletteSetIntensity_immediate c.1 s c.2 (h256 c (List.mem_cons_self _ _))
      (hlen c (List.mem_cons_self _ _)) (himm c (List.mem_cons_self _ _))
  have hrest := runCalls_setIntensity_throttled rest
    { r_acc := s.r_acc,
      _paletteSetIntensityCounter := s._paletteSetIntensityCounter + 1,
      _throttleTrigger := true,
      calls := s.calls ++
        (if s._paletteSetIntensityCounter > 0 then [Call.speedThrottler 30] else []) ++
        [expectedSetIntensity c.2 true] }
    (by show 0 < s._paletteSetIntensityCounter + 1; omega)
    (fun d hd => h256 d (List.mem_cons_of_mem _ hd))
    (fun d hd => hlen d (List.mem_cons_of_mem _ hd))
    (fun d hd => himm d (List.mem_cons_of_mem _ hd))
  have hfilter : ∀ l : List (Host × List reg_t),
      ((l.flatMap fun d => [Call.speedThrottler 30, expectedSetIntensity d.2 true]).filter
        Call.isSpeedThrottler).length = l.length := by
    intro l
    induction l with
    | nil => rfl
    | cons d l ih =>
      simp only [List.flatMap_cons, List.filter_append, List.length_append, ih]
      simp [List.filter, Call.isSpeedThrottler, expectedSetIntensity, Nat.add_comm]
  refine ⟨_, (by
    simp only [List.map_cons, runCalls, exec_setIntensity]
    rw [hfirst]
    simp only [Option.bind_eq_bind, Option.some_bind]
    exact hrest), ?_, ?_, ?_, ?_, ?_, ?_⟩
  · simp [h0]
  · simp only [h0, lt_irrefl, if_false, List.append_nil, List.append_assoc,
      List.drop_left, List.singleton_append, List.length_cons]
    rw [List.filter_cons_of_neg (by simp [Call.isSpeedThrottler, expectedSetIntensity]), hfilter]
    omega
  · simp only [h0, lt_irrefl, if_false, List.append_nil, List.append_assoc,
      List.drop_left, List.singleton_append]
    intro d hd hthr
    rcases List.mem_cons.mp hd with rfl | hd
    · simp [Call.isSpeedThrottler, expectedSetIntensity] at hthr
    · obtain ⟨e, _, he⟩ := List.mem_flatMap.mp hd
      rcases List.mem_cons.mp he with rfl | he
      · rfl
      · rw [List.mem_singleton] at he
        subst he
        simp [Call.isSpeedThrottler, expectedSetIntensity] at hthr
  · simp [h0, Nat.add_comm]
  · cases rest <;> simp
  · rfl

/-- C7 for three calls in a 256-colour game, the first two with three
arguments and the third with a null fourth argument. -/
theorem kPaletteSetIntensity_unthrottled_loop_witness :
    ∃ s' : EngineState,
      runCalls [⟨KernelCall.kPaletteSetIntensity, sampleHost 256 false, intArgs [1, 255, 90]⟩,
                ⟨KernelCall.kPaletteSetIntensity, sampleHost 256 false, intArgs [1, 255, 80]⟩,
                ⟨KernelCall.kPaletteSetIntensity, sampleHost 256 false, intArgs [1, 255, 70, 0]⟩]
          (sampleState 0) = some s' ∧
      s'.calls = [Call.kernelSetIntensity 1 255 90 true,
                  Call.speedThrottler 30, Call.kernelSetIntensity 1 255 80 true,
                  Call.speedThrottler 30, Call.kernelSetIntensity 1 255 70 true] ∧
      s'._paletteSetIntensityCounter = 3 ∧ s'._throttleTrigger = true := by
  obtain ⟨s', hrun, hcalls, _, _, hcnt, htrig, _⟩ :=
    kPaletteSetIntensity_unthrottled_loop (sampleHost 256 false, intArgs [1, 255, 90])
      [(sampleHost 256 false, intArgs [1, 255, 80]), (sampleHost 256 false, intArgs [1, 255, 70, 0])]
      (sampleState 0) rfl (by simp [sampleHost]) (by simp [intArgs])
      (by simp [intArgs, reg_t.isNull, make_reg])
  exact ⟨s', hrun, hcalls, hcnt, htrig⟩

/-- C8, as stated, fails: in a 256-colour game a call with a non-null fourth
argument that enters with the counter at 1 leaves with the counter still at 1,
and injects no `speedThrottler` before the staged `kernelSetIntensity`. -/
theorem kPaletteSetIntensity_staged_counterexample :
    kPaletteSetIntensity (sampleHost 256 false) (sampleState 1) (intArgs [1, 255, 50, 1]) =
      some (make_reg 0 7,
        { r_acc := make_reg 0 7, _paletteSetIntensityCounter := 1, _throttleTrigger := false,
          calls := [Call.kernelSetIntensity 1 255 50 false] }) ∧
    (sampleState 1)._paletteSetIntensityCounter = 1 ∧
    0 < (sampleState 1)._paletteSetIntensityCounter := by
  decide

/-- C8, amended: a `kPaletteSetIntensity` call with applyImmediately false
(argc >= 4 and argv[3] non-null) in a 256-colour game has no side effect on the
set-intensity counter or on the throttle trigger: both are the same on exit as on
entry, no `speedThrottler` is injected whatever the counter is, and the staged
change is forwarded to the palette engine exactly once, as
kernelSetIntensity(clamp(argv[0]), clamp(argv[1]), argv[2], false). -/
theorem kPaletteSetIntensity_staged (h : Host) (s : EngineState) (a0 a1 a2 a3 : reg_t)
    (rest : List reg_t) (h256 : h.totalColorCount = 256) (hnz : a3.isNull = false) :
    ∃ s' : EngineState,
      kPaletteSetIntensity h s (a0 :: a1 :: a2 :: a3 :: rest) = some (s.r_acc, s') ∧
      s'._paletteSetIntensityCounter = s._paletteSetIntensityCounter ∧
      s'._throttleTrigger = s._throttleTrigger ∧
      s'.r_acc = s.r_acc ∧
      s'.calls = s.calls ++ [Call.kernelSetIntensity (CLIP a0.toUint16 1 255)
        (CLIP a1.toUint16 1 255) a2.toUint16 false] := by
  have hb : setPaletteArg (a0 :: a1 :: a2 :: a3 :: rest) = some false := by
    rw [setPaletteArg_eq]
    simp [hnz]
  refine ⟨_, kPaletteSetIntensity_eq h s a0 a1 a2 (a3 :: rest) false hb, ?_, ?_, ?_, ?_⟩ <;>
    simp [h256, EngineState.log]

/-- C8 amended, at a call with counter 5 on entry and fourth argument 1. -/
theorem kPaletteSetIntensity_staged_witness :
    ∃ s' : EngineState,
      kPaletteSetIntensity (sampleHost 256 false) (sampleState 5) (intArgs [0, 300, 50, 1]) =
        some (make_reg 0 7, s') ∧
      s'._paletteSetIntensityCounter = 5 ∧
      s'.calls = [Call.kernelSetIntensity 1 255 50 false] := by
  obtain ⟨s', hrun, hcnt, _, _, hcalls⟩ :=
    kPaletteSetIntensity_staged (sampleHost 256 false) (sampleState 5) (make_reg 0 0)
      (make_reg 0 300) (make_reg 0 50) (make_reg 0 1) [] rfl rfl
  exact ⟨s', hrun, hcnt, hcalls⟩

/-- The result of `kPaletteSetFlag` on a vector of at least three arguments. -/
theorem kPaletteSetFlag_eq (s : EngineState) (a0 a1 a2 : reg_t) (rest : List reg_t) :
    kPaletteSetFlag s (a0 :: a1 :: a2 :: rest) =
      some (s.r_acc, s.log (Call.kernelSetFlag (CLIP a0.toUint16 1 255)
        (CLIP a1.toUint16 1 255) a2.toUint16)) := by
  simp [kPaletteSetFlag, argvAt_zero, argvAt_one, argvAt_two, EngineState.log]

/-- The result of `kPaletteUnsetFlag` on a vector of at least three arguments. -/
theorem kPaletteUnsetFlag_eq (s : EngineState) (a0 a1 a2 : reg_t) (rest : List reg_t) :
    kPaletteUnsetFlag s (a0 :: a1 :: a2 :: rest) =
      some (s.r_acc, s.log (Call.kernelUnsetFlag (CLIP a0.toUint16 1 255)
        (CLIP a1.toUint16 1 255) a2.toUint16)) := by
  simp [kPaletteUnsetFlag, argvAt_zero, argvAt_one, argvAt_two, EngineState.log]

/-- Logging a call that is not a throttler call keeps the throttler calls. -/
theorem log_filter_throttler (s : EngineState) (c : Call) (hc : c.isSpeedThrottler = false) :
    (s.log c).calls.filter Call.isSpeedThrottler = s.calls.filter Call.isSpeedThrottler := by
  simp [EngineState.log, List.filter_append, hc]

/-- The result of `kWait` on a non-empty argument vector. -/
theorem kWait_eq (h : Host) (s : EngineState) (a0 : reg_t) (rest : List reg_t) :
    kWait h s (a0 :: rest) =
      some (if h.kWaitHook then NULL_REG else make_reg 0 (h.waitDelta % 65536),
        { r_acc := s.r_acc,
          _paletteSetIntensityCounter :=
            if h.kWaitHook then s._paletteSetIntensityCounter else 0,
          _throttleTrigger := s._throttleTrigger,
          calls := s.calls ++ [Call.wait a0.toUint16, Call.kWaitHook] }) := by
  unfold kWait
  simp only [argvAt_zero, Option.bind_eq_bind, Option.pure_def, Option.some_bind]
  cases hh : h.kWaitHook <;> simp [EngineState.log]

/-- The loop of `kPaletteAnimate` never calls the throttler. -/
theorem kPaletteAnimateLoop_throttler (h : Host) (argv : List reg_t) :
    ∀ (fuel : Nat) (argNr : Int) (done : Nat) (pc : Bool) (s : EngineState) (pc' : Bool)
      (s' : EngineState),
      kPaletteAnimateLoop h argv fuel argNr done pc s = some (pc', s') →
      s'.calls.filter Call.isSpeedThrottler = s.calls.filter Call.isSpeedThrottler ∧
      s'._paletteSetIntensityCounter = s._paletteSetIntensityCounter := by
  intro fuel
  induction fuel with
  | zero => intro argNr done pc s pc' s' hrun; simp [kPaletteAnimateLoop] at hrun
  | succ fuel ih =>
    intro argNr done pc s pc' s' hrun
    rw [kPaletteAnimateLoop] at hrun
    split at hrun
    · cases h0 : argvAt argv argNr with
      | none => simp [h0] at hrun
      | some r0 =>
        cases h1 : argvAt argv (argNr + 1) with
        | none => simp [h0, h1] at hrun
        | some r1 =>
          cases h2 : argvAt argv (argNr + 2) with
          | none => simp [h0, h1, h2] at hrun
          | some r2 =>
            simp only [h0, h1, h2, Option.bind_eq_bind, Option.some_bind] at hrun
            obtain ⟨hc, hn⟩ := ih _ _ _ _ _ _ hrun
            rw [hc, hn]
            simp [EngineState.log, List.filter_append, Call.isSpeedThrottler]
    · simp only [Option.pure_def, Option.some.injEq, Prod.mk.injEq] at hrun
      rw [← hrun.2]
      exact ⟨rfl, rfl⟩

/-- The kernel call `kPaletteAnimate` in terms of its loop: after the loop the
log receives `kernelAnimateSet` if the palette changed, and then the calls of the
workarounds; the police-lights workaround reads `argv[0]`. -/
theorem kPaletteAnimate_eq (h : Host) (s : EngineState) (argv : List reg_t) :
    kPaletteAnimate h s argv =
      (if h.totalColorCount = 256 then kPaletteAnimateLoop h argv 32768 0 0 false s
       else some (false, s)).bind fun p =>
        if ((h.gameId = SciGameId.GID_PQ1 ∧ h.currentRoomNumber = 1) ∨
            (h.gameId = SciGameId.GID_PQ3 ∧ h.currentRoomNumber = 2)) ∧ argv = [] then none
        else some (p.2.r_acc,
          { r_acc := p.2.r_acc,
            _paletteSetIntensityCounter := p.2._paletteSetIntensityCounter,
            _throttleTrigger := p.2._throttleTrigger,
            calls := p.2.calls ++ (if p.1 = true then [Call.kernelAnimateSet] else []) ++
              animateWorkarounds h argv p.1 }) := by
  unfold kPaletteAnimate animateWorkarounds
  by_cases h256 : h.totalColorCount = 256
  · simp only [h256, if_true]
    cases hl : kPaletteAnimateLoop h argv 32768 0 0 false s with
    | none => simp
    | some p =>
      obtain ⟨pc, s1⟩ := p
      cases argv with
      | nil =>
        by_cases hpq : (h.gameId = SciGameId.GID_PQ1 ∧ h.currentRoomNumber = 1) ∨
            (h.gameId = SciGameId.GID_PQ3 ∧ h.currentRoomNumber = 2)
        · simp [hpq, argvAt]
        · by_cases hsq : h.gameId = SciGameId.GID_SQ4 ∧ h.isCD = false <;> cases pc <;>
            simp [hpq, hsq, EngineState.log]
      | cons a0 rest =>
        by_cases hpq : (h.gameId = SciGameId.GID_PQ1 ∧ h.currentRoomNumber = 1) ∨
            (h.gameId = SciGameId.GID_PQ3 ∧ h.currentRoomNumber = 2) <;>
        by_cases hsq : h.gameId = SciGameId.GID_SQ4 ∧ h.isCD = false <;> cases pc <;>
        by_cases hfrom : a0.toUint16 ≥ 208 <;>
          simp [hpq, hsq, hfrom, EngineState.log, argvAt_zero]
  · simp only [h256, if_false]
    cases argv with
    | nil =>
      by_cases hpq : (h.gameId = SciGameId.GID_PQ1 ∧ h.currentRoomNumber = 1) ∨
          (h.gameId = SciGameId.GID_PQ3 ∧ h.currentRoomNumber = 2)
      · simp [hpq, argvAt]
      · by_cases hsq : h.gameId = SciGameId.GID_SQ4 ∧ h.isCD = false <;>
          simp [hpq, hsq, EngineState.log]
    | cons a0 rest =>
      by_cases hpq : (h.gameId = SciGameId.GID_PQ1 ∧ h.currentRoomNumber = 1) ∨
          (h.gameId = SciGameId.GID_PQ3 ∧ h.currentRoomNumber = 2) <;>
      by_cases hsq : h.gameId = SciGameId.GID_SQ4 ∧ h.isCD = false <;>
      by_cases hfrom : a0.toUint16 ≥ 208 <;>
        simp [hpq, hsq, hfrom, EngineState.log, argvAt_zero]

/-- The workarounds at the end of `kPaletteAnimate` never call the throttler. -/
theorem animateWorkarounds_throttler (h : Host) (argv : List reg_t) (pc : Bool) :
    (animateWorkarounds h argv pc).filter Call.isSpeedThrottler = [] := by
  unfold animateWorkarounds
  rw [List.filter_append]
  split <;> split <;> simp [Call.isSpeedThrottler]

/-- One kernel call adds no `speedThrottler` call to the log, unless it is an
immediate `kPaletteSetIntensity` call entered with a positive counter; and a
`kWait` whose hook answers false leaves the counter at 0. -/
theorem exec_throttler (c : Invocation) (s : EngineState) (r : reg_t) (s' : EngineState)
    (hrun : c.exec s = some (r, s'))
    (hok : c.isImmediateSetIntensity = false ∨ s._paletteSetIntensityCounter = 0) :
    s'.calls.filter Call.isSpeedThrottler = s.calls.filter Call.isSpeedThrottler ∧
    (c.isPlainWait = true → s'._paletteSetIntensityCounter = 0) := by
  obtain ⟨fn, h, argv⟩ := c
  cases fn
  · -- kWait
    cases argv with
    | nil => simp [Invocation.exec, kWait, argvAt] at hrun
    | cons a0 rest =>
      simp only [Invocation.exec, kWait_eq, Option.some.injEq, Prod.mk.injEq] at hrun
      rw [← hrun.2]
      refine ⟨by simp [List.filter_append, Call.isSpeedThrottler], ?_⟩
      intro hw
      simp only [Invocation.isPlainWait, decide_True, Bool.true_and, Bool.not_eq_true'] at hw
      simp [hw]
  · -- kPaletteSetFromResource
    cases argv with
    | nil => simp [Invocation.exec, kPaletteSetFromResource, argvAt] at hrun
    | cons a0 rest =>
      simp only [Invocation.exec, kPaletteSetFromResource_eq, Option.some.injEq,
        Prod.mk.injEq] at hrun
      rw [← hrun.2]
      refine ⟨?_, by simp [Invocation.isPlainWait]⟩
      split <;> simp [EngineState.log, List.filter_append, Call.isSpeedThrottler]
  · -- kPaletteSetFlag
    refine ⟨?_, by simp [Invocation.isPlainWait]⟩
    match argv with
    | [] => simp [Invocation.exec, kPaletteSetFlag, argvAt] at hrun
    | [_] => simp [Invocation.exec, kPaletteSetFlag, argvAt] at hrun
    | [_, _] => simp [Invocation.exec, kPaletteSetFlag, argvAt] at hrun
    | a0 :: a1 :: a2 :: rest =>
      simp only [Invocation.exec, kPaletteSetFlag_eq,
        Option.some.injEq, Prod.mk.injEq] at hrun
      rw [← hrun.2]
      simp [EngineState.log, List.filter_append, Call.isSpeedThrottler]
  · -- kPaletteUnsetFlag
    refine ⟨?_, by simp [Invocation.isPlainWait]⟩
    match argv with
    | [] => simp [Invocation.exec, kPaletteUnsetFlag, argvAt] at hrun
    | [_] => simp [Invocation.exec, kPaletteUnsetFlag, argvAt] at hrun
    | [_, _] => simp [Invocation.exec, kPaletteUnsetFlag, argvAt] at hrun
    | a0 :: a1 :: a2 :: rest =>
      simp only [Invocation.exec, kPaletteUnsetFlag_eq,
        Option.some.injEq, Prod.mk.injEq] at hrun
      rw [← hrun.2]
      simp [EngineState.log, List.filter_append, Call.isSpeedThrottler]
  · -- kPaletteSetIntensity
    refine ⟨?_, by simp [Invocation.isPlainWait]⟩
    match argv with
    | [] => simp [Invocation.exec, kPaletteSetIntensity, argvAt] at hrun
    | [_] => simp [Invocation.exec, kPaletteSetIntensity, argvAt] at hrun
    | [_, _] => simp [Invocation.exec, kPaletteSetIntensity, argvAt] at hrun
    | a0 :: a1 :: a2 :: rest =>
      cases hbv : (decide ((a0 :: a1 :: a2 :: rest).length < 4) ||
          ((a0 :: a1 :: a2 :: rest).getD 3 NULL_REG).isNull) with
      | false =>
        have hb : setPaletteArg (a0 :: a1 :: a2 :: rest) = some false := by
          rw [setPaletteArg_eq, hbv]
        simp only [Invocation.exec, kPaletteSetIntensity_eq h s a0 a1 a2 rest false hb,
          Option.some.injEq, Prod.mk.injEq] at hrun
        rw [← hrun.2]
        split
        · rfl
        · exact log_filter_throttler _ _ rfl
      | true =>
        have hb : setPaletteArg (a0 :: a1 :: a2 :: rest) = some true := by
          rw [setPaletteArg_eq, hbv]
        have hz : s._paletteSetIntensityCounter = 0 := by
          rcases hok with hf | hz
          · simp only [Invocation.isImmediateSetIntensity, decide_True, Bool.true_and] at hf
            rw [hbv] at hf
            exact absurd hf (by decide)
          · exact hz
        simp only [Invocation.exec, kPaletteSetIntensity_eq h s a0 a1 a2 rest true hb,
          Option.some.injEq, Prod.mk.injEq] at hrun
        rw [← hrun.2]
        split
        · rfl
        · simp [hz, List.filter_append, Call.isSpeedThrottler]
  · -- kPaletteAnimate
    refine ⟨?_, by simp [Invocation.isPlainWait]⟩
    simp only [Invocation.exec] at hrun
    rw [kPaletteAnimate_eq] at hrun
    obtain ⟨p, hp, hrest⟩ := Option.bind_eq_some.mp hrun
    have hp' : p.2.calls.filter Call.isSpeedThrottler = s.calls.filter Call.isSpeedThrottler := by
      by_cases h256 : h.totalColorCount = 256
      · rw [if_pos h256] at hp
        exact (kPaletteAnimateLoop_throttler h argv _ _ _ _ _ p.1 p.2 hp).1
      · rw [if_neg h256] at hp
        cases hp
        rfl
    split at hrest
    · cases hrest
    · simp only [Option.some.injEq, Prod.mk.injEq] at hrest
      rw [← hrest.2]
      simp only [List.filter_append, animateWorkarounds_throttler, hp', List.append_nil]
      split <;> simp [Call.isSpeedThrottler]

/-- In a call sequence in which every immediate `kPaletteSetIntensity` call is
directly preceded by a `kWait` whose hook answers false, no call adds a
`speedThrottler` call to the log. -/
theorem runCalls_throttler (cs : List Invocation) :
    ∀ (prevWait : Bool) (s s' : EngineState),
      eachSetIntensityAfterWait prevWait cs = true →
      (prevWait = true → s._paletteSetIntensityCounter = 0) →
      runCalls cs s = some s' →
      s'.calls.filter Call.isSpeedThrottler = s.calls.filter Call.isSpeedThrottler := by
  induction cs with
  | nil =>
    intro prevWait s s' _ _ hrun
    simp only [runCalls, Option.some.injEq] at hrun
    rw [hrun]
  | cons c cs ih =>
    intro prevWait s s' hseq hprev hrun
    simp only [eachSetIntensityAfterWait, Bool.and_eq_true, Bool.or_eq_true,
      Bool.not_eq_true'] at hseq
    simp only [runCalls, Option.bind_eq_bind] at hrun
    obtain ⟨p, hp, hrest⟩ := Option.bind_eq_some.mp hrun
    obtain ⟨r, s1⟩ := p
    have hok : c.isImmediateSetIntensity = false ∨ s._paletteSetIntensityCounter = 0 :=
      hseq.1.imp id hprev
    obtain ⟨hf, hw⟩ := exec_throttler c s r s1 hp hok
    rw [ih c.isPlainWait s1 s' hseq.2 hw hrest, hf]

/-- C9: `kWait` during which `kWaitHook` answers false resets the set-intensity
counter to 0 and returns the elapsed delta of `s->wait(ticks)`; when the hook
answers true it returns NULL_REG and leaves the counter unchanged. Hence in every
call sequence in which each immediate `kPaletteSetIntensity` call is directly
preceded by a `kWait` whose hook answers false, no call invokes
`speedThrottler`, whatever the counter was at the start. -/
theorem kWait_resets_counter (h : Host) (s : EngineState) (a0 : reg_t) (rest : List reg_t)
    (cs : List Invocation) (t t' : EngineState)
    (hseq : eachSetIntensityAfterWait false cs = true) (hrun : runCalls cs t = some t') :
    (h.kWaitHook = false →
      ∃ s' : EngineState, kWait h s (a0 :: rest) = some (make_reg 0 (h.waitDelta % 65536), s') ∧
        s'._paletteSetIntensityCounter = 0 ∧
        s'.calls = s.calls ++ [Call.wait a0.toUint16, Call.kWaitHook]) ∧
    (h.kWaitHook = true →
      ∃ s' : EngineState, kWait h s (a0 :: rest) = some (NULL_REG, s') ∧
        s'._paletteSetIntensityCounter = s._paletteSetIntensityCounter ∧
        s'.calls = s.calls ++ [Call.wait a0.toUint16, Call.kWaitHook]) ∧
    t'.calls.filter Call.isSpeedThrottler = t.calls.filter Call.isSpeedThrottler := by
  refine ⟨?_, ?_, ?_⟩
  · intro hh
    refine ⟨_, (by rw [kWait_eq, hh]; rfl), ?_, ?_⟩
    · rfl
    · rfl
  · intro hh
    refine ⟨_, (by rw [kWait_eq, hh]; rfl), ?_, ?_⟩
    · rfl
    · rfl
  · exact runCalls_throttler cs false t t' hseq (fun hf => absurd hf (by decide)) hrun

/-- A throttled fade loop in a 256-colour game, which calls `kWait` before every
immediate `kPaletteSetIntensity`, runs to the end without a throttler call. -/
theorem throttledFade_runs :
    runCalls
      [⟨KernelCall.kWait, sampleHost 256 false, intArgs [1]⟩,
       ⟨KernelCall.kPaletteSetIntensity, sampleHost 256 false, intArgs [1, 255, 90]⟩,
       ⟨KernelCall.kPaletteAnimate, sampleHost 256 true, intArgs [32, 47, 1]⟩,
       ⟨KernelCall.kWait, sampleHost 256 false, intArgs [1]⟩,
       ⟨KernelCall.kPaletteSetIntensity, sampleHost 256 false, intArgs [1, 255, 80]⟩]
      (sampleState 4) =
    some { r_acc := make_reg 0 7, _paletteSetIntensityCounter := 1, _throttleTrigger := true,
           calls := [Call.wait 1, Call.kWaitHook, Call.kernelSetIntensity 1 255 90 true,
                     Call.kernelAnimate 32 47 1, Call.kernelAnimateSet,
                     Call.wait 1, Call.kWaitHook, Call.kernelSetIntensity 1 255 80 true] } := by
  decide

/-- C9 on a throttled fade loop that starts with the counter at 4: the log of the
run holds no `speedThrottler` call, and the `kWait` of the loop returns the delta
and resets the counter. -/
theorem kWait_resets_counter_witness :
    (∃ s' : EngineState,
      kWait (sampleHost 256 false) (sampleState 4) (intArgs [1]) = some (make_reg 0 6, s') ∧
      s'._paletteSetIntensityCounter = 0 ∧ s'.calls = [Call.wait 1, Call.kWaitHook]) ∧
    ([Call.wait 1, Call.kWaitHook, Call.kernelSetIntensity 1 255 90 true,
      Call.kernelAnimate 32 47 1, Call.kernelAnimateSet,
      Call.wait 1, Call.kWaitHook, Call.kernelSetIntensity 1 255 80 true].filter
        Call.isSpeedThrottler = []) :=
  ⟨(kWait_resets_counter (sampleHost 256 false) (sampleState 4) (make_reg 0 1) [] _ _ _
      (by decide) throttledFade_runs).1 rfl,
   (kWait_resets_counter (sampleHost 256 false) (sampleState 4) (make_reg 0 1) [] _ _ _
      (by decide) throttledFade_runs).2.2⟩

/-- Conversion to `int16` keeps a value of the signed 16-bit range. -/
theorem toInt16_of_range (v : Int) (h0 : -32768 ≤ v) (h1 : v ≤ 32767) : toInt16 v = v := by
  unfold toInt16
  omega

/-- A read inside the argument vector returns the argument at that place. -/
theorem argvAt_of_lt (argv : List reg_t) (i : Nat) (hi : i < argv.length) :
    argvAt argv (i : Int) = some (argv.getD i NULL_REG) := by
  rw [argvAt_natCast, List.getD_eq_getElem?_getD, List.getElem?_eq_getElem hi]
  rfl

/-- The loop of `kPaletteAnimate` from triple `i` on, with `n` triples left in a
vector within the `int16` range: it makes the `n` expected `kernelAnimate` calls
in order and reports whether the palette had changed before or any of them
returned true. -/
theorem kPaletteAnimateLoop_eq (h : Host) (argv : List reg_t) (hrange : argv.length ≤ 32767) :
    ∀ (n fuel i : Nat) (pc : Bool) (s : EngineState),
      3 * (i + n) = argv.length → n < fuel →
      kPaletteAnimateLoop h argv fuel ((3 * i : Nat) : Int) i pc s =
        some (pc || (List.range' i n).any h.kernelAnimate,
          { r_acc := s.r_acc,
            _paletteSetIntensityCounter := s._paletteSetIntensityCounter,
            _throttleTrigger := s._throttleTrigger,
            calls := s.calls ++ (List.range' i n).map (expectedAnimate argv) }) := by
  intro n
  induction n with
  | zero =>
    intro fuel i pc s hlen hfuel
    obtain ⟨fuel, rfl⟩ : ∃ f, fuel = f + 1 := ⟨fuel - 1, by omega⟩
    rw [kPaletteAnimateLoop, if_neg (by omega)]
    simp
  | succ n ih =>
    intro fuel i pc s hlen hfuel
    obtain ⟨fuel, rfl⟩ : ∃ f, fuel = f + 1 := ⟨fuel - 1, by omega⟩
    have e1 : ((3 * i : Nat) : Int) + 1 = ((3 * i + 1 : Nat) : Int) := by push_cast; ring
    have e2 : ((3 * i : Nat) : Int) + 2 = ((3 * i + 2 : Nat) : Int) := by push_cast; ring
    have e3 : toInt16 (((3 * i : Nat) : Int) + 3) = ((3 * (i + 1) : Nat) : Int) := by
      rw [toInt16_of_range _ (by omega) (by omega)]
      push_cast; ring
    rw [kPaletteAnimateLoop, if_pos (by omega), e1, e2, e3,
      argvAt_of_lt argv (3 * i) (by omega), argvAt_of_lt argv (3 * i + 1) (by omega),
      argvAt_of_lt argv (3 * i + 2) (by omega)]
    simp only [Option.bind_eq_bind, Option.some_bind]
    rw [ih fuel (i + 1) _ _ (by omega) (by omega)]
    simp only [List.range'_succ, List.any_cons, List.map_cons, EngineState.log,
      List.append_assoc, List.singleton_append, expectedAnimate]
    cases h.kernelAnimate i <;> cases pc <;> simp

/-- The workarounds at the end of `kPaletteAnimate` make no palette-engine call. -/
theorem animateWorkarounds_engine (h : Host) (argv : List reg_t) (pc : Bool) :
    (animateWorkarounds h argv pc).filter Call.isPaletteEngine = [] := by
  unfold animateWorkarounds
  rw [List.filter_append]
  split <;> split <;> simp [Call.isPaletteEngine]

/-- C10: in a 256-colour game with argc = 3k (k >= 1, argc within the range of
the int16 loop index), `kPaletteAnimate` returns r_acc after calling
`kernelAnimate` exactly k times, in argument order, with
(argv[3i], argv[3i+1], argv[3i+2]) for i = 0..k-1, each read lying inside the
vector, and without stopping after the first change; `kernelAnimateSet` is
called exactly once, after all of them, if and only if at least one of the k
calls returned true; only the host calls of the workarounds follow. When the
colour count is not 256, neither `kernelAnimate` nor `kernelAnimateSet` is
called. -/
theorem kPaletteAnimate_ranges (h : Host) (s : EngineState) (argv : List reg_t) (k : Nat)
    (hk : 1 ≤ k) (hargc : argv.length = 3 * k) (hrange : argv.length ≤ 32767)
    (h256 : h.totalColorCount = 256) :
    (∃ s' : EngineState, kPaletteAnimate h s argv = some (s.r_acc, s') ∧
      s'.calls = s.calls ++ (List.range k).map (expectedAnimate argv) ++
        (if (List.range k).any h.kernelAnimate = true then [Call.kernelAnimateSet] else []) ++
        animateWorkarounds h argv ((List.range k).any h.kernelAnimate) ∧
      s'.calls.filter Call.isPaletteEngine = s.calls.filter Call.isPaletteEngine ++
        (List.range k).map (expectedAnimate argv) ++
        (if (List.range k).any h.kernelAnimate = true then [Call.kernelAnimateSet] else [])) ∧
    ((List.range k).map (expectedAnimate argv)).length = k ∧
    (∀ i : Nat, i < k → 3 * i + 2 < argv.length ∧
      ∃ a b c : reg_t, argvAt argv (3 * i : Nat) = some a ∧
        argvAt argv (3 * i + 1 : Nat) = some b ∧ argvAt argv (3 * i + 2 : Nat) = some c ∧
        ((List.range k).map (expectedAnimate argv))[i]? =
          some (Call.kernelAnimate a.toUint16 b.toUint16 c.toSint16)) ∧
    ((List.range k).any h.kernelAnimate = true ↔ ∃ i : Nat, i < k ∧ h.kernelAnimate i = true) ∧
    (∀ (h2 : Host) (argv2 : List reg_t) (r : reg_t) (s2 : EngineState),
      h2.totalColorCount ≠ 256 → kPaletteAnimate h2 s argv2 = some (r, s2) →
      s2.calls = s.calls ++ animateWorkarounds h2 argv2 false ∧
      s2.calls.filter Call.isPaletteEngine = s.calls.filter Call.isPaletteEngine) ∧
    (∀ (h2 : Host) (a : reg_t) (rest : List reg_t), h2.totalColorCount ≠ 256 →
      ∃ s2 : EngineState, kPaletteAnimate h2 s (a :: rest) = some (s.r_acc, s2)) := by
  have hloop := kPaletteAnimateLoop_eq h argv hrange k 32768 0 false s (by omega) (by omega)
  rw [show (((3 * 0 : Nat) : Nat) : Int) = 0 by rfl, ← List.range_eq_range'] at hloop
  have hne : argv ≠ [] := by
    intro he
    rw [he] at hargc
    simp at hargc
    omega
  refine ⟨?_, by simp, ?_, ?_, ?_, ?_⟩
  · refine ⟨_, (by
      rw [kPaletteAnimate_eq, if_pos h256, hloop]
      simp only [Option.some_bind, hne, and_false, if_false, Bool.false_or]
      rfl), ?_, ?_⟩
    · rfl
    · simp only [List.filter_append, animateWorkarounds_engine, List.append_nil]
      congr 1
      · congr 1
        rw [List.filter_eq_self]
        intro c hc
        obtain ⟨i, _, rfl⟩ := List.mem_map.mp hc
        rfl
      · split <;> rfl
  · intro i hi
    refine ⟨by omega, _, _, _, argvAt_of_lt argv (3 * i) (by omega),
      argvAt_of_lt argv (3 * i + 1) (by omega), argvAt_of_lt argv (3 * i + 2) (by omega), ?_⟩
    rw [List.getElem?_map, List.getElem?_range hi]
    rfl
  · simp [List.any_eq_true]
  · intro h2 argv2 r s2 hc hrun
    rw [kPaletteAnimate_eq, if_neg hc] at hrun
    simp only [Option.some_bind] at hrun
    split at hrun
    · cases hrun
    · simp only [Option.some.injEq, Prod.mk.injEq] at hrun
      rw [← hrun.2]
      simp [List.filter_append, animateWorkarounds_engine]
  · intro h2 a rest hc
    rw [kPaletteAnimate_eq, if_neg hc]
    simp

/-- C10 for two ranges (k = 2) in a 256-colour game whose palette engine reports
a change: two `kernelAnimate` calls in argument order, then one
`kernelAnimateSet`. -/
theorem kPaletteAnimate_ranges_witness :
    ∃ s' : EngineState,
      kPaletteAnimate (sampleHost 256 true) (sampleState 0)
        (intArgs [208, 223, 1, 32, 47, 65535]) = some (make_reg 0 7, s') ∧
      s'.calls = [Call.kernelAnimate 208 223 1, Call.kernelAnimate 32 47 (-1),
                  Call.kernelAnimateSet] := by
  obtain ⟨⟨s', hrun, hcalls, _⟩, _⟩ :=
    kPaletteAnimate_ranges (sampleHost 256 true) (sampleState 0)
      (intArgs [208, 223, 1, 32, 47, 65535]) 2 (by decide) rfl (by decide) rfl
  exact ⟨s', hrun, hcalls.trans (by decide)⟩

/-! ## Properties of the drawing, cursor and port calls -/

/-- The low nibble of the 32-bit pattern of an integer is its residue modulo 16. -/
theorem toUint32_and_15 (c : Int) : ((toUint32 c &&& 0x0F : Nat) : Int) = c % 16 := by
  have h : toUint32 c &&& 0x0F = toUint32 c % 2 ^ 4 := Nat.and_pow_two_sub_one_eq_mod _ 4
  rw [h]
  unfold toUint32
  omega

/-- C11: when the view type is EGA, `adjustGraphColor(c)` is `c & 0x0F`, the low
nibble of the two's complement pattern of c, that is c modulo 16: it lies in
[0,15] even for negative c, the values 0..15 are returned unchanged, and the
function is idempotent; for every other view type `adjustGraphColor(c) = c`. -/
theorem adjustGraphColor_ega (g : Engine) (c : Int) :
    (g.viewType = ViewType.kViewEga →
      adjustGraphColor g c = (((c % 65536).toNat &&& 0x0F : Nat) : Int) ∧
      adjustGraphColor g c = c % 16 ∧
      0 ≤ adjustGraphColor g c ∧ adjustGraphColor g c ≤ 15 ∧
      (0 ≤ c ∧ c ≤ 15 → adjustGraphColor g c = c) ∧
      adjustGraphColor g (adjustGraphColor g c) = adjustGraphColor g c) ∧
    (g.viewType ≠ ViewType.kViewEga → adjustGraphColor g c = c) := by
  have key : ∀ d : Int, g.viewType = ViewType.kViewEga → adjustGraphColor g d = d % 16 := by
    intro d hv
    unfold adjustGraphColor
    rw [if_pos hv, toUint32_and_15, toInt16_of_range _ (by omega) (by omega)]
  refine ⟨fun hv => ⟨?_, key c hv, ?_, ?_, ?_, ?_⟩, fun hv => ?_⟩
  · rw [key c hv]
    have h : (c % 65536).toNat &&& 0x0F = (c % 65536).toNat % 2 ^ 4 :=
      Nat.and_pow_two_sub_one_eq_mod _ 4
    rw [h]
    omega
  · rw [key c hv]; omega
  · rw [key c hv]; omega
  · intro hc
    rw [key c hv]; omega
  · rw [key _ hv, key c hv]; omega
  · unfold adjustGraphColor
    rw [if_neg hv]

/-- C11 on an EGA game: colour -1 becomes 15, colour 0x1234 becomes 4 and
colour 9 stays 9. -/
theorem adjustGraphColor_ega_witness :
    adjustGraphColor egaEngine (-1) = 15 ∧
    adjustGraphColor egaEngine 0x1234 = 4 ∧
    adjustGraphColor egaEngine 9 = 9 ∧
    adjustGraphColor vgaEngine (-1) = -1 :=
  ⟨((adjustGraphColor_ega egaEngine (-1)).1 rfl).2.1,
   ((adjustGraphColor_ega egaEngine 0x1234).1 rfl).2.1,
   ((adjustGraphColor_ega egaEngine 9).1 rfl).2.2.2.2.1 (by decide),
   (adjustGraphColor_ega vgaEngine (-1)).2 (by decide)⟩

/-- The result of `kDrawCel` on five arguments and on up to two more. -/
theorem kDrawCel_short (s : EngineState) (a0 a1 a2 a3 a4 a5 a6 : reg_t) :
    kDrawCel s [a0, a1, a2, a3, a4] =
      some (s.r_acc, [GfxCall.kernelDrawCel a0.toSint16 a1.toSint16 a2.toSint16 a3.toUint16
        a4.toUint16 (-1) 0 128 128 false NULL_REG]) ∧
    kDrawCel s [a0, a1, a2, a3, a4, a5] =
      some (s.r_acc, [GfxCall.kernelDrawCel a0.toSint16 a1.toSint16 a2.toSint16 a3.toUint16
        a4.toUint16 a5.toSint16 0 128 128 false NULL_REG]) ∧
    kDrawCel s [a0, a1, a2, a3, a4, a5, a6] =
      some (s.r_acc, [GfxCall.kernelDrawCel a0.toSint16 a1.toSint16 a2.toSint16 a3.toUint16
        a4.toUint16 a5.toSint16 a6.toUint16 128 128 false NULL_REG]) := by
  refine ⟨?_, ?_, ?_⟩ <;> simp [kDrawCel, argvAt]

/-- The result of `kDrawCel` on eight or more arguments. -/
theorem kDrawCel_long (s : EngineState) (a0 a1 a2 a3 a4 a5 a6 a7 : reg_t)
    (more : List reg_t) :
    kDrawCel s (a0 :: a1 :: a2 :: a3 :: a4 :: a5 :: a6 :: a7 :: more) =
      some (s.r_acc,
        [if a6.toUint16 > 0 then
           GfxCall.kernelDrawCel a0.toSint16 a1.toSint16 a2.toSint16 a3.toUint16 a4.toUint16
             a5.toSint16 0 a6.toUint16 a7.toUint16 false NULL_REG
         else
           GfxCall.kernelDrawCel a0.toSint16 a1.toSint16 a2.toSint16 a3.toUint16 a4.toUint16
             a5.toSint16 0 128 128 true a7]) := by
  by_cases h6 : a6.toUint16 > 0
  · simp [kDrawCel, argvAt, h6]
  · have h0 : a6.toUint16 = 0 := by omega
    simp [kDrawCel, argvAt, h0]

/-- What every `kernelDrawCel` call forwarded by `kDrawCel` satisfies. -/
theorem kDrawCel_forwarded (s : EngineState) (argv : List reg_t) (r : reg_t)
    (v l c : Int) (x y : Nat) (p : Int) (pal sx sy : Nat) (hm : Bool) (hh : reg_t)
    (hrun : kDrawCel s argv = some (r, [GfxCall.kernelDrawCel v l c x y p pal sx sy hm hh])) :
    r = s.r_acc ∧ 5 ≤ argv.length ∧
    (hm = true → sx = 128 ∧ sy = 128 ∧ pal = 0 ∧ 7 < argv.length) ∧
    sx ≠ 0 ∧
    (argv.length ≤ 7 → hm = false ∧ hh = NULL_REG ∧ sx = 128 ∧ sy = 128) ∧
    (7 < argv.length → pal = 0) := by
  match argv with
  | [] => simp [kDrawCel, argvAt] at hrun
  | [_] => simp [kDrawCel, argvAt] at hrun
  | [_, _] => simp [kDrawCel, argvAt] at hrun
  | [_, _, _] => simp [kDrawCel, argvAt] at hrun
  | [_, _, _, _] => simp [kDrawCel, argvAt] at hrun
  | [a0, a1, a2, a3, a4] =>
    rw [(kDrawCel_short s a0 a1 a2 a3 a4 a0 a0).1] at hrun
    simp only [Option.some.injEq, Prod.mk.injEq, List.cons.injEq, GfxCall.kernelDrawCel.injEq,
      and_true] at hrun
    obtain ⟨rfl, -, -, -, -, -, -, rfl, rfl, rfl, rfl, rfl⟩ := hrun
    simp
  | [a0, a1, a2, a3, a4, a5] =>
    rw [(kDrawCel_short s a0 a1 a2 a3 a4 a5 a0).2.1] at hrun
    simp only [Option.some.injEq, Prod.mk.injEq, List.cons.injEq, GfxCall.kernelDrawCel.injEq,
      and_true] at hrun
    obtain ⟨rfl, -, -, -, -, -, -, rfl, rfl, rfl, rfl, rfl⟩ := hrun
    simp
  | [a0, a1, a2, a3, a4, a5, a6] =>
    rw [(kDrawCel_short s a0 a1 a2 a3 a4 a5 a6).2.2] at hrun
    simp only [Option.some.injEq, Prod.mk.injEq, List.cons.injEq, GfxCall.kernelDrawCel.injEq,
      and_true] at hrun
    obtain ⟨rfl, -, -, -, -, -, -, rfl, rfl, rfl, rfl, rfl⟩ := hrun
    simp
  | a0 :: a1 :: a2 :: a3 :: a4 :: a5 :: a6 :: a7 :: more =>
    rw [kDrawCel_long] at hrun
    by_cases h6 : a6.toUint16 > 0
    · rw [if_pos h6] at hrun
      simp only [Option.some.injEq, Prod.mk.injEq, List.cons.injEq,
        GfxCall.kernelDrawCel.injEq, and_true] at hrun
      obtain ⟨rfl, -, -, -, -, -, -, rfl, rfl, rfl, rfl, rfl⟩ := hrun
      simp
      omega
    · rw [if_neg h6] at hrun
      simp only [Option.some.injEq, Prod.mk.injEq, List.cons.injEq,
        GfxCall.kernelDrawCel.injEq, and_true] at hrun
      obtain ⟨rfl, -, -, -, -, -, -, rfl, rfl, rfl, rfl, rfl⟩ := hrun
      simp

/-- C12: `kDrawCel` forwards scaleX = scaleY = 128, hiresMode = false and a null
hires handle whenever argc <= 7 (with priority = argv[5] if argc > 5 else -1, and
paletteNo = argv[6] if argc > 6 else 0). When argc > 7 it forwards paletteNo = 0
and either scaling (scaleX = argv[6], scaleY = argv[7], hiresMode = false) when
argv[6] != 0, or hires (hiresMode = true, handle = argv[7], scaleX = scaleY = 128)
when argv[6] = 0. Hence hiresMode implies 100% scale, scaling and hires are never
both requested, and the forwarded scaleX is never 0. -/
theorem kDrawCel_scale_or_hires (s : EngineState) (a0 a1 a2 a3 a4 a5 a6 a7 : reg_t)
    (more : List reg_t) :
    kDrawCel s [a0, a1, a2, a3, a4] =
      some (s.r_acc, [GfxCall.kernelDrawCel a0.toSint16 a1.toSint16 a2.toSint16 a3.toUint16
        a4.toUint16 (-1) 0 128 128 false NULL_REG]) ∧
    kDrawCel s [a0, a1, a2, a3, a4, a5] =
      some (s.r_acc, [GfxCall.kernelDrawCel a0.toSint16 a1.toSint16 a2.toSint16 a3.toUint16
        a4.toUint16 a5.toSint16 0 128 128 false NULL_REG]) ∧
    kDrawCel s [a0, a1, a2, a3, a4, a5, a6] =
      some (s.r_acc, [GfxCall.kernelDrawCel a0.toSint16 a1.toSint16 a2.toSint16 a3.toUint16
        a4.toUint16 a5.toSint16 a6.toUint16 128 128 false NULL_REG]) ∧
    (a6.toUint16 ≠ 0 →
      kDrawCel s (a0 :: a1 :: a2 :: a3 :: a4 :: a5 :: a6 :: a7 :: more) =
        some (s.r_acc, [GfxCall.kernelDrawCel a0.toSint16 a1.toSint16 a2.toSint16 a3.toUint16
          a4.toUint16 a5.toSint16 0 a6.toUint16 a7.toUint16 false NULL_REG])) ∧
    (a6.toUint16 = 0 →
      kDrawCel s (a0 :: a1 :: a2 :: a3 :: a4 :: a5 :: a6 :: a7 :: more) =
        some (s.r_acc, [GfxCall.kernelDrawCel a0.toSint16 a1.toSint16 a2.toSint16 a3.toUint16
          a4.toUint16 a5.toSint16 0 128 128 true a7])) ∧
    (∀ (argv : List reg_t) (r : reg_t) (v l c : Int) (x y : Nat) (p : Int) (pal sx sy : Nat)
        (hm : Bool) (hh : reg_t),
      kDrawCel s argv = some (r, [GfxCall.kernelDrawCel v l c x y p pal sx sy hm hh]) →
      (hm = true → sx = 128 ∧ sy = 128) ∧
      ¬ (hm = true ∧ (sx ≠ 128 ∨ sy ≠ 128)) ∧
      sx ≠ 0 ∧
      (argv.length ≤ 7 → hm = false ∧ hh = NULL_REG ∧ sx = 128 ∧ sy = 128) ∧
      (7 < argv.length → pal = 0)) := by
  refine ⟨(kDrawCel_short s a0 a1 a2 a3 a4 a5 a6).1, (kDrawCel_short s a0 a1 a2 a3 a4 a5 a6).2.1,
    (kDrawCel_short s a0 a1 a2 a3 a4 a5 a6).2.2, ?_, ?_, ?_⟩
  · intro h6
    rw [kDrawCel_long, if_pos (by omega)]
  · intro h6
    rw [kDrawCel_long, if_neg (by omega)]
  · intro argv r v l c x y p pal sx sy hm hh hrun
    obtain ⟨-, -, h1, h2, h3, h4⟩ := kDrawCel_forwarded s argv r v l c x y p pal sx sy hm hh hrun
    refine ⟨fun h => ⟨(h1 h).1, (h1 h).2.1⟩, ?_, h2, h3, h4⟩
    rintro ⟨h, hne⟩
    obtain ⟨hx, hy, -⟩ := h1 h
    rcases hne with hne | hne
    · exact hne hx
    · exact hne hy

/-- C12 on eight arguments: a scaling call (argv[6] = 64, argv[7] = 200) and a
hires call (argv[6] = 0, handle in argv[7]). -/
theorem kDrawCel_scale_or_hires_witness :
    kDrawCel (sampleState 0) (intArgs [5, 0, 1, 100, 50, 15, 64, 200]) =
      some (make_reg 0 7, [GfxCall.kernelDrawCel 5 0 1 100 50 15 0 64 200 false NULL_REG]) ∧
    kDrawCel (sampleState 0) (intArgs [5, 0, 1, 100, 50, 15, 0, 200]) =
      some (make_reg 0 7, [GfxCall.kernelDrawCel 5 0 1 100 50 15 0 128 128 true
        (make_reg 0 200)]) :=
  ⟨(kDrawCel_scale_or_hires (sampleState 0) (make_reg 0 5) (make_reg 0 0) (make_reg 0 1)
      (make_reg 0 100) (make_reg 0 50) (make_reg 0 15) (make_reg 0 64) (make_reg 0 200)
      []).2.2.2.1 (by decide),
   (kDrawCel_scale_or_hires (sampleState 0) (make_reg 0 5) (make_reg 0 0) (make_reg 0 1)
      (make_reg 0 100) (make_reg 0 50) (make_reg 0 15) (make_reg 0 0) (make_reg 0 200)
      []).2.2.2.2.1 (by decide)⟩

/-- Masking with a single bit tests that bit. -/
theorem and_two_pow_ne_zero (x i : Nat) : decide (x &&& 2 ^ i ≠ 0) = x.testBit i := by
  cases hb : x.testBit i with
  | true =>
    have h : (x &&& 2 ^ i).testBit i = true := by
      rw [Nat.testBit_and, hb, Nat.testBit_two_pow_self]; rfl
    have hne : x &&& 2 ^ i ≠ 0 := by
      intro h0
      rw [h0, Nat.zero_testBit] at h
      exact absurd h (by decide)
    simp [hne]
  | false =>
    have h0 : x &&& 2 ^ i = 0 := by
      apply Nat.eq_of_testBit_eq
      intro j
      rw [Nat.testBit_and, Nat.zero_testBit, Nat.testBit_two_pow]
      by_cases hij : i = j
      · subst hij; simp [hb]
      · simp [hij]
    simp [h0]

/-- Masking with bit 15, in the form the simplifier reaches. -/
theorem and_32768_eq_zero (x : Nat) : decide (x &&& 32768 = 0) = !x.testBit 15 := by
  rw [← and_two_pow_ne_zero x 15]
  simp

/-- Masking with bit 14, in the form the simplifier reaches. -/
theorem and_16384_eq_zero (x : Nat) : decide (x &&& 16384 = 0) = !x.testBit 14 := by
  rw [← and_two_pow_ne_zero x 14]
  simp

/-- Reading an unsigned 16-bit value as `int16` gives the signed reading. -/
theorem toInt16_toUint16 (r : reg_t) : toInt16 (r.toUint16 : Int) = r.toSint16 := by
  unfold toInt16 reg_t.toUint16 reg_t.toSint16
  have h : r.offset % 65536 < 65536 := Nat.mod_lt _ (by norm_num)
  split <;> omega

/-- The picture call that `kDrawPic` forwards for a non-empty argument vector. -/
theorem kDrawPic_eq (g : Engine) (s : EngineState) (a0 : reg_t) (rest : List reg_t) :
    kDrawPic g s (a0 :: rest) =
      some (s.r_acc, [GfxCall.kernelDrawPicture a0.toUint16
        (if 2 ≤ (a0 :: rest).length then
          (((a0 :: rest).getD 1 NULL_REG).toUint16 % 256 : Nat) else -1)
        (decide (2 ≤ (a0 :: rest).length) && ((a0 :: rest).getD 1 NULL_REG).toUint16.testBit 15)
        (decide (2 ≤ (a0 :: rest).length) && decide (g.platform ≠ Platform.kPlatformMacintosh) &&
          ((a0 :: rest).getD 1 NULL_REG).toUint16.testBit 14)
        (decide (3 ≤ (a0 :: rest).length) &&
          (if g.usesOldGfxFunctions then !((a0 :: rest).getD 2 NULL_REG).isNull
           else ((a0 :: rest).getD 2 NULL_REG).isNull))
        (if 4 ≤ (a0 :: rest).length then ((a0 :: rest).getD 3 NULL_REG).toSint16 else 0)]) := by
  have hanim : ∀ r : reg_t, toInt16 ((r.toUint16 &&& 0xFF : Nat) : Int) =
      ((r.toUint16 % 256 : Nat) : Int) := by
    intro r
    have h : r.toUint16 &&& 0xFF = r.toUint16 % 2 ^ 8 := Nat.and_pow_two_sub_one_eq_mod _ 8
    rw [h, toInt16_of_range _ (by omega) (by omega)]
    rfl
  match rest with
  | [] => simp [kDrawPic, argvAt]
  | [a1] =>
    cases hp : decide (g.platform ≠ Platform.kPlatformMacintosh) <;>
      simp_all [kDrawPic, argvAt, K_DRAWPIC_FLAGS_ANIMATIONBLACKOUT, K_DRAWPIC_FLAGS_MIRRORED,
        and_32768_eq_zero, and_16384_eq_zero, hanim]
  | [a1, a2] =>
    cases hp : decide (g.platform ≠ Platform.kPlatformMacintosh) <;>
    cases ho : g.usesOldGfxFunctions <;>
      simp_all [kDrawPic, argvAt, K_DRAWPIC_FLAGS_ANIMATIONBLACKOUT, K_DRAWPIC_FLAGS_MIRRORED,
        and_32768_eq_zero, and_16384_eq_zero, hanim]
  | a1 :: a2 :: a3 :: more =>
    cases hp : decide (g.platform ≠ Platform.kPlatformMacintosh) <;>
    cases ho : g.usesOldGfxFunctions <;>
      simp_all [kDrawPic, argvAt, K_DRAWPIC_FLAGS_ANIMATIONBLACKOUT, K_DRAWPIC_FLAGS_MIRRORED,
        and_32768_eq_zero, and_16384_eq_zero, hanim, toInt16_toUint16]

/-- C13: `kDrawPic` forwards mirrored = true exactly when argc >= 2, bit 14 of
argv[1] is set and the platform is not Macintosh; blackout = true exactly when
argc >= 2 and bit 15 of argv[1] is set; animationNr = argv[1] & 0xFF when
argc >= 2 and -1 otherwise; and EGA palette number = argv[3] (as an int16) when
argc >= 4 and 0 otherwise. The three flag-derived values are independent of each
other: every combination of mirror bit, blackout bit and animation number below
256 is forwarded for some argv[1]. -/
theorem kDrawPic_flags (g : Engine) (s : EngineState) (a0 : reg_t) (rest : List reg_t) :
    (∃ addToFlag : Bool, kDrawPic g s (a0 :: rest) =
      some (s.r_acc, [GfxCall.kernelDrawPicture a0.toUint16
        (if 2 ≤ (a0 :: rest).length then
          (((a0 :: rest).getD 1 NULL_REG).toUint16 % 256 : Nat) else -1)
        (decide (2 ≤ (a0 :: rest).length) && ((a0 :: rest).getD 1 NULL_REG).toUint16.testBit 15)
        (decide (2 ≤ (a0 :: rest).length) && decide (g.platform ≠ Platform.kPlatformMacintosh) &&
          ((a0 :: rest).getD 1 NULL_REG).toUint16.testBit 14)
        addToFlag
        (if 4 ≤ (a0 :: rest).length then ((a0 :: rest).getD 3 NULL_REG).toSint16 else 0)])) ∧
    (∀ r : reg_t, r.toUint16 &&& 0xFF = r.toUint16 % 256) ∧
    (∀ r : reg_t, r.toUint16 < 32768 → r.toSint16 = r.toUint16) ∧
    (∀ (m b : Bool) (a : Nat), a < 256 → ∃ a1 : reg_t,
      kDrawPic g s [a0, a1] =
        some (s.r_acc, [GfxCall.kernelDrawPicture a0.toUint16 a b
          (decide (g.platform ≠ Platform.kPlatformMacintosh) && m) false 0])) := by
  refine ⟨⟨_, kDrawPic_eq g s a0 rest⟩, ?_, ?_, ?_⟩
  · intro r
    exact Nat.and_pow_two_sub_one_eq_mod _ 8
  · intro r hr
    unfold reg_t.toSint16 reg_t.toUint16 at *
    rw [if_pos hr]
  · intro m b a ha
    refine ⟨make_reg 0 (a + (if m then 16384 else 0) + (if b then 32768 else 0)), ?_⟩
    have hu : (make_reg 0 (a + (if m then 16384 else 0) + (if b then 32768 else 0))).toUint16 =
        a + (if m then 16384 else 0) + (if b then 32768 else 0) := by
      show (a + (if m then 16384 else 0) + (if b then 32768 else 0)) % 65536 = _
      cases m <;> cases b <;> simp <;> omega
    rw [kDrawPic_eq]
    simp only [List.length_cons, List.length_nil, List.getD_cons_succ, List.getD_cons_zero, hu]
    have h15 : (a + (if m then 16384 else 0) + (if b then 32768 else 0)).testBit 15 = b := by
      rw [Nat.testBit_to_div_mod]
      cases m <;> cases b <;> simp <;> omega
    have h14 : (a + (if m then 16384 else 0) + (if b then 32768 else 0)).testBit 14 = m := by
      rw [Nat.testBit_to_div_mod]
      cases m <;> cases b <;> simp <;> omega
    have hmod : (a + (if m then 16384 else 0) + (if b then 32768 else 0)) % 256 = a := by
      cases m <;> cases b <;> simp <;> omega
    rw [h15, h14, hmod]
    simp

/-- C13 on a PC and on a Macintosh: flags 0xC005 ask for a mirrored picture with
blackout and animation 5; the Macintosh interpreter does not mirror. -/
theorem kDrawPic_flags_witness :
    kDrawPic vgaEngine (sampleState 0) (intArgs [390, 0xC005, 1, 2]) =
      some (make_reg 0 7, [GfxCall.kernelDrawPicture 390 5 true true false 2]) ∧
    kDrawPic macEngine (sampleState 0) (intArgs [390, 0xC005, 1, 2]) =
      some (make_reg 0 7, [GfxCall.kernelDrawPicture 390 5 true false false 2]) ∧
    (make_reg 0 2).toSint16 = 2 :=
  ⟨by decide, by decide,
   (kDrawPic_flags vgaEngine (sampleState 0) (make_reg 0 390) []).2.2.1 (make_reg 0 2)
     (by decide)⟩

/-- C14: `kDrawPic` forwards addToActive = false whenever argc < 3, for every
game; when argc >= 3 it forwards (argv[2] is non-null) for games that use the old
graphics functions and the negation (argv[2] is null) for all other games. -/
theorem kDrawPic_addToActive (g : Engine) (s : EngineState) (a0 a1 a2 : reg_t)
    (rest : List reg_t) :
    (∃ (an : Int) (bl mi : Bool) (ega : Int),
      kDrawPic g s [a0] =
        some (s.r_acc, [GfxCall.kernelDrawPicture a0.toUint16 an bl mi false ega])) ∧
    (∃ (an : Int) (bl mi : Bool) (ega : Int),
      kDrawPic g s [a0, a1] =
        some (s.r_acc, [GfxCall.kernelDrawPicture a0.toUint16 an bl mi false ega])) ∧
    (∃ (an : Int) (bl mi : Bool) (ega : Int),
      kDrawPic g s (a0 :: a1 :: a2 :: rest) =
        some (s.r_acc, [GfxCall.kernelDrawPicture a0.toUint16 an bl mi
          (if g.usesOldGfxFunctions then !a2.isNull else a2.isNull) ega])) := by
  have h := kDrawPic_eq g s a0 (a1 :: a2 :: rest)
  have h3 : decide (3 ≤ (a0 :: a1 :: a2 :: rest).length) = true := by simp
  rw [h3, Bool.true_and] at h
  simp only [List.getD_cons_succ, List.getD_cons_zero] at h
  exact ⟨⟨_, _, _, _, kDrawPic_eq g s a0 []⟩, ⟨_, _, _, _, kDrawPic_eq g s a0 [a1]⟩,
    ⟨_, _, _, _, h⟩⟩

/-- A read inside the argument vector succeeds. -/
theorem argvGet_of_lt (argv : List reg_t) (i : Nat) (hi : i < argv.length) :
    argvGet argv (i : Int) = Except.ok (argv.getD i NULL_REG) := by
  unfold argvGet
  rw [argvAt_of_lt argv i hi]

/-- Outside its legal argument counts `kSetCursorSci11` ends in the fatal error. -/
theorem kSetCursorSci11_error (g : Engine) (s : EngineState) (argv : List reg_t)
    (h : argv.length ≠ 1 ∧ argv.length ≠ 2 ∧ argv.length ≠ 3 ∧ argv.length ≠ 4 ∧
      argv.length ≠ 5 ∧ argv.length ≠ 9 ∧ argv.length ≠ 10) :
    kSetCursorSci11 g s argv =
      Except.error (Fault.error "kSetCursor: Unhandled case: %d arguments given") := by
  obtain ⟨h1, h2, h3, h4, h5, h9, h10⟩ := h
  simp [kSetCursorSci11, h1, h2, h3, h4, h5, h9, h10, throw, throwThe, MonadExceptOf.throw,
    bind, Except.bind]

/-- The result of `kSetCursorSci11` on one argument. -/
theorem kSetCursorSci11_one (g : Engine) (s : EngineState) (a0 : reg_t) :
    kSetCursorSci11 g s [a0] =
      Except.ok (s.r_acc,
        if a0.toSint16 = 0 then [GfxCall.kernelHide]
        else if a0.toSint16 = -1 then [GfxCall.kernelClearZoomZone]
        else if a0.toSint16 = -2 then [GfxCall.kernelResetMoveZone]
        else [GfxCall.kernelShow]) := by
  show (if a0.toSint16 = 0 then Except.ok (s.r_acc, [GfxCall.kernelHide])
        else if a0.toSint16 = -1 then Except.ok (s.r_acc, [GfxCall.kernelClearZoomZone])
        else if a0.toSint16 = -2 then Except.ok (s.r_acc, [GfxCall.kernelResetMoveZone])
        else Except.ok (s.r_acc, [GfxCall.kernelShow])) = _
  split
  · rfl
  · split
    · rfl
    · split <;> rfl

/-- The result of `kSetCursorSci11` on two arguments. -/
theorem kSetCursorSci11_two (g : Engine) (s : EngineState) (a0 a1 : reg_t) :
    kSetCursorSci11 g s [a0, a1] =
      Except.ok (s.r_acc, [GfxCall.kernelSetPos a0.toSint16 a1.toSint16]) := rfl

/-- The result of `kSetCursorSci11` on four arguments: the move zone, with the
bottom and right edges incremented as `int16` values, or a warning. -/
theorem kSetCursorSci11_four (g : Engine) (s : EngineState) (a0 a1 a2 a3 : reg_t) :
    kSetCursorSci11 g s [a0, a1, a2, a3] =
      Except.ok (s.r_acc,
        if g.sciVersion.rank ≥ SciVersion.SCI_VERSION_2.rank then
          (if toInt16 (a2.toSint16 + 1) ≥ a0.toSint16 ∧ toInt16 (a3.toSint16 + 1) ≥ a1.toSint16
           then [GfxCall.kernelSetMoveZone (Rect.ofCorners a0.toSint16 a1.toSint16
                  (toInt16 (a2.toSint16 + 1)) (toInt16 (a3.toSint16 + 1)))]
           else [GfxCall.warning])
        else
          (if toInt16 (a3.toSint16 + 1) ≥ a1.toSint16 ∧ toInt16 (a2.toSint16 + 1) ≥ a0.toSint16
           then [GfxCall.kernelSetMoveZone (Rect.ofCorners a1.toSint16 a0.toSint16
                  (toInt16 (a3.toSint16 + 1)) (toInt16 (a2.toSint16 + 1)))]
           else [GfxCall.warning])) := by
  show (if g.sciVersion.rank ≥ SciVersion.SCI_VERSION_2.rank then
          (if toInt16 (a2.toSint16 + 1) ≥ a0.toSint16 ∧ toInt16 (a3.toSint16 + 1) ≥ a1.toSint16
           then Except.ok (s.r_acc, [GfxCall.kernelSetMoveZone (Rect.ofCorners a0.toSint16
                  a1.toSint16 (toInt16 (a2.toSint16 + 1)) (toInt16 (a3.toSint16 + 1)))])
           else Except.ok (s.r_acc, [GfxCall.warning]))
        else
          (if toInt16 (a3.toSint16 + 1) ≥ a1.toSint16 ∧ toInt16 (a2.toSint16 + 1) ≥ a0.toSint16
           then Except.ok (s.r_acc, [GfxCall.kernelSetMoveZone (Rect.ofCorners a1.toSint16
                  a0.toSint16 (toInt16 (a3.toSint16 + 1)) (toInt16 (a2.toSint16 + 1)))])
           else Except.ok (s.r_acc, [GfxCall.warning]))) = _
  split <;> split <;> rfl

/-- The result of `kSetCursorSci11` on three, five or nine arguments. -/
theorem kSetCursorSci11_view (g : Engine) (s : EngineState) (a0 a1 a2 a3 a4 a5 a6 a7 a8 : reg_t) :
    kSetCursorSci11 g s [a0, a1, a2] =
      Except.ok (s.r_acc,
        if g.platform = Platform.kPlatformMacintosh then
          [GfxCall.kernelSetMacCursor a0.toUint16 a1.toUint16 a2.toUint16]
        else [GfxCall.kernelSetView a0.toUint16 a1.toUint16 a2.toUint16 none]) ∧
    kSetCursorSci11 g s [a0, a1, a2, a3, a4] =
      Except.ok (s.r_acc,
        if g.platform = Platform.kPlatformMacintosh then
          [GfxCall.kernelSetMacCursor a0.toUint16 a1.toUint16 a2.toUint16]
        else [GfxCall.kernelSetView a0.toUint16 a1.toUint16 a2.toUint16
          (some (a3.toSint16, a4.toSint16))]) ∧
    kSetCursorSci11 g s [a0, a1, a2, a3, a4, a5, a6, a7, a8] =
      Except.ok (s.r_acc,
        if g.platform = Platform.kPlatformMacintosh then
          [GfxCall.kernelSetMacCursor a0.toUint16 a1.toUint16 a2.toUint16]
        else [GfxCall.kernelSetView a0.toUint16 a1.toUint16 a2.toUint16
          (some (a3.toSint16, a4.toSint16))]) := by
  refine ⟨?_, ?_, ?_⟩
  · show (if g.platform = Platform.kPlatformMacintosh then
        Except.ok (s.r_acc, [GfxCall.kernelSetMacCursor a0.toUint16 a1.toUint16 a2.toUint16])
      else Except.ok (s.r_acc,
        [GfxCall.kernelSetView a0.toUint16 a1.toUint16 a2.toUint16 none])) = _
    split <;> rfl
  · show (if g.platform = Platform.kPlatformMacintosh then
        Except.ok (s.r_acc, [GfxCall.kernelSetMacCursor a0.toUint16 a1.toUint16 a2.toUint16])
      else Except.ok (s.r_acc, [GfxCall.kernelSetView a0.toUint16 a1.toUint16 a2.toUint16
        (some (a3.toSint16, a4.toSint16))])) = _
    split <;> rfl
  · show (if g.platform = Platform.kPlatformMacintosh then
        Except.ok (s.r_acc, [GfxCall.kernelSetMacCursor a0.toUint16 a1.toUint16 a2.toUint16])
      else Except.ok (s.r_acc, [GfxCall.kernelSetView a0.toUint16 a1.toUint16 a2.toUint16
        (some (a3.toSint16, a4.toSint16))])) = _
    split <;> rfl

/-- The result of `kSetCursorSci11` on ten arguments. -/
theorem kSetCursorSci11_ten (g : Engine) (s : EngineState)
    (a0 a1 a2 a3 a4 a5 a6 a7 a8 a9 : reg_t) :
    kSetCursorSci11 g s [a0, a1, a2, a3, a4, a5, a6, a7, a8, a9] =
      Except.ok (s.r_acc,
        [GfxCall.kernelSetZoomZone a0.toUint16
          (Rect.ofCorners a1.toSint16 a2.toSint16 a3.toSint16 a4.toSint16)
          a5.toUint16 a6.toUint16 a7.toUint16 a8.toUint16 a9.toUint16]) := by
  rw [← toInt16_toUint16 a1, ← toInt16_toUint16 a2, ← toInt16_toUint16 a3,
    ← toInt16_toUint16 a4]
  rfl

/-- On each of its legal argument counts `kSetCursorSci11` returns r_acc. -/
theorem kSetCursorSci11_ok (g : Engine) (s : EngineState) (argv : List reg_t)
    (hlen : argv.length = 1 ∨ argv.length = 2 ∨ argv.length = 3 ∨ argv.length = 4 ∨
      argv.length = 5 ∨ argv.length = 9 ∨ argv.length = 10) :
    ∃ calls : List GfxCall, kSetCursorSci11 g s argv = Except.ok (s.r_acc, calls) := by
  rcases argv with _ | ⟨a0, _ | ⟨a1, _ | ⟨a2, _ | ⟨a3, _ | ⟨a4, _ | ⟨a5, _ | ⟨a6, _ | ⟨a7,
    _ | ⟨a8, _ | ⟨a9, _ | ⟨a10, rest⟩⟩⟩⟩⟩⟩⟩⟩⟩⟩⟩
  · simp at hlen
  · exact ⟨_, kSetCursorSci11_one g s a0⟩
  · exact ⟨_, kSetCursorSci11_two g s a0 a1⟩
  · exact ⟨_, (kSetCursorSci11_view g s a0 a1 a2 a0 a0 a0 a0 a0 a0).1⟩
  · exact ⟨_, kSetCursorSci11_four g s a0 a1 a2 a3⟩
  · exact ⟨_, (kSetCursorSci11_view g s a0 a1 a2 a3 a4 a0 a0 a0 a0).2.1⟩
  · simp at hlen
  · simp at hlen
  · simp at hlen
  · exact ⟨_, (kSetCursorSci11_view g s a0 a1 a2 a3 a4 a5 a6 a7 a8).2.2⟩
  · exact ⟨_, kSetCursorSci11_ten g s a0 a1 a2 a3 a4 a5 a6 a7 a8 a9⟩
  · simp only [List.length_cons] at hlen
    omega

/-- Outside its legal argument counts `kAddToPic` ends in the fatal error. -/
theorem kAddToPic_error (s : EngineState) (argv : List reg_t)
    (h : argv.length ≠ 1 ∧ argv.length ≠ 7) :
    kAddToPic s argv =
      Except.error (Fault.error "kAddToPic with unsupported parameter count %d") := by
  obtain ⟨h1, h7⟩ := h
  simp [kAddToPic, h1, h7, throw, throwThe, MonadExceptOf.throw, bind, Except.bind]

/-- The result of `kAddToPic` on one argument and on seven. -/
theorem kAddToPic_eq (s : EngineState) (a0 a1 a2 a3 a4 a5 a6 : reg_t) :
    kAddToPic s [a0] =
      Except.ok (s.r_acc,
        if a0.isNull = true then [] else [GfxCall.kernelAddToPicList a0 1 [a0]]) ∧
    kAddToPic s [a0, a1, a2, a3, a4, a5, a6] =
      Except.ok (s.r_acc, [GfxCall.kernelAddToPicView a0.toUint16 a1.toSint16 a2.toSint16
        a3.toSint16 a4.toSint16 a5.toSint16 a6.toSint16]) := by
  refine ⟨?_, rfl⟩
  show (if a0.isNull = true then Except.ok (s.r_acc, [])
    else Except.ok (s.r_acc, [GfxCall.kernelAddToPicList a0 1 [a0]])) = _
  split <;> rfl

/-- On each of its legal argument counts `kAddToPic` returns r_acc. -/
theorem kAddToPic_ok (s : EngineState) (argv : List reg_t)
    (hlen : argv.length = 1 ∨ argv.length = 7) :
    ∃ calls : List GfxCall, kAddToPic s argv = Except.ok (s.r_acc, calls) := by
  rcases argv with _ | ⟨a0, _ | ⟨a1, _ | ⟨a2, _ | ⟨a3, _ | ⟨a4, _ | ⟨a5, _ | ⟨a6, _ | ⟨a7,
    rest⟩⟩⟩⟩⟩⟩⟩⟩
  · simp at hlen
  · exact ⟨_, (kAddToPic_eq s a0 a0 a0 a0 a0 a0 a0).1⟩
  · simp at hlen
  · simp at hlen
  · simp at hlen
  · simp at hlen
  · simp at hlen
  · exact ⟨_, (kAddToPic_eq s a0 a1 a2 a3 a4 a5 a6).2⟩
  · simp only [List.length_cons] at hlen
    omega

/-- Outside its legal argument counts `kSetPort` ends in the fatal error. -/
theorem kSetPort_error (s : EngineState) (argv : List reg_t)
    (h : argv.length ≠ 1 ∧ argv.length ≠ 6 ∧ argv.length ≠ 7) :
    kSetPort s argv = Except.error (Fault.error "SetPort was called with %d parameters") := by
  obtain ⟨h1, h6, h7⟩ := h
  simp [kSetPort, h1, h6, h7, throw, throwThe, MonadExceptOf.throw, bind, Except.bind]

/-- The result of `kSetPort` on one, six and seven arguments. -/
theorem kSetPort_eq (s : EngineState) (a0 a1 a2 a3 a4 a5 a6 : reg_t) :
    kSetPort s [a0] =
      Except.ok (s.r_acc, [GfxCall.kernelSetActive (a0.toSint16 % 65536).toNat]) ∧
    kSetPort s [a0, a1, a2, a3, a4, a5] =
      Except.ok (s.r_acc, [GfxCall.kernelSetPicWindow
        ⟨a0.toSint16, a1.toSint16, a2.toSint16, a3.toSint16⟩ a4.toSint16 a5.toSint16 false]) ∧
    kSetPort s [a0, a1, a2, a3, a4, a5, a6] =
      Except.ok (s.r_acc, [GfxCall.kernelSetPicWindow
        ⟨a0.toSint16, a1.toSint16, a2.toSint16, a3.toSint16⟩ a4.toSint16 a5.toSint16 true]) :=
  ⟨rfl, rfl, rfl⟩

/-- On each of its legal argument counts `kSetPort` returns r_acc. -/
theorem kSetPort_ok (s : EngineState) (argv : List reg_t)
    (hlen : argv.length = 1 ∨ argv.length = 6 ∨ argv.length = 7) :
    ∃ calls : List GfxCall, kSetPort s argv = Except.ok (s.r_acc, calls) := by
  rcases argv with _ | ⟨a0, _ | ⟨a1, _ | ⟨a2, _ | ⟨a3, _ | ⟨a4, _ | ⟨a5, _ | ⟨a6, _ | ⟨a7,
    rest⟩⟩⟩⟩⟩⟩⟩⟩
  · simp at hlen
  · exact ⟨_, (kSetPort_eq s a0 a0 a0 a0 a0 a0 a0).1⟩
  · simp at hlen
  · simp at hlen
  · simp at hlen
  · simp at hlen
  · exact ⟨_, (kSetPort_eq s a0 a1 a2 a3 a4 a5 a0).2.1⟩
  · exact ⟨_, (kSetPort_eq s a0 a1 a2 a3 a4 a5 a6).2.2⟩
  · simp only [List.length_cons] at hlen
    omega

/-- C15: `kSetCursorSci11`, `kAddToPic` and `kSetPort` resolve their overloads by
exact argument count and raise the fatal error exactly when argc is outside the
legal set, {1,2,3,4,5,9,10} for `kSetCursorSci11`, {1,7} for `kAddToPic`,
{1,6,7} for `kSetPort`; for every argc inside the set no fatal error is raised
and r_acc is returned. -/
theorem arity_dispatch (g : Engine) (s : EngineState) (argv : List reg_t) :
    ((∃ t : String, kSetCursorSci11 g s argv = Except.error (Fault.error t)) ↔
      argv.length ∉ [1, 2, 3, 4, 5, 9, 10]) ∧
    (argv.length ∈ [1, 2, 3, 4, 5, 9, 10] →
      ∃ calls : List GfxCall, kSetCursorSci11 g s argv = Except.ok (s.r_acc, calls)) ∧
    ((∃ t : String, kAddToPic s argv = Except.error (Fault.error t)) ↔
      argv.length ∉ [1, 7]) ∧
    (argv.length ∈ [1, 7] →
      ∃ calls : List GfxCall, kAddToPic s argv = Except.ok (s.r_acc, calls)) ∧
    ((∃ t : String, kSetPort s argv = Except.error (Fault.error t)) ↔
      argv.length ∉ [1, 6, 7]) ∧
    (argv.length ∈ [1, 6, 7] →
      ∃ calls : List GfxCall, kSetPort s argv = Except.ok (s.r_acc, calls)) := by
  have hc : argv.length ∈ [1, 2, 3, 4, 5, 9, 10] ↔
      (argv.length = 1 ∨ argv.length = 2 ∨ argv.length = 3 ∨ argv.length = 4 ∨
        argv.length = 5 ∨ argv.length = 9 ∨ argv.length = 10) := by simp
  have ha : argv.length ∈ [1, 7] ↔ (argv.length = 1 ∨ argv.length = 7) := by simp
  have hp : argv.length ∈ [1, 6, 7] ↔ (argv.length = 1 ∨ argv.length = 6 ∨ argv.length = 7) := by
    simp
  refine ⟨⟨?_, ?_⟩, ?_, ⟨?_, ?_⟩, ?_, ⟨?_, ?_⟩, ?_⟩
  · rintro ⟨t, ht⟩ hin
    obtain ⟨calls, hok⟩ := kSetCursorSci11_ok g s argv (hc.mp hin)
    rw [hok] at ht
    cases ht
  · intro hout
    refine ⟨_, kSetCursorSci11_error g s argv ?_⟩
    rw [hc] at hout
    omega
  · intro hin
    exact kSetCursorSci11_ok g s argv (hc.mp hin)
  · rintro ⟨t, ht⟩ hin
    obtain ⟨calls, hok⟩ := kAddToPic_ok s argv (ha.mp hin)
    rw [hok] at ht
    cases ht
  · intro hout
    refine ⟨_, kAddToPic_error s argv ?_⟩
    rw [ha] at hout
    omega
  · intro hin
    exact kAddToPic_ok s argv (ha.mp hin)
  · rintro ⟨t, ht⟩ hin
    obtain ⟨calls, hok⟩ := kSetPort_ok s argv (hp.mp hin)
    rw [hok] at ht
    cases ht
  · intro hout
    refine ⟨_, kSetPort_error s argv ?_⟩
    rw [hp] at hout
    omega
  · intro hin
    exact kSetPort_ok s argv (hp.mp hin)

/-- C15 on six arguments: a legal count for `kSetPort` only. -/
theorem arity_dispatch_witness :
    (∃ calls : List GfxCall,
      kSetPort (sampleState 0) (intArgs [10, 0, 200, 320, 10, 0]) =
        Except.ok (make_reg 0 7, calls)) ∧
    (∃ t : String, kSetCursorSci11 vgaEngine (sampleState 0) (intArgs [10, 0, 200, 320, 10, 0]) =
      Except.error (Fault.error t)) ∧
    (∃ t : String, kAddToPic (sampleState 0) (intArgs [10, 0, 200, 320, 10, 0]) =
      Except.error (Fault.error t)) :=
  ⟨(arity_dispatch vgaEngine (sampleState 0) (intArgs [10, 0, 200, 320, 10, 0])).2.2.2.2.2
      (by decide),
   (arity_dispatch vgaEngine (sampleState 0) (intArgs [10, 0, 200, 320, 10, 0])).1.2
      (by decide),
   (arity_dispatch vgaEngine (sampleState 0) (intArgs [10, 0, 200, 320, 10, 0])).2.2.1.2
      (by decide)⟩

/-- C16, as stated, fails at an edge of 32767: for the zone (left 0, top 0,
right 32767, bottom 32767) both right+1 >= left and bottom+1 >= top hold, yet
`kSetCursorSci11` sets no move zone and only warns, on an SCI2 game and on an
earlier one, because `right++` and `bottom++` wrap the `int16` edges to -32768. -/
theorem kSetCursorSci11_moveZone_counterexample :
    (make_reg 0 0).toSint16 = 0 ∧ (make_reg 0 32767).toSint16 = 32767 ∧
    ((32767 : Int) + 1 ≥ 0 ∧ (32767 : Int) + 1 ≥ 0) ∧
    kSetCursorSci11 sci2Engine (sampleState 0) (intArgs [0, 0, 32767, 32767]) =
      Except.ok (make_reg 0 7, [GfxCall.warning]) ∧
    kSetCursorSci11 vgaEngine (sampleState 0) (intArgs [0, 0, 32767, 32767]) =
      Except.ok (make_reg 0 7, [GfxCall.warning]) ∧
    kSetCursorSci11 sci2Engine (sampleState 0) (intArgs [0, 0, 32767, 32767]) ≠
      Except.ok (make_reg 0 7, [GfxCall.kernelSetMoveZone (Rect.ofCorners 0 0 32768 32768)]) ∧
    toInt16 (32767 + 1) = -32768 := by
  have h2 : kSetCursorSci11 sci2Engine (sampleState 0) (intArgs [0, 0, 32767, 32767]) =
      Except.ok (make_reg 0 7, [GfxCall.warning]) := by
    show kSetCursorSci11 sci2Engine (sampleState 0)
      [make_reg 0 0, make_reg 0 0, make_reg 0 32767, make_reg 0 32767] = _
    rw [kSetCursorSci11_four]
    rfl
  have h1 : kSetCursorSci11 vgaEngine (sampleState 0) (intArgs [0, 0, 32767, 32767]) =
      Except.ok (make_reg 0 7, [GfxCall.warning]) := by
    show kSetCursorSci11 vgaEngine (sampleState 0)
      [make_reg 0 0, make_reg 0 0, make_reg 0 32767, make_reg 0 32767] = _
    rw [kSetCursorSci11_four]
    rfl
  refine ⟨by decide, by decide, by decide, h2, h1, ?_, by decide⟩
  rw [h2]
  intro h
  cases h

/-- C16, amended: `kSetCursorSci11` with argc = 4 never aborts: reading
(left, top, right, bottom) = argv[0..3] for SCI2 and later and
(top, left, bottom, right) = argv[0..3] for earlier versions, it increments
right and bottom as `int16` values (R = right+1 and B = bottom+1 for an edge
below 32767, while an edge of 32767 wraps to -32768) and sets the mouse move
zone to Rect(left, top, R, B) exactly when R >= left and B >= top, and otherwise
makes no cursor call at all (the inverted zone is ignored with a warning); in
both cases r_acc is returned unchanged. -/
theorem kSetCursorSci11_moveZone (g : Engine) (s : EngineState) (a0 a1 a2 a3 : reg_t)
    (left top right bottom : Int)
    (hargs : if g.sciVersion.rank ≥ SciVersion.SCI_VERSION_2.rank then
        left = a0.toSint16 ∧ top = a1.toSint16 ∧ right = a2.toSint16 ∧ bottom = a3.toSint16
      else
        top = a0.toSint16 ∧ left = a1.toSint16 ∧ bottom = a2.toSint16 ∧
          right = a3.toSint16) :
    (right < 32767 → toInt16 (right + 1) = right + 1) ∧
    (right = 32767 → toInt16 (right + 1) = -32768) ∧
    (bottom < 32767 → toInt16 (bottom + 1) = bottom + 1) ∧
    (bottom = 32767 → toInt16 (bottom + 1) = -32768) ∧
    (toInt16 (right + 1) ≥ left ∧ toInt16 (bottom + 1) ≥ top →
      kSetCursorSci11 g s [a0, a1, a2, a3] =
        Except.ok (s.r_acc, [GfxCall.kernelSetMoveZone
          (Rect.ofCorners left top (toInt16 (right + 1)) (toInt16 (bottom + 1)))]) ∧
      (Rect.ofCorners left top (toInt16 (right + 1)) (toInt16 (bottom + 1))).isValidRect =
        true) ∧
    (¬ (toInt16 (right + 1) ≥ left ∧ toInt16 (bottom + 1) ≥ top) →
      kSetCursorSci11 g s [a0, a1, a2, a3] = Except.ok (s.r_acc, [GfxCall.warning])) ∧
    ((∃ z : Rect, kSetCursorSci11 g s [a0, a1, a2, a3] =
        Except.ok (s.r_acc, [GfxCall.kernelSetMoveZone z])) ↔
      (toInt16 (right + 1) ≥ left ∧ toInt16 (bottom + 1) ≥ top)) ∧
    (right < 32767 → bottom < 32767 →
      (right + 1 ≥ left ∧ bottom + 1 ≥ top →
        kSetCursorSci11 g s [a0, a1, a2, a3] =
          Except.ok (s.r_acc, [GfxCall.kernelSetMoveZone
            (Rect.ofCorners left top (right + 1) (bottom + 1))])) ∧
      (¬ (right + 1 ≥ left ∧ bottom + 1 ≥ top) →
        kSetCursorSci11 g s [a0, a1, a2, a3] = Except.ok (s.r_acc, [GfxCall.warning]))) := by
  have hr := toSint16_range a0
  have hr1 := toSint16_range a1
  have hr2 := toSint16_range a2
  have hr3 := toSint16_range a3
  have hrange : -32768 ≤ right ∧ right ≤ 32767 ∧ -32768 ≤ bottom ∧ bottom ≤ 32767 := by
    split at hargs <;> obtain ⟨h1, h2, h3, h4⟩ := hargs <;> subst h1 h2 h3 h4 <;>
      exact ⟨by omega, by omega, by omega, by omega⟩
  have hset : toInt16 (right + 1) ≥ left ∧ toInt16 (bottom + 1) ≥ top →
      kSetCursorSci11 g s [a0, a1, a2, a3] =
        Except.ok (s.r_acc, [GfxCall.kernelSetMoveZone
          (Rect.ofCorners left top (toInt16 (right + 1)) (toInt16 (bottom + 1)))]) := by
    intro hz
    rw [kSetCursorSci11_four]
    split at hargs
    · rename_i hv
      obtain ⟨h1, h2, h3, h4⟩ := hargs
      subst h1 h2 h3 h4
      rw [if_pos hv, if_pos hz]
    · rename_i hv
      obtain ⟨h1, h2, h3, h4⟩ := hargs
      subst h1 h2 h3 h4
      rw [if_neg hv, if_pos hz]
  have hwarn : ¬ (toInt16 (right + 1) ≥ left ∧ toInt16 (bottom + 1) ≥ top) →
      kSetCursorSci11 g s [a0, a1, a2, a3] = Except.ok (s.r_acc, [GfxCall.warning]) := by
    intro hz
    rw [kSetCursorSci11_four]
    split at hargs
    · rename_i hv
      obtain ⟨h1, h2, h3, h4⟩ := hargs
      subst h1 h2 h3 h4
      rw [if_pos hv, if_neg hz]
    · rename_i hv
      obtain ⟨h1, h2, h3, h4⟩ := hargs
      subst h1 h2 h3 h4
      rw [if_neg hv, if_neg hz]
  have hR : right < 32767 → toInt16 (right + 1) = right + 1 := fun h =>
    toInt16_of_range _ (by omega) (by omega)
  have hB : bottom < 32767 → toInt16 (bottom + 1) = bottom + 1 := fun h =>
    toInt16_of_range _ (by omega) (by omega)
  refine ⟨hR, ?_, hB, ?_, ?_, hwarn, ?_, ?_⟩
  · intro h; subst h; decide
  · intro h; subst h; decide
  · intro hz
    refine ⟨hset hz, ?_⟩
    simp [Rect.isValidRect, Rect.ofCorners, hz.1, hz.2]
  · constructor
    · rintro ⟨z, hzone⟩
      by_contra hz
      rw [hwarn hz] at hzone
      cases hzone
    · intro hz
      exact ⟨_, hset hz⟩
  · intro hr32 hb32
    rw [← hR hr32, ← hB hb32]
    exact ⟨hset, hwarn⟩

/-- C16 on an SCI1.1 game and on an SCI2 game: the zone (top 10, left 20,
bottom 100, right 200) is set with its edges included, and an inverted zone is
ignored. -/
theorem kSetCursorSci11_moveZone_witness :
    kSetCursorSci11 vgaEngine (sampleState 0) (intArgs [10, 20, 100, 200]) =
      Except.ok (make_reg 0 7, [GfxCall.kernelSetMoveZone ⟨10, 20, 101, 201⟩]) ∧
    kSetCursorSci11 sci2Engine (sampleState 0) (intArgs [20, 10, 200, 100]) =
      Except.ok (make_reg 0 7, [GfxCall.kernelSetMoveZone ⟨10, 20, 101, 201⟩]) ∧
    kSetCursorSci11 vgaEngine (sampleState 0) (intArgs [100, 200, 10, 20]) =
      Except.ok (make_reg 0 7, [GfxCall.warning]) :=
  ⟨((kSetCursorSci11_moveZone vgaEngine (sampleState 0) (make_reg 0 10) (make_reg 0 20)
      (make_reg 0 100) (make_reg 0 200) 20 10 200 100 (by decide)).2.2.2.2.2.2.2
        (by decide) (by decide)).1 (by decide),
   ((kSetCursorSci11_moveZone sci2Engine (sampleState 0) (make_reg 0 20) (make_reg 0 10)
      (make_reg 0 200) (make_reg 0 100) 20 10 200 100 (by decide)).2.2.2.2.2.2.2
        (by decide) (by decide)).1 (by decide),
   ((kSetCursorSci11_moveZone vgaEngine (sampleState 0) (make_reg 0 100) (make_reg 0 200)
      (make_reg 0 10) (make_reg 0 20) 200 100 20 10 (by decide)).2.2.2.2.2.2.2
        (by decide) (by decide)).2 (by decide)⟩

/-- The result of `kPalVaryInit` on two, three and four or more arguments. -/
theorem kPalVaryInit_eq (initOk : Bool) (a0 a1 a2 a3 : reg_t) (rest : List reg_t) :
    kPalVaryInit initOk [a0, a1] =
      some (if initOk then SIGNAL_REG else NULL_REG,
        [GfxCall.kernelPalVaryInit a0.toUint16 a1.toUint16 64 1]) ∧
    kPalVaryInit initOk [a0, a1, a2] =
      some (if initOk then SIGNAL_REG else NULL_REG,
        [GfxCall.kernelPalVaryInit a0.toUint16 a1.toUint16 a2.toUint16 1]) ∧
    kPalVaryInit initOk (a0 :: a1 :: a2 :: a3 :: rest) =
      some (if initOk then SIGNAL_REG else NULL_REG,
        [GfxCall.kernelPalVaryInit a0.toUint16 a1.toUint16 a2.toUint16 a3.toUint16]) := by
  cases initOk <;> simp [kPalVaryInit, argvAt]

/-- C17: `kPalVaryInit` forwards (paletteId = argv[0], ticks = argv[1],
stepStop = argv[2] if argc >= 3 else 64, direction = argv[3] if argc >= 4 else 1)
to the palette engine, so a 2-argument call is equivalent to the 4-argument call
with stepStop 64 and direction 1; it returns SIGNAL_REG if and only if the
engine's init reports success and NULL_REG otherwise. -/
theorem kPalVaryInit_defaults (initOk : Bool) (a0 a1 a2 a3 : reg_t) (rest : List reg_t) :
    kPalVaryInit initOk [a0, a1] =
      some (if initOk then SIGNAL_REG else NULL_REG,
        [GfxCall.kernelPalVaryInit a0.toUint16 a1.toUint16 64 1]) ∧
    kPalVaryInit initOk [a0, a1, a2] =
      some (if initOk then SIGNAL_REG else NULL_REG,
        [GfxCall.kernelPalVaryInit a0.toUint16 a1.toUint16 a2.toUint16 1]) ∧
    kPalVaryInit initOk (a0 :: a1 :: a2 :: a3 :: rest) =
      some (if initOk then SIGNAL_REG else NULL_REG,
        [GfxCall.kernelPalVaryInit a0.toUint16 a1.toUint16 a2.toUint16 a3.toUint16]) ∧
    kPalVaryInit initOk [a0, a1] = kPalVaryInit initOk [a0, a1, make_reg 0 64, make_reg 0 1] ∧
    (∀ (argv : List reg_t) (r : reg_t) (calls : List GfxCall),
      kPalVaryInit initOk argv = some (r, calls) →
      (r = SIGNAL_REG ↔ initOk = true) ∧ (r = NULL_REG ↔ initOk = false)) ∧
    SIGNAL_REG ≠ NULL_REG := by
  refine ⟨(kPalVaryInit_eq initOk a0 a1 a2 a3 rest).1, (kPalVaryInit_eq initOk a0 a1 a2 a3 rest).2.1,
    (kPalVaryInit_eq initOk a0 a1 a2 a3 rest).2.2, ?_, ?_, by decide⟩
  · rw [(kPalVaryInit_eq initOk a0 a1 a2 a3 rest).1,
      (kPalVaryInit_eq initOk a0 a1 (make_reg 0 64) (make_reg 0 1) []).2.2]
    rfl
  · intro argv r calls hrun
    have hr : r = if initOk then SIGNAL_REG else NULL_REG := by
      match argv with
      | [] => simp [kPalVaryInit, argvAt] at hrun
      | [_] => simp [kPalVaryInit, argvAt] at hrun
      | [b0, b1] =>
        rw [(kPalVaryInit_eq initOk b0 b1 b0 b0 []).1] at hrun
        simp only [Option.some.injEq, Prod.mk.injEq] at hrun
        exact hrun.1.symm
      | [b0, b1, b2] =>
        rw [(kPalVaryInit_eq initOk b0 b1 b2 b0 []).2.1] at hrun
        simp only [Option.some.injEq, Prod.mk.injEq] at hrun
        exact hrun.1.symm
      | b0 :: b1 :: b2 :: b3 :: more =>
        rw [(kPalVaryInit_eq initOk b0 b1 b2 b3 more).2.2] at hrun
        simp only [Option.some.injEq, Prod.mk.injEq] at hrun
        exact hrun.1.symm
    subst hr
    cases initOk <;> simp <;> decide

/-- C17 on a two-argument call that the engine accepts and on one that it
refuses. -/
theorem kPalVaryInit_defaults_witness :
    kPalVaryInit true (intArgs [5, 1]) =
      some (SIGNAL_REG, [GfxCall.kernelPalVaryInit 5 1 64 1]) ∧
    kPalVaryInit false (intArgs [5, 1]) =
      some (NULL_REG, [GfxCall.kernelPalVaryInit 5 1 64 1]) ∧
    (SIGNAL_REG = SIGNAL_REG ↔ true = true) :=
  ⟨(kPalVaryInit_defaults true (make_reg 0 5) (make_reg 0 1) NULL_REG NULL_REG []).1,
   (kPalVaryInit_defaults false (make_reg 0 5) (make_reg 0 1) NULL_REG NULL_REG []).1,
   ((kPalVaryInit_defaults true (make_reg 0 5) (make_reg 0 1) NULL_REG NULL_REG []).2.2.2.2.1
      (intArgs [5, 1]) SIGNAL_REG [GfxCall.kernelPalVaryInit 5 1 64 1] (by decide)).1⟩

/-! ## Properties of list controls -/

/-- Every entry of a string table lies in the segment of the table. -/
theorem listEntry_segment (text : reg_t) (x : Int) (i : Nat) :
    (listEntry text x i).segment = text.segment := by
  induction i with
  | zero => rfl
  | succ i ih => exact ih

/-- The offset of the `i`-th entry is the offset of the table plus `i` strides,
as a 16-bit value. -/
theorem listEntry_getOffset (text : reg_t) (x : Int) (i : Nat) :
    ((listEntry text x i).getOffset : Int) = ((text.offset : Int) + i * x) % 65536 := by
  induction i with
  | zero =>
    show ((text.offset % 65536 : Nat) : Int) = _
    simp
  | succ i ih =>
    have h : ((listEntry text x (i + 1)).getOffset : Int) =
        (((listEntry text x i).getOffset : Int) + x) % 65536 := by
      show (((((((listEntry text x i).offset % 65536 : Nat) : Int) + x) % 65536).toNat % 65536 :
        Nat) : Int) = _
      have h0 : (0 : Int) ≤ ((((listEntry text x i).offset % 65536 : Nat) : Int) + x) % 65536 :=
        Int.emod_nonneg _ (by norm_num)
      have h1 : ((((listEntry text x i).offset % 65536 : Nat) : Int) + x) % 65536 < 65536 :=
        Int.emod_lt_of_pos _ (by norm_num)
      unfold reg_t.getOffset
      omega
    rw [h, ih]
    push_cast
    rw [Int.emod_add_emod]
    congr 1
    ring

/-- Entries at the same offset are followed by the same entries. -/
theorem listEntry_shift (text : reg_t) (x : Int) (i j : Nat)
    (h : (listEntry text x i).getOffset = (listEntry text x j).getOffset) :
    ∀ d : Nat, listEntry text x (i + (d + 1)) = listEntry text x (j + (d + 1)) := by
  intro d
  induction d with
  | zero =>
    show (listEntry text x i).incOffset x = (listEntry text x j).incOffset x
    unfold reg_t.incOffset
    unfold reg_t.getOffset at h
    rw [listEntry_segment, listEntry_segment, h]
  | succ d ih =>
    show (listEntry text x (i + (d + 1))).incOffset x = (listEntry text x (j + (d + 1))).incOffset x
    rw [ih]

/-- In a string table whose first empty string is entry `n`, the entries before
it lie at different offsets. -/
theorem listEntry_injective (strlen : reg_t → Nat) (text : reg_t) (x : Int) (n : Nat)
    (hne : ∀ i, i < n → 0 < strlen (listEntry text x i))
    (hz : strlen (listEntry text x n) = 0) (i j : Nat) (hij : i < j) (hj : j < n) :
    (listEntry text x i).getOffset ≠ (listEntry text x j).getOffset := by
  intro h
  have hs := listEntry_shift text x i j h (n - j - 1)
  have e1 : j + (n - j - 1 + 1) = n := by omega
  rw [e1] at hs
  have hpos := hne (i + (n - j - 1 + 1)) (by omega)
  rw [hs, hz] at hpos
  exact absurd hpos (by decide)

/-- The counting loop on a string table whose first empty string is entry `n`. -/
theorem countListEntries_eq (strlen : reg_t → Nat) (text : reg_t) (x : Int) (n : Nat)
    (hne : ∀ i, i < n → 0 < strlen (listEntry text x i))
    (hz : strlen (listEntry text x n) = 0) (hn : n ≤ 32767) :
    ∀ (k fuel j : Nat), j + k = n → k < fuel →
      countListEntries strlen x fuel (j : Int) (listEntry text x j) = some (n : Int) := by
  intro k
  induction k with
  | zero =>
    intro fuel j hj hfuel
    obtain ⟨fuel, rfl⟩ : ∃ f, fuel = f + 1 := ⟨fuel - 1, by omega⟩
    have hjn : j = n := by omega
    subst hjn
    rw [countListEntries, if_neg (by omega)]
  | succ k ih =>
    intro fuel j hj hfuel
    obtain ⟨fuel, rfl⟩ : ∃ f, fuel = f + 1 := ⟨fuel - 1, by omega⟩
    rw [countListEntries, if_pos (hne j (by omega)),
      toInt16_of_range _ (by omega) (by omega)]
    have := ih fuel (j + 1) (by omega) (by omega)
    rw [← this]
    rfl

/-- The position loop from entry `i` on, with `k` entries to go: it collects the
`k` entries, and each recorded position is the last matching index among them,
or the position held before when none matches. -/
theorem findListPositions_eq (text : reg_t) (x : Int) (up cur : Nat) :
    ∀ (k i : Nat) (strs : List reg_t) (u c : Int),
      (findListPositions x up cur k (i : Int) (listEntry text x i) strs u c).1 =
        strs ++ (List.range' i k).map (listEntry text x) ∧
      (∀ m : Nat, i ≤ m → m < i + k → (listEntry text x m).getOffset = up →
        (∀ m' : Nat, m < m' → m' < i + k → (listEntry text x m').getOffset ≠ up) →
        (findListPositions x up cur k (i : Int) (listEntry text x i) strs u c).2.1 = m) ∧
      ((∀ m : Nat, i ≤ m → m < i + k → (listEntry text x m).getOffset ≠ up) →
        (findListPositions x up cur k (i : Int) (listEntry text x i) strs u c).2.1 = u) ∧
      (∀ m : Nat, i ≤ m → m < i + k → (listEntry text x m).getOffset = cur →
        (∀ m' : Nat, m < m' → m' < i + k → (listEntry text x m').getOffset ≠ cur) →
        (findListPositions x up cur k (i : Int) (listEntry text x i) strs u c).2.2 = m) ∧
      ((∀ m : Nat, i ≤ m → m < i + k → (listEntry text x m).getOffset ≠ cur) →
        (findListPositions x up cur k (i : Int) (listEntry text x i) strs u c).2.2 = c) := by
  intro k
  induction k with
  | zero =>
    intro i strs u c
    refine ⟨by simp [findListPositions], ?_, fun _ => rfl, ?_, fun _ => rfl⟩
    · intro m h1 h2
      omega
    · intro m h1 h2
      omega
  | succ k ih =>
    intro i strs u c
    have hstep : findListPositions x up cur (k + 1) (i : Int) (listEntry text x i) strs u c =
        findListPositions x up cur k ((i + 1 : Nat) : Int) (listEntry text x (i + 1))
          (strs ++ [listEntry text x i])
          (if (listEntry text x i).getOffset = up then (i : Int) else u)
          (if (listEntry text x i).getOffset = cur then (i : Int) else c) := by
      rw [findListPositions]
      rfl
    rw [hstep]
    obtain ⟨hs, hu1, hu2, hc1, hc2⟩ := ih (i + 1) (strs ++ [listEntry text x i])
      (if (listEntry text x i).getOffset = up then (i : Int) else u)
      (if (listEntry text x i).getOffset = cur then (i : Int) else c)
    refine ⟨?_, ?_, ?_, ?_, ?_⟩
    · rw [hs, List.range'_succ]
      simp
    · intro m h1 h2 hm hlast
      by_cases hmi : m = i
      · subst hmi
        rw [hu2 (fun m' a b => hlast m' (by omega) (by omega)), if_pos hm]
      · exact hu1 m (by omega) (by omega) hm (fun m' a b => hlast m' a (by omega))
    · intro hnone
      rw [hu2 (fun m a b => hnone m (by omega) (by omega)),
        if_neg (hnone i (le_refl _) (by omega))]
    · intro m h1 h2 hm hlast
      by_cases hmi : m = i
      · subst hmi
        rw [hc2 (fun m' a b => hlast m' (by omega) (by omega)), if_pos hm]
      · exact hc1 m (by omega) (by omega) hm (fun m' a b => hlast m' a (by omega))
    · intro hnone
      rw [hc2 (fun m a b => hnone m (by omega) (by omega)),
        if_neg (hnone i (le_refl _) (by omega))]

/-- The list call forwarded for a string table whose first empty string is entry
`n`. -/
theorem genericDrawControl_list_eq (strlen : reg_t → Nat) (c : ListControl) (isAlias : Bool)
    (n : Nat) (hne : ∀ i, i < n → 0 < strlen (listEntry c.text c.x i))
    (hz : strlen (listEntry c.text c.x n) = 0) (hn : n ≤ 32767) :
    _k_GenericDrawControl strlen c isAlias =
      some ⟨kControlCreateRect c.nsLeft c.nsTop c.nsRight c.nsBottom, c.x, (n : Int),
        (findListPositions c.x c.topString c.cursor n 0 c.text [] 0 0).1,
        (findListPositions c.x c.topString c.cursor n 0 c.text [] 0 0).2.1,
        (findListPositions c.x c.topString c.cursor n 0 c.text [] 0 0).2.2, isAlias⟩ := by
  have hcount := countListEntries_eq strlen c.text c.x n hne hz hn n 65537 0 (by omega) (by omega)
  have h0 : countListEntries strlen c.x 65537 0 c.text = some (n : Int) := hcount
  simp only [_k_GenericDrawControl, h0, Option.bind_eq_bind, Option.some_bind]
  by_cases hn0 : n = 0
  · subst hn0
    simp [findListPositions]
  · have h1 : (n : Int) ≠ 0 := by omega
    have h2 : ¬ ((n : Int) < 0) := by omega
    simp [h1, h2]

/-- C20: for a list control whose string table, read at offsets text,
text+maxChars, text+2*maxChars, ... (as 16-bit offsets), has its first empty
string at entry n (n consecutive non-empty strings before it, n within the range
of the int16 counter), `_k_GenericDrawControl` forwards listCount = n and the n
entries, and upperPos (resp. cursorPos) equal to the index i < listCount of the
entry whose offset equals the control's top-string offset (resp. cursor offset),
or 0 when no entry offset matches or the list is empty; hence upperPos and
cursorPos are always < max(listCount, 1). This holds for every stride, in
particular for maxChars > 0. -/
theorem genericDrawControl_list (strlen : reg_t → Nat) (c : ListControl) (isAlias : Bool)
    (n : Nat) (hne : ∀ i, i < n → 0 < strlen (listEntry c.text c.x i))
    (hz : strlen (listEntry c.text c.x n) = 0) (hn : n ≤ 32767) :
    ∃ d : DrawList, _k_GenericDrawControl strlen c isAlias = some d ∧
      d.listCount = n ∧ d.maxChars = c.x ∧ d.isAlias = isAlias ∧
      d.listStrings = (List.range n).map (listEntry c.text c.x) ∧
      (∀ i : Nat, i < n → (listEntry c.text c.x i).getOffset = c.topString →
        d.upperPos = i) ∧
      ((∀ i : Nat, i < n → (listEntry c.text c.x i).getOffset ≠ c.topString) →
        d.upperPos = 0) ∧
      (∀ i : Nat, i < n → (listEntry c.text c.x i).getOffset = c.cursor →
        d.cursorPos = i) ∧
      ((∀ i : Nat, i < n → (listEntry c.text c.x i).getOffset ≠ c.cursor) →
        d.cursorPos = 0) ∧
      0 ≤ d.upperPos ∧ d.upperPos < max (n : Int) 1 ∧
      0 ≤ d.cursorPos ∧ d.cursorPos < max (n : Int) 1 ∧
      (∀ i : Nat, ((listEntry c.text c.x i).getOffset : Int) =
        ((c.text.offset : Int) + i * c.x) % 65536) := by
  have hpos := findListPositions_eq c.text c.x c.topString c.cursor n 0 [] 0 0
  rw [show ((0 : Nat) : Int) = 0 from rfl, show listEntry c.text c.x 0 = c.text from rfl] at hpos
  obtain ⟨hs, hu1, hu2, hc1, hc2⟩ := hpos
  have hinj := listEntry_injective strlen c.text c.x n hne hz
  have hU : ∀ i : Nat, i < n → (listEntry c.text c.x i).getOffset = c.topString →
      (findListPositions c.x c.topString c.cursor n 0 c.text [] 0 0).2.1 = i := by
    intro i hi hm
    refine hu1 i (Nat.zero_le _) (by omega) hm ?_
    intro m' h1 h2 hm'
    exact hinj i m' h1 (by omega) (hm.trans hm'.symm)
  have hC : ∀ i : Nat, i < n → (listEntry c.text c.x i).getOffset = c.cursor →
      (findListPositions c.x c.topString c.cursor n 0 c.text [] 0 0).2.2 = i := by
    intro i hi hm
    refine hc1 i (Nat.zero_le _) (by omega) hm ?_
    intro m' h1 h2 hm'
    exact hinj i m' h1 (by omega) (hm.trans hm'.symm)
  have hU0 : (∀ i : Nat, i < n → (listEntry c.text c.x i).getOffset ≠ c.topString) →
      (findListPositions c.x c.topString c.cursor n 0 c.text [] 0 0).2.1 = 0 :=
    fun h => hu2 (fun m _ hm => h m (by omega))
  have hC0 : (∀ i : Nat, i < n → (listEntry c.text c.x i).getOffset ≠ c.cursor) →
      (findListPositions c.x c.topString c.cursor n 0 c.text [] 0 0).2.2 = 0 :=
    fun h => hc2 (fun m _ hm => h m (by omega))
  have hUb : 0 ≤ (findListPositions c.x c.topString c.cursor n 0 c.text [] 0 0).2.1 ∧
      (findListPositions c.x c.topString c.cursor n 0 c.text [] 0 0).2.1 < max (n : Int) 1 := by
    by_cases hex : ∃ i : Nat, i < n ∧ (listEntry c.text c.x i).getOffset = c.topString
    · obtain ⟨i, hi, hm⟩ := hex
      rw [hU i hi hm]
      refine ⟨by omega, lt_of_lt_of_le ?_ (le_max_left _ _)⟩
      omega
    · rw [hU0 (fun i hi hm => hex ⟨i, hi, hm⟩)]
      exact ⟨le_refl _, lt_of_lt_of_le (by norm_num) (le_max_right _ _)⟩
  have hCb : 0 ≤ (findListPositions c.x c.topString c.cursor n 0 c.text [] 0 0).2.2 ∧
      (findListPositions c.x c.topString c.cursor n 0 c.text [] 0 0).2.2 < max (n : Int) 1 := by
    by_cases hex : ∃ i : Nat, i < n ∧ (listEntry c.text c.x i).getOffset = c.cursor
    · obtain ⟨i, hi, hm⟩ := hex
      rw [hC i hi hm]
      refine ⟨by omega, lt_of_lt_of_le ?_ (le_max_left _ _)⟩
      omega
    · rw [hC0 (fun i hi hm => hex ⟨i, hi, hm⟩)]
      exact ⟨le_refl _, lt_of_lt_of_le (by norm_num) (le_max_right _ _)⟩
  refine ⟨_, genericDrawControl_list_eq strlen c isAlias n hne hz hn, rfl, rfl, rfl, ?_, hU, hU0,
    hC, hC0, hUb.1, hUb.2, hCb.1, hCb.2, listEntry_getOffset c.text c.x⟩
  show (findListPositions c.x c.topString c.cursor n 0 c.text [] 0 0).1 = _
  rw [hs, List.nil_append, List.range_eq_range']

/-- C20 on a table of three entries of 20 characters at offset 100 whose top
string is the third entry and whose cursor is on the second. -/
theorem genericDrawControl_list_witness :
    ∃ d : DrawList,
      _k_GenericDrawControl (strlenAt [100, 120, 140])
        ⟨0, 0, 50, 50, make_reg 3 100, 20, 120, 140⟩ false = some d ∧
      d.listCount = 3 ∧ d.upperPos = 2 ∧ d.cursorPos = 1 := by
  obtain ⟨d, hd, hcnt, _, _, _, hu, _, hc, _⟩ :=
    genericDrawControl_list (strlenAt [100, 120, 140])
      ⟨0, 0, 50, 50, make_reg 3 100, 20, 120, 140⟩ false 3
      (by decide) (by decide) (by decide)
  exact ⟨d, hd, hcnt, hu 2 (by decide) (by decide), hc 1 (by decide) (by decide)⟩

/-! ## Properties of the loop selection -/

/-- C27: `kDirLoopWorker` writes the object's loop selector at most once and only
with a value in {0,1,2,3}: for SCI versions later than SCI0-early it selects 3
when angle > 315 or angle < 45, 2 when 135 < angle < 225, and otherwise 1 when
angle >= 180 and 0 when angle < 180 (the thresholds are 330/30 and 150/210 for
SCI0-early and older); it writes nothing when the object's signal has
kSignalDoesntTurn set, and nothing when loop 2 or 3 was selected but the view has
fewer than 4 loops. -/
theorem kDirLoopWorker_loop (g : Engine) (mask signal angle : Nat) (loopCount : Int) :
    (kDirLoopWorker g mask signal angle loopCount).length ≤ 1 ∧
    (∀ v ∈ kDirLoopWorker g mask signal angle loopCount, v = 0 ∨ v = 1 ∨ v = 2 ∨ v = 3) ∧
    (signal &&& mask ≠ 0 → kDirLoopWorker g mask signal angle loopCount = []) ∧
    (signal &&& mask = 0 → g.sciVersion.rank > SciVersion.SCI_VERSION_0_EARLY.rank →
      (angle > 315 ∨ angle < 45 →
        kDirLoopWorker g mask signal angle loopCount = if loopCount < 4 then [] else [3]) ∧
      (135 < angle ∧ angle < 225 →
        kDirLoopWorker g mask signal angle loopCount = if loopCount < 4 then [] else [2]) ∧
      (45 ≤ angle ∧ angle ≤ 135 → kDirLoopWorker g mask signal angle loopCount = [0]) ∧
      (225 ≤ angle ∧ angle ≤ 315 → kDirLoopWorker g mask signal angle loopCount = [1])) ∧
    (signal &&& mask = 0 → g.sciVersion.rank ≤ SciVersion.SCI_VERSION_0_EARLY.rank →
      (angle > 330 ∨ angle < 30 →
        kDirLoopWorker g mask signal angle loopCount = if loopCount < 4 then [] else [3]) ∧
      (150 < angle ∧ angle < 210 →
        kDirLoopWorker g mask signal angle loopCount = if loopCount < 4 then [] else [2]) ∧
      (30 ≤ angle ∧ angle ≤ 150 → kDirLoopWorker g mask signal angle loopCount = [0]) ∧
      (210 ≤ angle ∧ angle ≤ 330 → kDirLoopWorker g mask signal angle loopCount = [1])) := by
  refine ⟨?_, ?_, ?_, ?_, ?_⟩
  · unfold kDirLoopWorker
    split_ifs <;> simp
  · intro v hv
    unfold kDirLoopWorker at hv
    split_ifs at hv <;> simp at hv <;> omega
  · intro hs
    unfold kDirLoopWorker
    rw [if_pos hs]
  · intro hs hv
    have hs' : ¬ (signal &&& mask ≠ 0) := by simp [hs]
    refine ⟨?_, ?_, ?_, ?_⟩
    · intro ha
      unfold kDirLoopWorker
      simp only [hs', if_false, hv, if_true, ha]
      split_ifs <;> simp_all
    · intro ha
      have h1 : ¬ (angle > 315 ∨ angle < 45) := by omega
      unfold kDirLoopWorker
      simp only [hs', if_false, hv, if_true, h1]
      rw [if_pos (show angle > 135 ∧ angle < 225 from ha)]
      split_ifs <;> simp_all
    · intro ha
      have h1 : ¬ (angle > 315 ∨ angle < 45) := by omega
      have h2 : ¬ (angle > 135 ∧ angle < 225) := by omega
      have h3 : ¬ (angle ≥ 180) := by omega
      unfold kDirLoopWorker
      simp [hs, hv, h1, h2, h3]
    · intro ha
      have h1 : ¬ (angle > 315 ∨ angle < 45) := by omega
      have h2 : ¬ (angle > 135 ∧ angle < 225) := by omega
      have h3 : angle ≥ 180 := by omega
      unfold kDirLoopWorker
      simp [hs, hv, h1, h2, h3]
  · intro hs hv
    have hs' : ¬ (signal &&& mask ≠ 0) := by simp [hs]
    have hv' : ¬ (g.sciVersion.rank > SciVersion.SCI_VERSION_0_EARLY.rank) := by omega
    refine ⟨?_, ?_, ?_, ?_⟩
    · intro ha
      unfold kDirLoopWorker
      simp only [hs', if_false, hv', ha, if_true]
      split_ifs <;> simp_all
    · intro ha
      have h1 : ¬ (angle > 330 ∨ angle < 30) := by omega
      unfold kDirLoopWorker
      simp only [hs', if_false, hv', h1]
      rw [if_pos (show angle > 150 ∧ angle < 210 from ha)]
      split_ifs <;> simp_all
    · intro ha
      have h1 : ¬ (angle > 330 ∨ angle < 30) := by omega
      have h2 : ¬ (angle > 150 ∧ angle < 210) := by omega
      have h3 : ¬ (angle ≥ 180) := by omega
      unfold kDirLoopWorker
      simp [hs, hv', h1, h2, h3]
    · intro ha
      have h1 : ¬ (angle > 330 ∨ angle < 30) := by omega
      have h2 : ¬ (angle > 150 ∧ angle < 210) := by omega
      have h3 : angle ≥ 180 := by omega
      unfold kDirLoopWorker
      simp [hs, hv', h1, h2, h3]

/-- C27 on an SCI1.1 game and on an early SCI0 game: angle 320 selects loop 3 in
the first and loop 1 in the second; a view with two loops keeps its loop. -/
theorem kDirLoopWorker_loop_witness :
    kDirLoopWorker vgaEngine 0x800 0 320 4 = [3] ∧
    kDirLoopWorker sci0EarlyEngine 0x800 0 320 4 = [1] ∧
    kDirLoopWorker vgaEngine 0x800 0 320 2 = [] ∧
    kDirLoopWorker vgaEngine 0x800 0x800 320 4 = [] :=
  ⟨((kDirLoopWorker_loop vgaEngine 0x800 0 320 4).2.2.2.1 (by decide) (by decide)).1
      (Or.inl (by decide)),
   ((kDirLoopWorker_loop sci0EarlyEngine 0x800 0 320 4).2.2.2.2 (by decide) (by decide)).2.2.2
      ⟨by decide, by decide⟩,
   ((kDirLoopWorker_loop vgaEngine 0x800 0 320 2).2.2.2.1 (by decide) (by decide)).1
      (Or.inl (by decide)),
   (kDirLoopWorker_loop vgaEngine 0x800 0x800 320 4).2.2.1 (by decide)⟩

end Sci

namespace GUI

/-! ## Properties of the options dialog -/

/-- The configuration after the block for the mode switch. -/
theorem revertGraphicsMode_conf (e : TransactionError) (tr : String → String) (sys : OSystem)
    (gfxError : Nat) (st : ApplyState) (k : String) :
    (revertGraphicsMode e tr sys gfxError st).conf k =
      if k = "gfx_mode" ∧ gfxError &&& e.kTransactionModeSwitchFailed ≠ 0 then
        (match findMode sys.supportedGraphicsModes sys.graphicsMode with
          | some gm => some (ConfValue.str gm.name)
          | none => st.conf k)
      else st.conf k := by
  unfold revertGraphicsMode
  by_cases hb : gfxError &&& e.kTransactionModeSwitchFailed = 0 <;>
    by_cases hk : k = "gfx_mode" <;>
    cases findMode sys.supportedGraphicsModes sys.graphicsMode <;>
    simp [hb, hk, ConfigDomain.set]

/-- The configuration after the block for the stretch mode. -/
theorem revertStretchMode_conf (e : TransactionError) (tr : String → String) (sys : OSystem)
    (gfxError : Nat) (st : ApplyState) (k : String) :
    (revertStretchMode e tr sys gfxError st).conf k =
      if k = "stretch_mode" ∧ gfxError &&& e.kTransactionStretchModeSwitchFailed ≠ 0 then
        (match findMode sys.supportedStretchModes sys.stretchMode with
          | some sm => some (ConfValue.str sm.name)
          | none => st.conf k)
      else st.conf k := by
  unfold revertStretchMode
  by_cases hb : gfxError &&& e.kTransactionStretchModeSwitchFailed = 0 <;>
    by_cases hk : k = "stretch_mode" <;>
    cases findMode sys.supportedStretchModes sys.stretchMode <;>
    simp [hb, hk, ConfigDomain.set]

/-- The configuration after the block for the aspect ratio. -/
theorem revertAspectRatio_conf (e : TransactionError) (tr : String → String) (sys : OSystem)
    (gfxError : Nat) (st : ApplyState) (k : String) :
    (revertAspectRatio e tr sys gfxError st).conf k =
      if k = "aspect_ratio" ∧ gfxError &&& e.kTransactionAspectRatioFailed ≠ 0 then
        some (ConfValue.bool sys.aspectRatioCorrection)
      else st.conf k := by
  unfold revertAspectRatio
  by_cases hb : gfxError &&& e.kTransactionAspectRatioFailed = 0 <;>
    by_cases hk : k = "aspect_ratio" <;> simp [hb, hk, ConfigDomain.setBool]

/-- The configuration after the block for the fullscreen mode. -/
theorem revertFullscreen_conf (e : TransactionError) (tr : String → String) (sys : OSystem)
    (gfxError : Nat) (st : ApplyState) (k : String) :
    (revertFullscreen e tr sys gfxError st).conf k =
      if k = "fullscreen" ∧ gfxError &&& e.kTransactionFullscreenFailed ≠ 0 then
        some (ConfValue.bool sys.fullscreenMode)
      else st.conf k := by
  unfold revertFullscreen
  by_cases hb : gfxError &&& e.kTransactionFullscreenFailed = 0 <;>
    by_cases hk : k = "fullscreen" <;> simp [hb, hk, ConfigDomain.setBool]

/-- The configuration after the block for the filtering mode. -/
theorem revertFiltering_conf (e : TransactionError) (tr : String → String) (sys : OSystem)
    (gfxError : Nat) (st : ApplyState) (k : String) :
    (revertFiltering e tr sys gfxError st).conf k =
      if k = "filtering" ∧ gfxError &&& e.kTransactionFilteringFailed ≠ 0 then
        some (ConfValue.bool sys.filteringMode)
      else st.conf k := by
  unfold revertFiltering
  by_cases hb : gfxError &&& e.kTransactionFilteringFailed = 0 <;>
    by_cases hk : k = "filtering" <;> simp [hb, hk, ConfigDomain.setBool]

/-- The configuration after the block for the shader. -/
theorem revertShader_conf (e : TransactionError) (tr : String → String)
    (gfxError : Nat) (previousShader : String) (st : ApplyState) (k : String) :
    (revertShader e tr gfxError previousShader st).conf k =
      if k = "shader" ∧ gfxError &&& e.kTransactionShaderChangeFailed ≠ 0 then
        some (ConfValue.str (revertedShader tr previousShader))
      else st.conf k := by
  unfold revertShader
  by_cases hb : gfxError &&& e.kTransactionShaderChangeFailed = 0 <;>
    by_cases hk : k = "shader" <;> simp [hb, hk, ConfigDomain.set]

/-- The message after each block: one more line if the bit of the block is set. -/
theorem revert_message (e : TransactionError) (tr : String → String) (sys : OSystem)
    (gfxError : Nat) (previousShader : String) (st : ApplyState) :
    (revertGraphicsMode e tr sys gfxError st).message = st.message ++
      failureLine gfxError e.kTransactionModeSwitchFailed
        (tr "the video mode could not be changed") ∧
    (revertStretchMode e tr sys gfxError st).message = st.message ++
      failureLine gfxError e.kTransactionStretchModeSwitchFailed
        (tr "the stretch mode could not be changed") ∧
    (revertAspectRatio e tr sys gfxError st).message = st.message ++
      failureLine gfxError e.kTransactionAspectRatioFailed
        (tr "the aspect ratio setting could not be changed") ∧
    (revertFullscreen e tr sys gfxError st).message = st.message ++
      failureLine gfxError e.kTransactionFullscreenFailed
        (tr "the fullscreen setting could not be changed") ∧
    (revertFiltering e tr sys gfxError st).message = st.message ++
      failureLine gfxError e.kTransactionFilteringFailed
        (tr "the filtering setting could not be changed") ∧
    (revertShader e tr gfxError previousShader st).message = st.message ++
      failureLine gfxError e.kTransactionShaderChangeFailed
        (tr "the shader could not be changed") := by
  refine ⟨?_, ?_, ?_, ?_, ?_, ?_⟩
  · unfold revertGraphicsMode failureLine
    split <;> simp [String.append_assoc]
  · unfold revertStretchMode failureLine
    split <;> simp [String.append_assoc]
  · unfold revertAspectRatio failureLine
    split <;> simp [String.append_assoc]
  · unfold revertFullscreen failureLine
    split <;> simp [String.append_assoc]
  · unfold revertFiltering failureLine
    split <;> simp [String.append_assoc]
  · unfold revertShader failureLine
    split <;> simp [String.append_assoc]

/-- The configuration after the whole error branch, key by key. -/
theorem applyGfxError_conf (e : TransactionError) (tr : String → String) (sys : OSystem)
    (gfxError : Nat) (previousShader : String) (conf : ConfigDomain) (widgets : ShaderWidgets)
    (k : String) :
    (OptionsDialog.applyGfxError e tr sys gfxError previousShader conf widgets).conf k =
      if k = "shader" ∧ gfxError &&& e.kTransactionShaderChangeFailed ≠ 0 then
        some (ConfValue.str (revertedShader tr previousShader))
      else if k = "filtering" ∧ gfxError &&& e.kTransactionFilteringFailed ≠ 0 then
        some (ConfValue.bool sys.filteringMode)
      else if k = "fullscreen" ∧ gfxError &&& e.kTransactionFullscreenFailed ≠ 0 then
        some (ConfValue.bool sys.fullscreenMode)
      else if k = "aspect_ratio" ∧ gfxError &&& e.kTransactionAspectRatioFailed ≠ 0 then
        some (ConfValue.bool sys.aspectRatioCorrection)
      else if k = "stretch_mode" ∧ gfxError &&& e.kTransactionStretchModeSwitchFailed ≠ 0 then
        (match findMode sys.supportedStretchModes sys.stretchMode with
          | some sm => some (ConfValue.str sm.name)
          | none =>
            if k = "gfx_mode" ∧ gfxError &&& e.kTransactionModeSwitchFailed ≠ 0 then
              (match findMode sys.supportedGraphicsModes sys.graphicsMode with
                | some gm => some (ConfValue.str gm.name)
                | none => conf k)
            else conf k)
      else if k = "gfx_mode" ∧ gfxError &&& e.kTransactionModeSwitchFailed ≠ 0 then
        (match findMode sys.supportedGraphicsModes sys.graphicsMode with
          | some gm => some (ConfValue.str gm.name)
          | none => conf k)
      else conf k := by
  simp only [OptionsDialog.applyGfxError, revertShader_conf, revertFiltering_conf,
    revertFullscreen_conf, revertAspectRatio_conf, revertStretchMode_conf,
    revertGraphicsMode_conf]

/-- The search loop over a table of modes stops at the first entry that carries
the id. -/
theorem findMode_first (pre post : List GraphicsMode) (gm : GraphicsMode) (id : Int)
    (hid : gm.id = id) (hpre : ∀ x ∈ pre, x.id ≠ id) :
    findMode (pre ++ gm :: post) id = some gm := by
  unfold findMode
  induction pre with
  | nil => simp [hid]
  | cons x xs ih =>
    have hx : x.id ≠ id := hpre x (List.mem_cons_self _ _)
    simp only [List.cons_append, List.find?_cons, hx, decide_False]
    exact ih (fun y hy => hpre y (List.mem_cons_of_mem _ hy))

/-- The search loop over a table of modes finds nothing when no entry carries
the id. -/
theorem findMode_unlisted (modes : List GraphicsMode) (id : Int)
    (h : ∀ x ∈ modes, x.id ≠ id) : findMode modes id = none := by
  unfold findMode
  rw [List.find?_eq_none]
  intro x hx
  simpa using h x hx

/-- A table of modes either lists no entry with the id, or splits at the first
entry that carries it. -/
theorem modes_unlisted_or_first (modes : List GraphicsMode) (id : Int) :
    (∀ x ∈ modes, x.id ≠ id) ∨
    ∃ (pre post : List GraphicsMode) (gm : GraphicsMode),
      modes = pre ++ gm :: post ∧ gm.id = id ∧ ∀ x ∈ pre, x.id ≠ id := by
  induction modes with
  | nil => exact Or.inl (fun x hx => by cases hx)
  | cons m ms ih =>
    by_cases hm : m.id = id
    · exact Or.inr ⟨[], ms, m, rfl, hm, fun x hx => by cases hx⟩
    · rcases ih with hno | ⟨pre, post, gm, hsplit, hid, hpre⟩
      · left
        intro x hx
        rcases List.mem_cons.1 hx with rfl | hx2
        · exact hm
        · exact hno x hx2
      · right
        refine ⟨m :: pre, post, gm, by rw [hsplit]; rfl, hid, ?_⟩
        intro x hx
        rcases List.mem_cons.1 hx with rfl | hx2
        · exact hm
        · exact hpre x hx2

/-- C18, as stated, fails for a backend whose table of stretch modes does
not list its current stretch mode (here a backend without stretch modes): the
stretch mode bit is set and its line is in the message, yet `stretch_mode` is
not reverted and keeps its newly applied value. And the value stored under
`shader` is not asked from the backend: the same backend gives two different
values for two different shaders configured before the change. -/
theorem applyGfxError_reverts_counterexample :
    64 &&& sampleTransactionError.kTransactionStretchModeSwitchFailed ≠ 0 ∧
    noStretchOSystem.supportedStretchModes = [] ∧
    sampleConf "stretch_mode" = some (ConfValue.str "center") ∧
    (OptionsDialog.applyGfxError sampleTransactionError id noStretchOSystem 64 "old.glslp"
      sampleConf ⟨"crt.glslp", true⟩).conf "stretch_mode" = some (ConfValue.str "center") ∧
    (OptionsDialog.applyGfxError sampleTransactionError id noStretchOSystem 64 "old.glslp"
      sampleConf ⟨"crt.glslp", true⟩).message =
      "Failed to apply some of the graphic options changes:\nthe stretch mode could not be changed" ∧
    (OptionsDialog.applyGfxError sampleTransactionError id sampleOSystem 128 "old.glslp"
      sampleConf ⟨"crt.glslp", true⟩).conf "shader" = some (ConfValue.str "old.glslp") ∧
    (OptionsDialog.applyGfxError sampleTransactionError id sampleOSystem 128 "other.glslp"
      sampleConf ⟨"crt.glslp", true⟩).conf "shader" = some (ConfValue.str "other.glslp") := by
  refine ⟨by decide, rfl, by decide, by decide, by decide, by decide, by decide⟩

/-- C18, amended: when the graphics transaction of `OptionsDialog::apply` ends
with an error mask, then for each of the six failure bits (mode switch, stretch
mode, aspect ratio, fullscreen, filtering, shader) the corresponding config key
(gfx_mode, stretch_mode, aspect_ratio, fullscreen, filtering, shader) is
reverted if and only if that bit is set and there is a value to revert to:
gfx_mode and stretch_mode go to the name of the first entry of the backend's
table of supported modes that carries the id of the mode the backend is using,
and keep their newly applied value when the table lists no such entry;
aspect_ratio, fullscreen and filtering go to the feature state of the backend;
shader goes to the shader that was configured before the change ("None" being
stored as "default"). Every key whose bit is clear, and every other key, keeps
its newly applied value, and the error message is the heading followed by
exactly one line for each set bit, in that order, and no line for any clear
bit. The two cases of a table cover every table. -/
theorem applyGfxError_reverts (e : TransactionError) (tr : String → String) (sys : OSystem)
    (gfxError : Nat) (previousShader : String) (conf : ConfigDomain)
    (widgets : ShaderWidgets) :
    (∀ (pre post : List GraphicsMode) (gm : GraphicsMode),
      sys.supportedGraphicsModes = pre ++ gm :: post → gm.id = sys.graphicsMode →
      (∀ x ∈ pre, x.id ≠ sys.graphicsMode) →
      (OptionsDialog.applyGfxError e tr sys gfxError previousShader conf widgets).conf
          "gfx_mode" =
        (if gfxError &&& e.kTransactionModeSwitchFailed ≠ 0 then some (ConfValue.str gm.name)
         else conf "gfx_mode")) ∧
    ((∀ x ∈ sys.supportedGraphicsModes, x.id ≠ sys.graphicsMode) →
      (OptionsDialog.applyGfxError e tr sys gfxError previousShader conf widgets).conf
          "gfx_mode" = conf "gfx_mode") ∧
    (∀ (pre post : List GraphicsMode) (sm : GraphicsMode),
      sys.supportedStretchModes = pre ++ sm :: post → sm.id = sys.stretchMode →
      (∀ x ∈ pre, x.id ≠ sys.stretchMode) →
      (OptionsDialog.applyGfxError e tr sys gfxError previousShader conf widgets).conf
          "stretch_mode" =
        (if gfxError &&& e.kTransactionStretchModeSwitchFailed ≠ 0 then
          some (ConfValue.str sm.name)
         else conf "stretch_mode")) ∧
    ((∀ x ∈ sys.supportedStretchModes, x.id ≠ sys.stretchMode) →
      (OptionsDialog.applyGfxError e tr sys gfxError previousShader conf widgets).conf
          "stretch_mode" = conf "stretch_mode") ∧
    (OptionsDialog.applyGfxError e tr sys gfxError previousShader conf widgets).conf
        "aspect_ratio" =
      (if gfxError &&& e.kTransactionAspectRatioFailed ≠ 0 then
        some (ConfValue.bool sys.aspectRatioCorrection)
       else conf "aspect_ratio") ∧
    (OptionsDialog.applyGfxError e tr sys gfxError previousShader conf widgets).conf
        "fullscreen" =
      (if gfxError &&& e.kTransactionFullscreenFailed ≠ 0 then
        some (ConfValue.bool sys.fullscreenMode)
       else conf "fullscreen") ∧
    (OptionsDialog.applyGfxError e tr sys gfxError previousShader conf widgets).conf
        "filtering" =
      (if gfxError &&& e.kTransactionFilteringFailed ≠ 0 then
        some (ConfValue.bool sys.filteringMode)
       else conf "filtering") ∧
    (OptionsDialog.applyGfxError e tr sys gfxError previousShader conf widgets).conf "shader" =
      (if gfxError &&& e.kTransactionShaderChangeFailed ≠ 0 then
        some (ConfValue.str (if previousShader = tr "None" then "default" else previousShader))
       else conf "shader") ∧
    (∀ k : String, k ∉ ["gfx_mode", "stretch_mode", "aspect_ratio", "fullscreen", "filtering",
        "shader"] →
      (OptionsDialog.applyGfxError e tr sys gfxError previousShader conf widgets).conf k =
        conf k) ∧
    (OptionsDialog.applyGfxError e tr sys gfxError previousShader conf widgets).message =
      tr "Failed to apply some of the graphic options changes:" ++
      failureLine gfxError e.kTransactionModeSwitchFailed
        (tr "the video mode could not be changed") ++
      failureLine gfxError e.kTransactionStretchModeSwitchFailed
        (tr "the stretch mode could not be changed") ++
      failureLine gfxError e.kTransactionAspectRatioFailed
        (tr "the aspect ratio setting could not be changed") ++
      failureLine gfxError e.kTransactionFullscreenFailed
        (tr "the fullscreen setting could not be changed") ++
      failureLine gfxError e.kTransactionFilteringFailed
        (tr "the filtering setting could not be changed") ++
      failureLine gfxError e.kTransactionShaderChangeFailed
        (tr "the shader could not be changed") ∧
    (∀ (bit : Nat) (line : String),
      (gfxError &&& bit ≠ 0 → failureLine gfxError bit line = "\n" ++ line) ∧
      (gfxError &&& bit = 0 → failureLine gfxError bit line = "")) ∧
    (∀ (modes : List GraphicsMode) (id : Int),
      (∀ x ∈ modes, x.id ≠ id) ∨
      ∃ (pre post : List GraphicsMode) (gm : GraphicsMode),
        modes = pre ++ gm :: post ∧ gm.id = id ∧ ∀ x ∈ pre, x.id ≠ id) := by
  refine ⟨?_, ?_, ?_, ?_, ?_, ?_, ?_, ?_, ?_, ?_, ?_, modes_unlisted_or_first⟩
  · intro pre post gm htab hid hpre
    rw [applyGfxError_conf, htab, findMode_first pre post gm _ hid hpre]
    simp
  · intro hno
    rw [applyGfxError_conf, findMode_unlisted _ _ hno]
    simp
  · intro pre post sm htab hid hpre
    rw [applyGfxError_conf, htab, findMode_first pre post sm _ hid hpre]
    simp
  · intro hno
    rw [applyGfxError_conf, findMode_unlisted _ _ hno]
    simp
  · rw [applyGfxError_conf]
    simp
  · rw [applyGfxError_conf]
    simp
  · rw [applyGfxError_conf]
    simp
  · rw [applyGfxError_conf]
    simp [revertedShader]
  · intro k hk
    simp only [List.mem_cons, List.mem_singleton, List.not_mem_nil, or_false, not_or] at hk
    obtain ⟨h1, h2, h3, h4, h5, h6⟩ := hk
    rw [applyGfxError_conf]
    simp [h1, h2, h3, h4, h5, h6]
  · simp only [OptionsDialog.applyGfxError]
    rw [(revert_message e tr sys gfxError previousShader _).2.2.2.2.2,
      (revert_message e tr sys gfxError previousShader _).2.2.2.2.1,
      (revert_message e tr sys gfxError previousShader _).2.2.2.1,
      (revert_message e tr sys gfxError previousShader _).2.2.1,
      (revert_message e tr sys gfxError previousShader _).2.1,
      (revert_message e tr sys gfxError previousShader _).1]
  · intro bit line
    unfold failureLine
    exact ⟨fun h => if_pos h, fun h => if_neg (by simp [h])⟩

/-- C18 on a transaction in which the mode switch, the stretch mode and the
aspect ratio failed (mask 69), on a backend that runs the first of its graphics
modes and the second of its stretch modes: gfx_mode, stretch_mode and
aspect_ratio go back to what the backend uses, and on a backend without stretch
modes stretch_mode keeps its new value. -/
theorem applyGfxError_reverts_witness :
    (OptionsDialog.applyGfxError sampleTransactionError id sampleOSystem 69 "old.glslp"
      sampleConf ⟨"crt.glslp", true⟩).conf "gfx_mode" = some (ConfValue.str "normal") ∧
    (OptionsDialog.applyGfxError sampleTransactionError id sampleOSystem 69 "old.glslp"
      sampleConf ⟨"crt.glslp", true⟩).conf "stretch_mode" = some (ConfValue.str "fit") ∧
    (OptionsDialog.applyGfxError sampleTransactionError id noStretchOSystem 69 "old.glslp"
      sampleConf ⟨"crt.glslp", true⟩).conf "stretch_mode" = some (ConfValue.str "center") :=
  ⟨((applyGfxError_reverts sampleTransactionError id sampleOSystem 69 "old.glslp" sampleConf
      ⟨"crt.glslp", true⟩).1 [] [⟨"opengl", 1⟩] ⟨"normal", 0⟩ rfl rfl
      (by decide)).trans (by decide),
   ((applyGfxError_reverts sampleTransactionError id sampleOSystem 69 "old.glslp" sampleConf
      ⟨"crt.glslp", true⟩).2.2.1 [⟨"center", 0⟩] [] ⟨"fit", 1⟩ rfl rfl
      (by decide)).trans (by decide),
   ((applyGfxError_reverts sampleTransactionError id noStretchOSystem 69 "old.glslp"
      sampleConf ⟨"crt.glslp", true⟩).2.2.2.1 (by decide)).trans (by decide)⟩

/-! ## Properties of the subtitle controls -/

/-- The talk speed of a slider value between 0 and a positive maximum, as a
quotient of natural numbers. -/
theorem applyTalkspeed_nat (s M : Nat) :
    OptionsDialog.applyTalkspeed (s : Int) (M : Int) = (((s * 255 + M / 2) / M : Nat) : Int) := by
  unfold OptionsDialog.applyTalkspeed
  have h2 : Int.tdiv (M : Int) 2 = ((M / 2 : Nat) : Int) := by
    rw [Int.tdiv_eq_ediv (by omega) (by omega)]; norm_cast
  rw [h2]
  have h3 : ((s : Int) * 255 + ((M / 2 : Nat) : Int)) = ((s * 255 + M / 2 : Nat) : Int) := by
    push_cast; ring
  rw [h3, Int.tdiv_eq_ediv (by omega) (by omega)]
  norm_cast

/-- The rebuilt slider value, as a quotient of natural numbers. -/
theorem buildSpeed_nat (t M : Nat) :
    OptionsDialog.buildSpeed (t : Int) (M : Int) = (((t * M + 127) / 255 : Nat) : Int) := by
  unfold OptionsDialog.buildSpeed
  have h2 : Int.tdiv (255 : Int) 2 = 127 := by decide
  rw [h2]
  have h3 : ((t : Int) * (M : Int) + 127) = ((t * M + 127 : Nat) : Int) := by
    push_cast; ring
  rw [h3, Int.tdiv_eq_ediv (by omega) (by omega)]
  norm_cast

/-- The rounding of the talk speed and of the rebuilt slider value on natural
numbers. -/
theorem talkspeed_nat_roundtrip (s M : Nat) (hM1 : 1 ≤ M) (hM : M ≤ 255) (hs : s ≤ M) :
    (s * 255 + M / 2) / M ≤ 255 ∧ ((s * 255 + M / 2) / M * M + 127) / 255 = s := by
  have hdm := Nat.div_add_mod (s * 255 + M / 2) M
  have hmod := Nat.mod_lt (s * 255 + M / 2) (show M > 0 by omega)
  generalize hq : (s * 255 + M / 2) / M = q at *
  generalize hr : (s * 255 + M / 2) % M = r at *
  rw [Nat.mul_comm] at hdm
  constructor
  · by_contra hcon
    have h256 : 256 * M ≤ q * M := Nat.mul_le_mul_right M (by omega)
    omega
  · generalize q * M = P at *
    omega

/-- C23: for a slider maximum M with 1 ≤ M ≤ 255 and a slider value s with
0 ≤ s ≤ M, the talkspeed that `OptionsDialog::apply` stores,
(s*255 + M/2) / M, lies in [0,255], and the slider value that
`OptionsDialog::build` recomputes from it, (t*M + 255/2) / 255, is s again.
No intermediate value leaves the range of `int`. -/
theorem talkspeed_roundtrip (M s : Int) (hM1 : 1 ≤ M) (hM : M ≤ 255) (hs0 : 0 ≤ s)
    (hs : s ≤ M) :
    0 ≤ OptionsDialog.applyTalkspeed s M ∧ OptionsDialog.applyTalkspeed s M ≤ 255 ∧
    OptionsDialog.buildSpeed (OptionsDialog.applyTalkspeed s M) M = s ∧
    s * 255 + Int.tdiv M 2 < 2147483648 ∧
    OptionsDialog.applyTalkspeed s M * M + Int.tdiv 255 2 < 2147483648 := by
  obtain ⟨m, rfl⟩ := Int.eq_ofNat_of_zero_le (show 0 ≤ M by omega)
  obtain ⟨n, rfl⟩ := Int.eq_ofNat_of_zero_le hs0
  have hn := talkspeed_nat_roundtrip n m (by omega) (by omega) (by omega)
  have h2 : Int.tdiv (m : Int) 2 = ((m / 2 : Nat) : Int) := by
    rw [Int.tdiv_eq_ediv (by omega) (by omega)]; norm_cast
  have h3 : Int.tdiv (255 : Int) 2 = 127 := by decide
  rw [applyTalkspeed_nat, buildSpeed_nat, h2, h3]
  refine ⟨Int.ofNat_zero_le _, by exact_mod_cast hn.1, by exact_mod_cast hn.2, by omega, ?_⟩
  have hle : (n * 255 + m / 2) / m * m ≤ 255 * 255 :=
    Nat.mul_le_mul hn.1 (by omega)
  have hc : ((((n * 255 + m / 2) / m : Nat) : Int) * (m : Int)) =
      (((n * 255 + m / 2) / m * m : Nat) : Int) := by push_cast; ring
  rw [hc]
  omega

/-- C23 for a slider with maximum 9 standing at 4: the stored talk speed is 113
and the rebuilt slider value is 4. -/
theorem talkspeed_roundtrip_witness :
    OptionsDialog.applyTalkspeed 4 9 = 113 ∧
    OptionsDialog.buildSpeed (OptionsDialog.applyTalkspeed 4 9) 9 = 4 :=
  ⟨by decide, (talkspeed_roundtrip 9 4 (by decide) (by decide) (by decide) (by decide)).2.2.1⟩

/-- C24: without `GUIO_NOSUBTITLES` and `GUIO_NOSPEECH`, the pairs
(`subtitles`, `speech_mute`) that `OptionsDialog::apply` stores for the radio
values speech only, subtitles only and both are (false,false), (true,true) and
(true,false), and `getSubtitleMode` maps each of them back to its radio value;
the remaining pair (false,true) is mapped to subtitles only. With
`GUIO_NOSUBTITLES` the answer is speech only for every pair, and otherwise with
`GUIO_NOSPEECH` it is subtitles only for every pair. -/
theorem getSubtitleMode_roundtrip (subtitles speech_mute noSpeech : Bool) :
    OptionsDialog.applySubtitleToggle kSubtitlesSpeech = (false, false) ∧
    OptionsDialog.applySubtitleToggle kSubtitlesSubs = (true, true) ∧
    OptionsDialog.applySubtitleToggle kSubtitlesBoth = (true, false) ∧
    OptionsDialog.getSubtitleMode false false
      (OptionsDialog.applySubtitleToggle kSubtitlesSpeech).1
      (OptionsDialog.applySubtitleToggle kSubtitlesSpeech).2 = kSubtitlesSpeech ∧
    OptionsDialog.getSubtitleMode false false
      (OptionsDialog.applySubtitleToggle kSubtitlesSubs).1
      (OptionsDialog.applySubtitleToggle kSubtitlesSubs).2 = kSubtitlesSubs ∧
    OptionsDialog.getSubtitleMode false false
      (OptionsDialog.applySubtitleToggle kSubtitlesBoth).1
      (OptionsDialog.applySubtitleToggle kSubtitlesBoth).2 = kSubtitlesBoth ∧
    OptionsDialog.getSubtitleMode false false false false = kSubtitlesSpeech ∧
    OptionsDialog.getSubtitleMode false false true true = kSubtitlesSubs ∧
    OptionsDialog.getSubtitleMode false false true false = kSubtitlesBoth ∧
    OptionsDialog.getSubtitleMode false false false true = kSubtitlesSubs ∧
    OptionsDialog.getSubtitleMode true noSpeech subtitles speech_mute = kSubtitlesSpeech ∧
    OptionsDialog.getSubtitleMode false true subtitles speech_mute = kSubtitlesSubs ∧
    kSubtitlesSpeech ≠ kSubtitlesSubs ∧ kSubtitlesSpeech ≠ kSubtitlesBoth ∧
    kSubtitlesSubs ≠ kSubtitlesBoth := by
  refine ⟨by decide, by decide, by decide, by decide, by decide, by decide, by decide, by decide,
    by decide, by decide, ?_, ?_, by decide, by decide, by decide⟩
  · cases noSpeech <;> cases subtitles <;> cases speech_mute <;> decide
  · cases subtitles <;> cases speech_mute <;> decide

end GUI

namespace Libretro

/-! ## Properties of the libretro palette -/

/-- A count below 2^32 is kept by the conversion to `uint`. -/
theorem toUint_of_lt (v : Nat) (h : v < 4294967296) : toUint v = v :=
  Nat.mod_eq_of_lt h

/-- A fresh palette has 768 bytes. -/
theorem RetroPalette_new_length : RetroPalette.new._colors.length = 768 :=
  List.length_replicate _ _

/-- Every byte of a fresh palette is zero. -/
theorem RetroPalette_new_zero (i : Nat) (hi : i < 768) :
    RetroPalette.new._colors[i]? = some 0 := by
  show (List.replicate (256 * 3) 0)[i]? = some 0
  rw [List.getElem?_replicate, if_pos (by omega)]

/-- The palette bytes after `RetroPalette::set` with a range inside the table. -/
theorem RetroPalette_set_eq (p : RetroPalette) (colors : List Nat) (start num : Nat)
    (hpal : p._colors.length = 768) (hrange : start + num ≤ 256)
    (hcolors : colors.length = 3 * num) :
    p.set colors start num =
      some ⟨p._colors.take (3 * start) ++ colors ++ p._colors.drop (3 * start + 3 * num)⟩ := by
  unfold RetroPalette.set memcpyInto
  rw [toUint_of_lt (start * 3) (by omega), toUint_of_lt (num * 3) (by omega),
    if_pos ⟨by omega, by omega⟩]
  have h1 : start * 3 = 3 * start := by omega
  have h2 : num * 3 = 3 * num := by omega
  have ht : colors.take (3 * num) = colors := List.take_of_length_le (by omega)
  rw [h1, h2, ht]
  rfl

/-- C19: for every start and num with start + num <= 256 and every colour buffer
of 3*num bytes, `setPalette(colors, start, num)` followed by
`grabPalette(out, start, num)` on the libretro backend yields out = colors, and
`setPalette` leaves every palette byte outside [3*start, 3*(start+num))
unchanged (and the mouse palette too); a freshly constructed `RetroPalette` is
all zero. -/
theorem setPalette_grabPalette (sys : OSystem_RETRO) (colors out : List Nat) (start num : Nat)
    (hpal : sys._gamePalette._colors.length = 768) (hrange : start + num ≤ 256)
    (hcolors : colors.length = 3 * num) (hout : out.length = 3 * num) :
    (∃ sys' : OSystem_RETRO,
      sys.setPalette colors start num = some sys' ∧
      sys'.grabPalette out start num = some colors ∧
      sys'._gamePalette._colors.length = 768 ∧
      (∀ i : Nat, i < 3 * start ∨ 3 * (start + num) ≤ i →
        sys'._gamePalette._colors[i]? = sys._gamePalette._colors[i]?) ∧
      sys'._mousePalette = sys._mousePalette ∧
      sys'._mousePaletteEnabled = sys._mousePaletteEnabled) ∧
    RetroPalette.new._colors.length = 768 ∧
    (∀ i : Nat, i < 768 → RetroPalette.new._colors[i]? = some 0) := by
  have hset := RetroPalette_set_eq sys._gamePalette colors start num hpal hrange hcolors
  have htake : (sys._gamePalette._colors.take (3 * start)).length = 3 * start := by
    rw [List.length_take]; omega
  have hlen : (sys._gamePalette._colors.take (3 * start) ++ colors ++
      sys._gamePalette._colors.drop (3 * start + 3 * num)).length = 768 := by
    simp only [List.length_append, List.length_take, List.length_drop]
    omega
  refine ⟨⟨⟨⟨sys._gamePalette._colors.take (3 * start) ++ colors ++
      sys._gamePalette._colors.drop (3 * start + 3 * num)⟩, sys._mousePalette,
      sys._mousePaletteEnabled⟩,
    (by unfold OSystem_RETRO.setPalette; rw [hset]; rfl), ?_, hlen, ?_, rfl, rfl⟩,
    RetroPalette_new_length, RetroPalette_new_zero⟩
  · show RetroPalette.get _ out start num = some colors
    unfold RetroPalette.get memcpyInto
    rw [toUint_of_lt (start * 3) (by omega), toUint_of_lt (num * 3) (by omega)]
    have h1 : start * 3 = 3 * start := by omega
    have h2 : num * 3 = 3 * num := by omega
    rw [h1, h2]
    show (if 3 * start + 3 * num ≤ (sys._gamePalette._colors.take (3 * start) ++ colors ++
        sys._gamePalette._colors.drop (3 * start + 3 * num)).length then _ else _) = _
    rw [if_pos (by omega), List.append_assoc, List.drop_left' htake]
    rw [if_pos ⟨by omega, by simp only [List.length_append]; omega⟩]
    rw [List.take_left' hcolors, List.take_zero, List.nil_append, List.drop_of_length_le (by omega),
      List.append_nil]
  · intro i hi
    show (sys._gamePalette._colors.take (3 * start) ++ colors ++
      sys._gamePalette._colors.drop (3 * start + 3 * num))[i]? = _
    rcases hi with hi | hi
    · rw [List.append_assoc, List.getElem?_append_left (by omega), List.getElem?_take_of_lt hi]
    · rw [List.getElem?_append_right (by simp only [List.length_append]; omega),
        List.getElem?_drop]
      congr 1
      simp only [List.length_append]
      omega

/-- C19 on a fresh backend: setting entries 1 and 2 and grabbing them again. -/
theorem setPalette_grabPalette_witness :
    ∃ sys' : OSystem_RETRO,
      OSystem_RETRO.setPalette ⟨RetroPalette.new, RetroPalette.new, false⟩
        [10, 20, 30, 40, 50, 60] 1 2 = some sys' ∧
      sys'.grabPalette [0, 0, 0, 0, 0, 0] 1 2 = some [10, 20, 30, 40, 50, 60] ∧
      sys'._gamePalette._colors[2]? = some 0 ∧ sys'._gamePalette._colors[9]? = some 0 := by
  obtain ⟨⟨sys', hset, hget, _, hout, _⟩, _, hzero⟩ :=
    setPalette_grabPalette ⟨RetroPalette.new, RetroPalette.new, false⟩
      [10, 20, 30, 40, 50, 60] [0, 0, 0, 0, 0, 0] 1 2 RetroPalette_new_length (by decide) rfl rfl
  exact ⟨sys', hset, hget, (hout 2 (Or.inl (by decide))).trans (hzero 2 (by decide)),
    (hout 9 (Or.inr (by decide))).trans (hzero 9 (by decide))⟩

/-! ## Properties of the time conversion -/

/-- The macro `YEARSIZE` gives the length of the year in the calendar. -/
theorem YEARSIZE_eq (y : Nat) : YEARSIZE y = yearLength y := by
  unfold YEARSIZE LEAPYEAR yearLength isLeapYear
  by_cases h4 : y % 4 = 0 <;> by_cases h100 : y % 100 = 0 <;> by_cases h400 : y % 400 = 0 <;>
    simp [h4, h100, h400] <;> omega

/-- The macro `LEAPYEAR` is 1 in the leap years of the calendar and 0 otherwise. -/
theorem LEAPYEAR_eq (y : Nat) : LEAPYEAR y = if isLeapYear y then 1 else 0 := by
  unfold LEAPYEAR isLeapYear
  by_cases h4 : y % 4 = 0 <;> by_cases h100 : y % 100 = 0 <;> by_cases h400 : y % 400 = 0 <;>
    simp [h4, h100, h400] <;> omega

/-- The days before the next year are the days before this year and this year. -/
theorem daysBeforeYear_succ (y : Nat) (h : 1970 ≤ y) :
    daysBeforeYear (y + 1) = daysBeforeYear y + yearLength y := by
  unfold daysBeforeYear
  have h1 : y + 1 - 1970 = (y - 1970) + 1 := by omega
  have h2 : 1970 + (y - 1970) = y := by omega
  rw [h1, List.range_succ, List.map_append, List.sum_append]
  simp [h2]

/-- The days before the next month are the days before this month and this month. -/
theorem daysBeforeMonth_succ (y k : Nat) :
    daysBeforeMonth y (k + 1) = daysBeforeMonth y k + monthLength y (k + 1) := by
  unfold daysBeforeMonth
  rw [List.range_succ, List.map_append, List.sum_append]
  simp

/-- The twelve months of a year make up the year. -/
theorem daysBeforeMonth_twelve (y : Nat) : daysBeforeMonth y 12 = yearLength y := by
  unfold daysBeforeMonth yearLength monthLength
  cases isLeapYear y <;> decide

/-- The table `_ytab` holds the month lengths of the calendar. -/
theorem ytabAt_eq (y mon : Nat) (h : mon ≤ 11) :
    ytabAt (LEAPYEAR y) mon = some (monthLength y (mon + 1)) := by
  rw [LEAPYEAR_eq]
  unfold monthLength
  interval_cases mon <;> cases isLeapYear y <;> decide

/-- The year loop ends, with a day number inside the year it ends in. -/
theorem yearLoop_spec (fuel : Nat) :
    ∀ dayno year : Nat, 1970 ≤ year → dayno < 365 * fuel →
      year + dayno / 365 ≤ 2147483647 →
      ∃ d y, yearLoop fuel dayno year = Except.ok (d, y) ∧ d < YEARSIZE y ∧ year ≤ y ∧
        y ≤ 2147483647 ∧ daysBeforeYear y + d = daysBeforeYear year + dayno := by
  induction fuel with
  | zero => intro dayno year _ h; omega
  | succ fuel ih =>
    intro dayno year hy hf hmax
    have hys : YEARSIZE year = 365 ∨ YEARSIZE year = 366 := by
      unfold YEARSIZE; split <;> simp
    unfold yearLoop
    by_cases hge : dayno ≥ YEARSIZE year
    · rw [if_pos hge, if_neg (by omega)]
      obtain ⟨d, y, hrun, hd, hle, hmx, hsum⟩ :=
        ih (dayno - YEARSIZE year) (year + 1) (by omega) (by omega) (by omega)
      refine ⟨d, y, hrun, hd, by omega, hmx, ?_⟩
      rw [hsum, daysBeforeYear_succ year hy, ← YEARSIZE_eq]
      omega
    · rw [if_neg hge]
      exact ⟨dayno, year, rfl, by omega, le_refl _, by omega, rfl⟩

/-- The month loop ends at a month of the table, with a day inside that month. -/
theorem monthLoop_spec (y : Nat) (fuel : Nat) :
    ∀ dayno mon : Nat, mon ≤ 11 → 12 ≤ mon + fuel →
      daysBeforeMonth y mon + dayno < yearLength y →
      ∃ d m, monthLoop fuel (LEAPYEAR y) dayno mon = Except.ok (d, m) ∧ mon ≤ m ∧ m ≤ 11 ∧
        d < monthLength y (m + 1) ∧
        daysBeforeMonth y m + d = daysBeforeMonth y mon + dayno := by
  induction fuel with
  | zero => intro dayno mon h1 h2; omega
  | succ fuel ih =>
    intro dayno mon hmon hfuel hsum
    unfold monthLoop
    rw [ytabAt_eq y mon hmon]
    simp only []
    by_cases hge : dayno ≥ monthLength y (mon + 1)
    · rw [if_pos hge]
      have hnext := daysBeforeMonth_succ y mon
      have hmon1 : mon + 1 ≤ 11 := by
        by_contra hcon
        have h11 : mon = 11 := by omega
        subst h11
        have h12 : daysBeforeMonth y (11 + 1) = yearLength y := daysBeforeMonth_twelve y
        omega
      obtain ⟨d, m, hrun, hle, hm, hd, hs⟩ :=
        ih (dayno - monthLength y (mon + 1)) (mon + 1) hmon1 (by omega) (by omega)
      exact ⟨d, m, hrun, by omega, hm, hd, by omega⟩
    · rw [if_neg hge]
      exact ⟨dayno, mon, rfl, le_refl _, hmon, by omega, rfl⟩

/-- An epoch time below 2^w is kept by the conversion to `unsigned long`. -/
theorem toUlong_of_lt (w t : Nat) (h : t < 2 ^ w) : toUlong w (t : Int) = t := by
  unfold toUlong
  have h1 : ((t : Int) % 2 ^ w) = ((t % 2 ^ w : Nat) : Int) := by push_cast; rfl
  rw [h1, Nat.mod_eq_of_lt h]
  rfl

/-- The two loops of `getTimeAndDate` on an epoch time in range. -/
theorem getTimeAndDate_loops (w t : Nat) (ht : t < 2 ^ w)
    (hyear : 1970 + t / 86400 / 365 ≤ 2147483647) :
    ∃ d1 y d2 m,
      yearLoop (t / 86400 / 365 + 1) (t / 86400) EPOCH_YR = Except.ok (d1, y) ∧
      monthLoop 12 (LEAPYEAR y) d1 0 = Except.ok (d2, m) ∧
      d1 < YEARSIZE y ∧ 1970 ≤ y ∧ y ≤ 2147483647 ∧ m ≤ 11 ∧
      d2 < monthLength y (m + 1) ∧
      daysBeforeYear y + daysBeforeMonth y m + d2 = t / 86400 ∧
      getTimeAndDate w (t : Int) = Except.ok
        { tm_sec := ((t % 86400 % 60 : Nat) : Int)
          tm_min := (((t % 86400 % 3600) / 60 : Nat) : Int)
          tm_hour := ((t % 86400 / 3600 : Nat) : Int)
          tm_wday := ((((t / 86400 + 4) % 2 ^ w) % 7 : Nat) : Int)
          tm_year := (y : Int) - 1900
          tm_mon := (m : Int)
          tm_mday := ((d2 + 1 : Nat) : Int) } := by
  obtain ⟨d1, y, hrun1, hd1, hy, hmx, hsum1⟩ :=
    yearLoop_spec (t / 86400 / 365 + 1) (t / 86400) 1970 (le_refl _) (by omega) (by omega)
  have hd1len : daysBeforeMonth y 0 + d1 < yearLength y := by
    rw [← YEARSIZE_eq]
    simpa [daysBeforeMonth] using hd1
  obtain ⟨d2, m, hrun2, _, hm, hd2, hsum2⟩ :=
    monthLoop_spec y 12 d1 0 (by omega) (by omega) hd1len
  have hzero : daysBeforeYear 1970 = 0 := by decide
  have hm0 : daysBeforeMonth y 0 = 0 := by simp [daysBeforeMonth]
  refine ⟨d1, y, d2, m, hrun1, hrun2, hd1, hy, hmx, hm, hd2, by omega, ?_⟩
  unfold getTimeAndDate
  simp only [toUlong_of_lt w t ht, SECS_DAY, YEAR0]
  have hrun1b : yearLoop (t / (24 * 60 * 60) / 365 + 1) (t / (24 * 60 * 60)) EPOCH_YR =
      Except.ok (d1, y) := hrun1
  rw [hrun1b]
  simp only []
  rw [hrun2]
  rfl

/-- A read of `_ytab` outside its two rows of twelve months is a fault of the
month loop. -/
theorem monthLoop_outside (fuel leap dayno mon : Nat) (h : 2 ≤ leap ∨ 12 ≤ mon) :
    monthLoop fuel leap dayno mon = Except.error TimeFault.tableIndex := by
  have hnone : ytabAt leap mon = none := by
    unfold ytabAt _ytab
    rcases leap with _ | _ | leap
    · have h12 : 12 ≤ mon := by omega
      simp only [List.getElem?_cons_zero]
      exact List.getElem?_eq_none (by simpa using h12)
    · have h12 : 12 ≤ mon := by omega
      simp only [List.getElem?_cons_succ, List.getElem?_cons_zero]
      exact List.getElem?_eq_none (by simpa using h12)
    · simp
  cases fuel <;> simp [monthLoop, hnone]

/-- C21: for an epoch time t ≥ 0 inside the range of the machine types (t fits
`unsigned long`, the year fits `int`), `getTimeAndDate` answers with
tm_hour*3600 + tm_min*60 + tm_sec = t mod 86400, tm_hour < 24, tm_min < 60,
tm_sec < 60, tm_wday = (t/86400 + 4) mod 7, and (tm_year + 1900, tm_mon + 1,
tm_mday) is the date of the proleptic Gregorian calendar with day number
t/86400 counted from 1970-01-01, with 0 ≤ tm_mon ≤ 11 and 1 ≤ tm_mday ≤ the
length of that month. -/
theorem getTimeAndDate_calendar (w t : Nat) (hw : 32 ≤ w) (ht : t < 2 ^ w)
    (hyear : 1970 + t / 86400 / 365 ≤ 2147483647) :
    ∃ td : TimeDate, getTimeAndDate w (t : Int) = Except.ok td ∧
      td.tm_hour * 3600 + td.tm_min * 60 + td.tm_sec = ((t % 86400 : Nat) : Int) ∧
      0 ≤ td.tm_hour ∧ td.tm_hour < 24 ∧ 0 ≤ td.tm_min ∧ td.tm_min < 60 ∧
      0 ≤ td.tm_sec ∧ td.tm_sec < 60 ∧
      td.tm_wday = (((t / 86400 + 4) % 7 : Nat) : Int) ∧
      0 ≤ td.tm_mon ∧ td.tm_mon ≤ 11 ∧
      ∃ y m d : Nat, td.tm_year + 1900 = (y : Int) ∧ td.tm_mon + 1 = (m : Int) ∧
        td.tm_mday = (d : Int) ∧ 1970 ≤ y ∧ 1 ≤ m ∧ m ≤ 12 ∧
        1 ≤ d ∧ d ≤ monthLength y m ∧ dayNumber y m d = t / 86400 := by
  obtain ⟨d1, y, d2, m, _, _, _, hy, _, hm, hd2, hsum, hrun⟩ := getTimeAndDate_loops w t ht hyear
  have hpow : 4294967296 ≤ 2 ^ w :=
    le_trans (by norm_num) (Nat.pow_le_pow_right (by norm_num) hw)
  have hwrap : (t / 86400 + 4) % 2 ^ w = t / 86400 + 4 := by
    apply Nat.mod_eq_of_lt
    generalize 2 ^ w = P at *
    omega
  refine ⟨_, hrun, ?_, ?_, ?_, ?_, ?_, ?_, ?_, ?_, ?_, ?_, ⟨y, m + 1, d2 + 1, ?_, ?_, rfl, hy,
    by omega, by omega, by omega, by omega, ?_⟩⟩
  · show ((t % 86400 / 3600 : Nat) : Int) * 3600 + (((t % 86400 % 3600) / 60 : Nat) : Int) * 60 +
      ((t % 86400 % 60 : Nat) : Int) = ((t % 86400 : Nat) : Int)
    omega
  · show (0 : Int) ≤ ((t % 86400 / 3600 : Nat) : Int)
    omega
  · show ((t % 86400 / 3600 : Nat) : Int) < 24
    omega
  · show (0 : Int) ≤ (((t % 86400 % 3600) / 60 : Nat) : Int)
    omega
  · show (((t % 86400 % 3600) / 60 : Nat) : Int) < 60
    omega
  · show (0 : Int) ≤ ((t % 86400 % 60 : Nat) : Int)
    omega
  · show ((t % 86400 % 60 : Nat) : Int) < 60
    omega
  · show ((((t / 86400 + 4) % 2 ^ w) % 7 : Nat) : Int) = (((t / 86400 + 4) % 7 : Nat) : Int)
    rw [hwrap]
  · show (0 : Int) ≤ (m : Int)
    omega
  · show (m : Int) ≤ 11
    omega
  · show (y : Int) - 1900 + 1900 = (y : Int)
    omega
  · show (m : Int) + 1 = ((m + 1 : Nat) : Int)
    omega
  · show daysBeforeYear y + daysBeforeMonth y (m + 1 - 1) + (d2 + 1 - 1) = t / 86400
    simpa using hsum

/-- C21 at the epoch time 1700000000 on a machine with 64-bit `unsigned long`:
the answer is 22:13:20 on Tuesday 2023-11-14. -/
theorem getTimeAndDate_calendar_witness :
    getTimeAndDate 64 1700000000 = Except.ok ⟨20, 13, 22, 14, 10, 123, 2⟩ ∧
    dayNumber 2023 11 14 = 1700000000 / 86400 ∧
    ∃ td : TimeDate, getTimeAndDate 64 ((1700000000 : Nat) : Int) = Except.ok td ∧
      td.tm_hour * 3600 + td.tm_min * 60 + td.tm_sec = ((1700000000 % 86400 : Nat) : Int) ∧
      td.tm_wday = (((1700000000 / 86400 + 4) % 7 : Nat) : Int) := by
  obtain ⟨td, hrun, hclock, _, _, _, _, _, _, hwday, _⟩ :=
    getTimeAndDate_calendar 64 1700000000 (by decide) (by decide) (by decide)
  exact ⟨rfl, by decide, td, hrun, hclock, hwday⟩

/-- C22: for an epoch time t ≥ 0 inside the range of the machine types, both
loops of `getTimeAndDate` end: the year loop leaves a day number smaller than
the length of the year it selects, and the month loop, which reads
`_ytab[leap][tm_mon]` and faults on a read outside the table, ends without a
fault at a month index tm_mon in 0..11. -/
theorem getTimeAndDate_month_index (w t : Nat) (ht : t < 2 ^ w)
    (hyear : 1970 + t / 86400 / 365 ≤ 2147483647) :
    ∃ dayno year mday mon : Nat, ∃ td : TimeDate,
      yearLoop (t / 86400 / 365 + 1) (t / 86400) EPOCH_YR = Except.ok (dayno, year) ∧
      dayno < YEARSIZE year ∧
      LEAPYEAR year ≤ 1 ∧
      monthLoop 12 (LEAPYEAR year) dayno 0 = Except.ok (mday, mon) ∧
      mon ≤ 11 ∧
      getTimeAndDate w (t : Int) = Except.ok td ∧ td.tm_mon = (mon : Int) ∧
      (∀ fuel leap d i : Nat, 2 ≤ leap ∨ 12 ≤ i →
        monthLoop fuel leap d i = Except.error TimeFault.tableIndex) := by
  obtain ⟨d1, y, d2, m, hrun1, hrun2, hd1, _, _, hm, _, _, hrun⟩ :=
    getTimeAndDate_loops w t ht hyear
  refine ⟨d1, y, d2, m, _, hrun1, hd1, ?_, hrun2, hm, hrun, rfl, monthLoop_outside⟩
  unfold LEAPYEAR
  split <;> omega

/-- C22 at the first second of 2000-02-29 on a machine with 32-bit
`unsigned long`: the year loop leaves day 59 of the leap year 2000 and the month
loop ends at index 1. -/
theorem getTimeAndDate_month_index_witness :
    yearLoop (951782400 / 86400 / 365 + 1) (951782400 / 86400) EPOCH_YR = Except.ok (59, 2000) ∧
    monthLoop 12 (LEAPYEAR 2000) 59 0 = Except.ok (28, 1) ∧
    ∃ dayno year mday mon : Nat,
      yearLoop (951782400 / 86400 / 365 + 1) (951782400 / 86400) EPOCH_YR =
        Except.ok (dayno, year) ∧
      dayno < YEARSIZE year ∧
      monthLoop 12 (LEAPYEAR year) dayno 0 = Except.ok (mday, mon) ∧ mon ≤ 11 := by
  obtain ⟨dayno, year, mday, mon, _, h1, h2, _, h3, h4, _⟩ :=
    getTimeAndDate_month_index 32 951782400 (by decide) (by decide)
  exact ⟨rfl, rfl, dayno, year, mday, mon, h1, h2, h3, h4⟩

end Libretro

namespace Ultima8

/-! ## Properties of the pause counter -/

/-- The pause counter follows the running count as long as that count stays
below 2^32. -/
theorem run_eq_runningCount (cs : List PauseCall) :
    ∀ k : Kernel, countStaysBelow cs k._paused = true →
      (Kernel.run cs k)._paused = runningCount cs k._paused := by
  induction cs with
  | nil => intro k _; rfl
  | cons c cs ih =>
    intro k h
    cases c with
    | pause =>
      simp only [countStaysBelow, Bool.and_eq_true, decide_eq_true_eq] at h
      obtain ⟨hk, hrest⟩ := h
      have hnext : countStaysBelow cs (k._paused + 1) = true := hrest
      have hlt : k._paused + 1 < 4294967296 := by
        cases cs with
        | nil => simpa [countStaysBelow] using hnext
        | cons d ds =>
          cases d <;> simp only [countStaysBelow, Bool.and_eq_true, decide_eq_true_eq] at hnext <;>
            exact hnext.1
      have hp : k.pause._paused = k._paused + 1 := Nat.mod_eq_of_lt hlt
      show (Kernel.run cs k.pause)._paused = runningCount cs (k._paused + 1)
      rw [ih k.pause (by rw [hp]; exact hnext), hp]
    | unpause =>
      simp only [countStaysBelow, Bool.and_eq_true, decide_eq_true_eq] at h
      obtain ⟨hk, hrest⟩ := h
      have hp : k.unpause._paused = k._paused - 1 := by
        unfold Kernel.unpause
        split
        · exact Nat.mod_eq_of_lt (by omega)
        · omega
      show (Kernel.run cs k.unpause)._paused = runningCount cs (k._paused - 1)
      rw [ih k.unpause (by rw [hp]; exact hrest), hp]

/-- The running count after n pauses followed by n unpauses is the count before. -/
theorem runningCount_pauses_unpauses (n : Nat) :
    ∀ m : Nat, runningCount (List.replicate n PauseCall.pause ++
      List.replicate n PauseCall.unpause) m = m := by
  have hun : ∀ (j m : Nat), runningCount (List.replicate j PauseCall.unpause) m = m - j := by
    intro j
    induction j with
    | zero => intro m; rfl
    | succ j ih =>
      intro m
      show runningCount (List.replicate j PauseCall.unpause) (m - 1) = _
      rw [ih]; omega
  have hgen : ∀ (i j m : Nat), runningCount (List.replicate i PauseCall.pause ++
      List.replicate j PauseCall.unpause) m = m + i - j := by
    intro i
    induction i with
    | zero =>
      intro j m
      simp only [List.replicate_zero, List.nil_append]
      rw [hun]; omega
    | succ i ih =>
      intro j m
      show runningCount (List.replicate i PauseCall.pause ++
        List.replicate j PauseCall.unpause) (m + 1) = _
      rw [ih]; omega
  intro m
  rw [hgen]; omega

/-- The running count stays below 2^32 during n < 2^32 pauses followed by n
unpauses of an unpaused kernel. -/
theorem countStaysBelow_pauses_unpauses (n : Nat) (hn : n < 4294967296) :
    countStaysBelow (List.replicate n PauseCall.pause ++
      List.replicate n PauseCall.unpause) 0 = true := by
  have hun : ∀ (j m : Nat), m < 4294967296 →
      countStaysBelow (List.replicate j PauseCall.unpause) m = true := by
    intro j
    induction j with
    | zero => intro m hm; simpa [countStaysBelow] using hm
    | succ j ih =>
      intro m hm
      show (decide (m < 4294967296) && countStaysBelow (List.replicate j PauseCall.unpause)
        (m - 1)) = true
      rw [ih (m - 1) (by omega)]
      simpa using hm
  have hgen : ∀ (i j m : Nat), m + i < 4294967296 →
      countStaysBelow (List.replicate i PauseCall.pause ++
        List.replicate j PauseCall.unpause) m = true := by
    intro i
    induction i with
    | zero =>
      intro j m hm
      simp only [List.replicate_zero, List.nil_append]
      exact hun j m (by omega)
    | succ i ih =>
      intro j m hm
      show (decide (m < 4294967296) && countStaysBelow (List.replicate i PauseCall.pause ++
        List.replicate j PauseCall.unpause) (m + 1)) = true
      rw [ih j (m + 1) (by omega)]
      simp
      omega
  exact hgen n n 0 (by omega)

/-- C28: for every finite sequence of `Kernel::pause()` and `Kernel::unpause()`
calls starting from an unpaused kernel, with fewer than 2^32 outstanding pauses
at every moment, `_paused` equals the running count that is saturated at zero
(pause adds 1, unpause subtracts 1 unless the count is already 0); `isPaused()`
holds iff that count is positive; `unpause()` on an unpaused kernel changes
nothing; and n pauses followed by n unpauses leave the kernel unpaused. -/
theorem pause_counter (cs : List PauseCall) (n : Nat)
    (hcs : countStaysBelow cs 0 = true) (hn : n < 4294967296) :
    (Kernel.run cs ⟨0⟩)._paused = runningCount cs 0 ∧
    ((Kernel.run cs ⟨0⟩).isPaused = true ↔ 0 < runningCount cs 0) ∧
    Kernel.unpause ⟨0⟩ = ⟨0⟩ ∧
    ((Kernel.run cs ⟨0⟩).isPaused = false → (Kernel.run cs ⟨0⟩).unpause = Kernel.run cs ⟨0⟩) ∧
    Kernel.run (List.replicate n PauseCall.pause ++ List.replicate n PauseCall.unpause) ⟨0⟩ =
      ⟨0⟩ ∧
    (Kernel.run (List.replicate n PauseCall.pause ++ List.replicate n PauseCall.unpause)
      ⟨0⟩).isPaused = false := by
  have hrun := run_eq_runningCount cs ⟨0⟩ hcs
  have hnn := run_eq_runningCount _ ⟨0⟩ (countStaysBelow_pauses_unpauses n hn)
  rw [runningCount_pauses_unpauses] at hnn
  have hk : Kernel.run (List.replicate n PauseCall.pause ++
      List.replicate n PauseCall.unpause) ⟨0⟩ = ⟨0⟩ := by
    cases hc : Kernel.run (List.replicate n PauseCall.pause ++
      List.replicate n PauseCall.unpause) ⟨0⟩ with
    | mk p =>
      rw [hc] at hnn
      simp only at hnn
      rw [hnn]
  refine ⟨hrun, ?_, rfl, ?_, hk, ?_⟩
  · unfold Kernel.isPaused
    rw [hrun]
    simp
  · intro hp
    unfold Kernel.isPaused at hp
    unfold Kernel.unpause
    rw [if_neg (by simpa using hp)]
  · rw [hk]
    rfl

/-- C28 on the sequence unpause, pause, pause, unpause: one pause is left
outstanding; and three pauses followed by three unpauses leave none. -/
theorem pause_counter_witness :
    (Kernel.run [PauseCall.unpause, PauseCall.pause, PauseCall.pause, PauseCall.unpause]
      ⟨0⟩)._paused = 1 ∧
    Kernel.run (List.replicate 3 PauseCall.pause ++ List.replicate 3 PauseCall.unpause) ⟨0⟩ =
      ⟨0⟩ :=
  ⟨(pause_counter [PauseCall.unpause, PauseCall.pause, PauseCall.pause, PauseCall.unpause] 3
      (by decide) (by decide)).1,
   (pause_counter [PauseCall.unpause, PauseCall.pause, PauseCall.pause, PauseCall.unpause] 3
      (by decide) (by decide)).2.2.2.2.1⟩

end Ultima8

namespace Common

open RenderMode GuiOption

/-! ## Properties of the render mode tables -/

/-- The comparison after `tolower` holds exactly when the lower-case forms agree. -/
theorem stricmpEq_iff (a b : List Char) :
    stricmpEq a b = true ↔ a.map Char.toLower = b.map Char.toLower := by
  induction a generalizing b with
  | nil => cases b <;> simp [stricmpEq]
  | cons x xs ih =>
    cases b with
    | nil => simp [stricmpEq]
    | cons y ys => simp [stricmpEq, ih]

/-- The loop of `parseRenderMode` only looks at the lower-case form of the string. -/
theorem parseRenderModeLoop_eq (str : String) (tbl : List RenderModeDescription) :
    parseRenderModeLoop str tbl = parseLowerLoop (str.data.map Char.toLower) tbl := by
  induction tbl with
  | nil => rfl
  | cons l ls ih =>
    unfold parseRenderModeLoop parseLowerLoop
    cases hc : l.code with
    | none => rfl
    | some code =>
      simp only []
      by_cases h : str.data.map Char.toLower = code.data.map Char.toLower
      · have he : equalsIgnoreCase str code = true := (stricmpEq_iff _ _).2 h
        rw [if_pos h, if_pos he]
      · have he : ¬ equalsIgnoreCase str code = true := fun h2 => h ((stricmpEq_iff _ _).1 h2)
        rw [if_neg h, if_neg he, ih]

/-- A letter-case variant of a code is parsed like the lower-case form of the code. -/
theorem parseRenderMode_of_variant (c code : String) (id : RenderMode)
    (hv : isCaseVariant c code) (hne : code.length ≠ 0)
    (hk : parseLowerLoop (code.data.map Char.toLower) g_renderModes = some id) :
    parseRenderMode c = some id := by
  have hlen : c.length = code.length := by
    have hl := congrArg List.length hv
    rw [List.length_map, List.length_map] at hl
    exact hl
  unfold parseRenderMode
  rw [if_neg (by omega), parseRenderModeLoop_eq, hv, hk]

/-- A string that matches no code makes the loop of `parseRenderMode` stop at
the terminating entry. -/
theorem parseRenderModeLoop_no_match (str : String) (tbl : List RenderModeDescription)
    (hterm : ∃ l ∈ tbl, l.code = none)
    (h : ∀ l ∈ tbl, ∀ code, l.code = some code → equalsIgnoreCase str code = false) :
    parseRenderModeLoop str tbl = some kRenderDefault := by
  induction tbl with
  | nil => obtain ⟨l, hl, _⟩ := hterm; cases hl
  | cons l ls ih =>
    unfold parseRenderModeLoop
    cases hc : l.code with
    | none => rfl
    | some code =>
      simp only []
      rw [if_neg (by rw [h l (List.mem_cons_self _ _) code hc]; simp)]
      apply ih
      · obtain ⟨l2, hl2, hn⟩ := hterm
        rcases List.mem_cons.1 hl2 with rfl | hmem
        · rw [hc] at hn; cases hn
        · exact ⟨l2, hmem, hn⟩
      · intro l2 hl2
        exact h l2 (List.mem_cons_of_mem _ hl2)

/-- C25: for each of the 16 entries (code, id) of `g_renderModes`,
`parseRenderMode` answers id for every letter-case variant of code,
`getRenderModeCode(id)` is code and `parseRenderMode` of it is id again;
`parseRenderMode` answers `kRenderDefault` for the empty string and for every
string that matches no code when case is ignored, and
`getRenderModeCode(kRenderDefault)` is null. -/
theorem parseRenderMode_codes :
    (g_renderModes.filter (fun l => l.code.isSome)).length = 16 ∧
    (∀ l ∈ g_renderModes, ∀ code, l.code = some code →
      (∀ c : String, isCaseVariant c code → parseRenderMode c = some l.id) ∧
      getRenderModeCode l.id = some (some code) ∧
      parseRenderMode code = some l.id) ∧
    parseRenderMode "" = some kRenderDefault ∧
    (∀ str : String,
      (∀ l ∈ g_renderModes, ∀ code, l.code = some code → equalsIgnoreCase str code = false) →
      parseRenderMode str = some kRenderDefault) ∧
    getRenderModeCode kRenderDefault = some none := by
  refine ⟨by decide, ?_, by decide, ?_, by decide⟩
  · have key : ∀ l ∈ g_renderModes, ∀ code, l.code = some code →
        code.length ≠ 0 ∧
        parseLowerLoop (code.data.map Char.toLower) g_renderModes = some l.id ∧
        getRenderModeCode l.id = some (some code) := by
      intro l hl code hc
      simp only [g_renderModes, List.mem_cons, List.mem_singleton, List.not_mem_nil,
        or_false] at hl
      rcases hl with rfl | rfl | rfl | rfl | rfl | rfl | rfl | rfl | rfl | rfl | rfl | rfl |
        rfl | rfl | rfl | rfl | rfl <;> cases hc <;> decide
    intro l hl code hc
    obtain ⟨hne, hk, hg⟩ := key l hl code hc
    exact ⟨fun c hv => parseRenderMode_of_variant c code l.id hv hne hk, hg,
      parseRenderMode_of_variant code code l.id rfl hne hk⟩
  · intro str h
    unfold parseRenderMode
    split
    · rfl
    · exact parseRenderModeLoop_no_match str g_renderModes
        ⟨⟨none, none, kRenderDefault⟩, by decide, rfl⟩ h

/-- C25 on the code `cgaBW`: the variants `CGABW` and `CgaBw` are parsed to
`kRenderCGA_BW`, whose code is `cgaBW`. -/
theorem parseRenderMode_codes_witness :
    parseRenderMode "CGABW" = some kRenderCGA_BW ∧
    parseRenderMode "CgaBw" = some kRenderCGA_BW ∧
    getRenderModeCode kRenderCGA_BW = some (some "cgaBW") ∧
    parseRenderMode "cgb" = some kRenderDefault :=
  ⟨(parseRenderMode_codes.2.1 ⟨some "cgaBW", some "CGA b/w", kRenderCGA_BW⟩ (by decide)
      "cgaBW" rfl).1 "CGABW" (by decide),
   (parseRenderMode_codes.2.1 ⟨some "cgaBW", some "CGA b/w", kRenderCGA_BW⟩ (by decide)
      "cgaBW" rfl).1 "CgaBw" (by decide),
   (parseRenderMode_codes.2.1 ⟨some "cgaBW", some "CGA b/w", kRenderCGA_BW⟩ (by decide)
      "cgaBW" rfl).2.1,
   parseRenderMode_codes.2.2.2.1 "cgb" (by decide)⟩

/-- Appending to the empty string gives the appended string. -/
theorem empty_append_string (s : String) : "" ++ s = s := by
  apply String.ext
  simp

/-- C26: for each of the 15 entries of `s_renderGUIOMapping` (each id is listed
once) the GUI option string of the entry's id is exactly the entry's string; it
is the empty string for every id that the table does not list, among them
`kRenderZX`, which `parseRenderMode` accepts, and `kRenderDefault`; and
`allRenderModesGUIOs()` is the concatenation of the GUI option strings of the
15 ids in table order. -/
theorem renderMode_guio_strings (text : GuiOption → String) (id : RenderMode) :
    s_renderGUIOMapping.length = 15 ∧
    (s_renderGUIOMapping.map (fun m => m.id)).Nodup ∧
    (∀ m ∈ s_renderGUIOMapping, renderMode2GUIO text m.id = text m.guio) ∧
    ((∀ m ∈ s_renderGUIOMapping, m.id ≠ id) → renderMode2GUIO text id = "") ∧
    renderMode2GUIO text kRenderZX = "" ∧
    parseRenderMode "zx" = some kRenderZX ∧
    renderMode2GUIO text kRenderDefault = "" ∧
    allRenderModesGUIOs text =
      (s_renderGUIOMapping.map (fun m => renderMode2GUIO text m.id)).foldl
        (fun res g => res ++ g) "" := by
  have hentries : ∀ m ∈ s_renderGUIOMapping, renderMode2GUIO text m.id = text m.guio := by
    intro m hm
    simp only [s_renderGUIOMapping, List.mem_cons, List.mem_singleton, List.not_mem_nil,
      or_false] at hm
    rcases hm with rfl | rfl | rfl | rfl | rfl | rfl | rfl | rfl | rfl | rfl | rfl | rfl |
      rfl | rfl | rfl <;>
      simp [ renderMode2GUIO, s_renderGUIOMapping, empty_append_string]
  refine ⟨rfl, by decide, hentries, ?_, ?_, by decide, ?_, ?_⟩
  · intro h
    have hne : ∀ m ∈ s_renderGUIOMapping, ¬ id = m.id := fun m hm he => h m hm he.symm
    simp only [s_renderGUIOMapping, List.mem_cons, List.mem_singleton, List.not_mem_nil,
      or_false, forall_eq_or_imp, forall_eq] at hne
    simp [ renderMode2GUIO, s_renderGUIOMapping, hne]
  · simp [ renderMode2GUIO, s_renderGUIOMapping]
  · simp [ renderMode2GUIO, s_renderGUIOMapping]
  · have hmap : s_renderGUIOMapping.map (fun m => renderMode2GUIO text m.id) =
        s_renderGUIOMapping.map (fun m => text m.guio) :=
      List.map_congr_left hentries
    rw [hmap]
    simp [allRenderModesGUIOs, s_renderGUIOMapping]

/-- C26 with the macro names as strings: the string of `kRenderCGAComp` is its
entry, the string of the unlisted `other 7` is empty. -/
theorem renderMode_guio_strings_witness :
    renderMode2GUIO sampleGuiOptionText kRenderCGAComp = "GUIO_RENDERCGACOMP" ∧
    renderMode2GUIO sampleGuiOptionText (RenderMode.other 7) = "" :=
  ⟨(renderMode_guio_strings sampleGuiOptionText (RenderMode.other 7)).2.2.1
      ⟨kRenderCGAComp, GUIO_RENDERCGACOMP⟩ (by decide),
   (renderMode_guio_strings sampleGuiOptionText (RenderMode.other 7)).2.2.2.1 (by decide)⟩

end Common
